import Mathlib

/-!
Network protocol engine (network.c): shallow embedding and verified properties.

The C translation unit `network.c` is embedded as pure state-passing Lean functions.

* Bytes (`uint8_t`) are natural numbers; every place where the C code can wrap an
  8-bit value is written with an explicit `% 256`.  The `int16_t` timeout is an
  integer wrapped by `wrap16`.
* The process-wide `network_conn`, the function-local statics of
  `network_process_byte` and a trace of the transport calls form one `World`.
* Loops that the C code does not bound by itself carry a fuel argument and return
  an `Option`; `none` means that the fuel ran out.
* The constants of `network.h` (error codes, status values, sentinels, limits) are
  not part of the sources; they are the fields of `Config`.
* The functions are sequential: no interrupt handler runs while one of them
  executes, so the receive slot is only changed by the function itself.
-/

namespace Network

/-- Constants that `network.c` takes from `network.h`.  The header is not part of the
sources, so the values are parameters.  All of them except the three timeouts are
compared with or stored into `uint8_t` variables. -/
structure Config where
  NETWORK_NO_ERROR : Nat
  NETWORK_NOT_INITIALIZED : Nat
  NETWORK_NONE_ADDRESS_AVAILABLE : Nat
  NETWORK_NO_DATA : Nat
  NETWORK_TIMEOUT_EXCEEDED : Nat
  NETWORK_INVALID_PACKET : Nat
  NETWORK_COLLISION_DETECTED : Nat
  NETWORK_WRITE_ERROR : Nat
  NETWORK_ADDRESS_NONE : Nat
  NETWORK_ADDRESS_BROADCAST : Nat
  NETWORK_ADDRESS_MIN : Nat
  NETWORK_ADDRESS_MAX : Nat
  NETWORK_STATUS_ANY : Nat
  NETWORK_STATUS_CHECK : Nat
  NETWORK_STATUS_ACKNOWLEDGE : Nat
  NETWORK_STATUS_REQUEST : Nat
  NETWORK_STATUS_RESPONSE : Nat
  NETWORK_COMMAND_NONE : Nat
  NETWORK_ID_ANY : Nat
  NETWORK_TIMEOUT_INFINITE : Int
  NETWORK_TIMEOUT_CHECK : Int
  NETWORK_TIMEOUT_ACKNOWLEDGE : Int
  NETWORK_SEND_ATTEMPTS : Nat
  NETWORK_WRITE_PACKET_ATTEMPTS : Nat
deriving DecidableEq, Repr

/-- Modelled from the spec: `struct network_packet_header` is declared in `network.h`,
which is not part of the sources.  The spec gives seven 8-bit fields in the wire order
`[destination][source][status][command][id][length][checksum]`; the structure has no
padding, so `sizeof(struct network_packet_header)` is 7. -/
structure Header where
  destination : Nat
  source : Nat
  status : Nat
  command : Nat
  id : Nat
  length : Nat
  checksum : Nat
deriving DecidableEq, Repr

/-- The value of `sizeof(struct network_packet_header)`. -/
def HEADER_SIZE : Nat := 7

/-- The header seen as `(uint8_t*)&header`: its bytes in memory order. -/
def Header.bytes (h : Header) : List Nat :=
  [h.destination, h.source, h.status, h.command, h.id, h.length, h.checksum]

/-- The store `((uint8_t*)&header)[i] = v`. -/
def Header.write (h : Header) (i v : Nat) : Header :=
  match i with
  | 0 => { h with destination := v }
  | 1 => { h with source := v }
  | 2 => { h with status := v }
  | 3 => { h with command := v }
  | 4 => { h with id := v }
  | 5 => { h with length := v }
  | 6 => { h with checksum := v }
  | _ => h

/-- Modelled from the spec: `struct network_connection` is declared in `network.h`, which
is not part of the sources.  The fields are those that `network.c` uses on the global
`network_conn`; the spec gives `address` and `last_id` as 8-bit values and the flags as
booleans.  A payload pointer is `none` for `NULL` and `some bytes` for a heap block
holding `bytes`. -/
structure Connection where
  address : Nat
  last_id : Nat
  is_initialized : Bool
  is_packet_avaiable : Bool
  last_packet_header : Header
  last_packet_data : Option (List Nat)
deriving DecidableEq, Repr

/-- The whole mutable state: `network_conn`, the three statics of
`network_process_byte`, and a trace of the calls made to the transport.
`writes` counts the calls of `network_write_byte`, `wire` lists the bytes it accepted,
`sent` lists the (stamped header, payload pointer) of each `network_write_packet`
call and `polls` counts the calls of `network_get_last_packet` on an initialized
connection. -/
structure World where
  conn : Connection
  packet_index : Nat
  packet_header : Header
  packet_data : Option (List Nat)
  writes : Nat
  wire : List Nat
  sent : List (Header × Option (List Nat))
  polls : Nat
deriving DecidableEq, Repr

/-- The `int16_t` value of an integer (two's complement wrap-around). -/
def wrap16 (x : Int) : Int := (x + 32768) % 65536 - 32768

/-- The function `network_calculate_checksum`: saves the checksum field, zeroes it,
XOR-folds the seven bytes of the structure, restores the field.  Returns the checksum
and the header as the call leaves it. -/
def network_calculate_checksum (packet : Header) : Nat × Header :=
  let packet_checksum := packet.checksum
  let zeroed : Header := { packet with checksum := 0 }
  let checksum := zeroed.bytes.foldl (fun c b => c ^^^ b) 0
  (checksum, { zeroed with checksum := packet_checksum })

/-- The function `network_write_byte`.  It spins until the timer interrupt mode is
idle (assumed to happen), disables interrupts and samples the mode once more:
`busy k` is that sample for the call number `k`.  A busy line gives
`NETWORK_WRITE_ERROR`; otherwise the byte is accepted. -/
def network_write_byte (cfg : Config) (busy : Nat → Bool) (byte : Nat) (w : World) :
    Nat × World :=
  if busy w.writes then
    (cfg.NETWORK_WRITE_ERROR, { w with writes := w.writes + 1 })
  else
    (cfg.NETWORK_NO_ERROR, { w with writes := w.writes + 1, wire := w.wire ++ [byte] })

/-- The loop of `network_write_bytes` with `n` iterations left.  Every iteration passes
`*data`, the first byte of the buffer, to `network_write_byte`. -/
def network_write_bytes_loop (cfg : Config) (busy : Nat → Bool) (first : Nat) :
    Nat → Nat → World → Nat × World
  | 0, error, w => (error, w)
  | n + 1, error, w =>
    if error = cfg.NETWORK_NO_ERROR then
      let r := network_write_byte cfg busy first w
      network_write_bytes_loop cfg busy first n r.1 r.2
    else (error, w)

/-- The function `network_write_bytes(data, length)`.  `data` is the buffer the pointer
refers to (`none` for `NULL`); `*data` of an empty or null buffer is read as 0. -/
def network_write_bytes (cfg : Config) (busy : Nat → Bool) (data : Option (List Nat))
    (length : Nat) (w : World) : Nat × World :=
  network_write_bytes_loop cfg busy ((data.getD []).headD 0) length cfg.NETWORK_NO_ERROR w

/-- The do-while loop of `network_write_packet`; `attempts` is the `uint8_t` counter.
`network_wait_after_collision` is empty in the source. -/
def network_write_packet_loop (cfg : Config) (busy : Nat → Bool) (packet_header : Header)
    (packet_data : Option (List Nat)) : Nat → Nat → World → Option (Nat × World)
  | 0, _, _ => none
  | fuel + 1, attempts, w =>
    let r1 := network_write_bytes cfg busy (some packet_header.bytes) HEADER_SIZE w
    let r2 := if r1.1 = cfg.NETWORK_NO_ERROR then
        network_write_bytes cfg busy packet_data packet_header.length r1.2
      else r1
    let attempts1 := (attempts + 1) % 256
    if r2.1 = cfg.NETWORK_COLLISION_DETECTED ∧ attempts1 < cfg.NETWORK_WRITE_PACKET_ATTEMPTS then
      network_write_packet_loop cfg busy packet_header packet_data fuel attempts1 r2.2
    else some (r2.1, r2.2)

/-- The first statement of `network_write_packet`:
`packet_header->checksum = network_calculate_checksum(packet_header)`. -/
def Header.stamp (packet_header : Header) : Header :=
  { (network_calculate_checksum packet_header).2 with
    checksum := (network_calculate_checksum packet_header).1 }

/-- The function `network_write_packet`: stamps the checksum into the caller's header
(which is therefore `packet_header.stamp` after the call), then runs the write loop.
The stamped header and the payload pointer are recorded in `sent`. -/
def network_write_packet (cfg : Config) (busy : Nat → Bool) (fuel : Nat)
    (packet_header : Header) (packet_data : Option (List Nat)) (w : World) :
    Option (Nat × World) :=
  network_write_packet_loop cfg busy packet_header.stamp packet_data fuel 0
    { w with sent := w.sent ++ [(packet_header.stamp, packet_data)] }

/-- What a call with two output pointers leaves behind: the returned error, the
caller's header buffer (`none` when the pointer is `NULL`), the caller's payload
pointer variable (`none` when the pointer to it is `NULL`) and the world. -/
structure Got where
  error : Nat
  packet_header : Option Header
  packet_data : Option (Option (List Nat))
  world : World
deriving DecidableEq, Repr

/-- The function `network_get_last_packet`.  With a header buffer the slot is copied
out; with a `NULL` header the payload is freed and the slot is emptied. -/
def network_get_last_packet (cfg : Config) (packet_header : Option Header)
    (packet_data : Option (Option (List Nat))) (w : World) : Got :=
  if w.conn.is_initialized = false then
    ⟨cfg.NETWORK_NOT_INITIALIZED, packet_header, packet_data, w⟩
  else
    let w1 : World := { w with polls := w.polls + 1 }
    if w.conn.is_packet_avaiable then
      match packet_header with
      | some _ =>
        ⟨cfg.NETWORK_NO_ERROR, some w.conn.last_packet_header,
          packet_data.map (fun _ => w.conn.last_packet_data), w1⟩
      | none =>
        ⟨cfg.NETWORK_NO_ERROR, none, packet_data,
          { w1 with conn := { w.conn with last_packet_data := none,
                                          is_packet_avaiable := false } }⟩
    else
      ⟨cfg.NETWORK_NO_DATA, packet_header, packet_data, w1⟩

/-- The function `network_acknowledge_packet`. -/
def network_acknowledge_packet (cfg : Config) (busy : Nat → Bool) (fuel : Nat)
    (packet : Option Header) (w : World) : Option (Nat × World) :=
  if w.conn.is_initialized = false then some (cfg.NETWORK_NOT_INITIALIZED, w)
  else
    match packet with
    | none => some (cfg.NETWORK_NO_ERROR, w)
    | some p =>
      if p.source ≠ cfg.NETWORK_ADDRESS_BROADCAST
          ∧ p.status ≠ cfg.NETWORK_STATUS_ACKNOWLEDGE then
        network_write_packet cfg busy fuel
          { destination := p.source, source := w.conn.address,
            status := cfg.NETWORK_STATUS_ACKNOWLEDGE, command := p.command,
            id := p.id, length := 0, checksum := 0 } none w
      else some (cfg.NETWORK_NO_ERROR, w)

/-- The filter test of `network_wait_for_packet`: true when the header in the caller's
buffer is not the desired packet.  A `NULL` header pointer never mismatches. -/
def packet_mismatch (cfg : Config) (source status command id : Nat)
    (packet_header : Option Header) : Bool :=
  match packet_header with
  | none => false
  | some h =>
    decide ((source ≠ cfg.NETWORK_ADDRESS_NONE ∧ source ≠ h.source)
      ∨ (status ≠ cfg.NETWORK_STATUS_ANY ∧ status ≠ h.status)
      ∨ (command ≠ cfg.NETWORK_COMMAND_NONE ∧ command ≠ h.command)
      ∨ (id ≠ cfg.NETWORK_ID_ANY ∧ id ≠ h.id))

/-- The state of `network_wait_for_packet` when its do-while loop is left. -/
structure Polled where
  error : Nat
  timeout : Int
  packet_header : Option Header
  packet_data : Option (Option (List Nat))
  world : World
deriving DecidableEq, Repr

/-- The do-while loop of `network_wait_for_packet`.  `_delay_ms(1)` changes nothing.
The loop condition is `error == NETWORK_NO_DATA && (timeout == NETWORK_TIMEOUT_INFINITE
|| timeout-- > 0)`, so the timeout is decremented only when it is tested. -/
def network_wait_for_packet_loop (cfg : Config) (source status command id : Nat) :
    Nat → Int → Option Header → Option (Option (List Nat)) → World → Option Polled
  | 0, _, _, _, _ => none
  | fuel + 1, timeout, packet_header, packet_data, w =>
    let g := network_get_last_packet cfg packet_header packet_data w
    let error :=
      if g.error = cfg.NETWORK_NO_ERROR
          ∧ packet_mismatch cfg source status command id g.packet_header = true then
        cfg.NETWORK_NO_DATA
      else g.error
    if error = cfg.NETWORK_NO_DATA then
      if timeout = cfg.NETWORK_TIMEOUT_INFINITE then
        network_wait_for_packet_loop cfg source status command id fuel timeout
          g.packet_header g.packet_data g.world
      else if timeout > 0 then
        network_wait_for_packet_loop cfg source status command id fuel (wrap16 (timeout - 1))
          g.packet_header g.packet_data g.world
      else
        some ⟨error, wrap16 (timeout - 1), g.packet_header, g.packet_data, g.world⟩
    else
      some ⟨error, timeout, g.packet_header, g.packet_data, g.world⟩

/-- The function `network_wait_for_packet`.  The value returned by
`network_acknowledge_packet` is dropped, as in the source. -/
def network_wait_for_packet (cfg : Config) (busy : Nat → Bool) (fuel : Nat)
    (source status command id : Nat) (packet_header : Option Header)
    (packet_data : Option (Option (List Nat))) (timeout : Int) (w : World) : Option Got :=
  if w.conn.is_initialized = false then
    some ⟨cfg.NETWORK_NOT_INITIALIZED, packet_header, packet_data, w⟩
  else
    match network_wait_for_packet_loop cfg source status command id fuel timeout
        packet_header packet_data w with
    | none => none
    | some p =>
      if p.error = cfg.NETWORK_NO_ERROR then
        match network_acknowledge_packet cfg busy fuel p.packet_header p.world with
        | none => none
        | some a => some ⟨p.error, p.packet_header, p.packet_data, a.2⟩
      else if p.timeout < 0 then
        some ⟨cfg.NETWORK_TIMEOUT_EXCEEDED, p.packet_header, p.packet_data, p.world⟩
      else
        some ⟨p.error, p.packet_header, p.packet_data, p.world⟩

/-- The contents of a local header before anything is stored into it.  The source
never reads such a header before writing it. -/
def Header.uninit : Header :=
  { destination := 0, source := 0, status := 0, command := 0, id := 0, length := 0,
    checksum := 0 }

/-- The function `network_wait_for_acknowledge`. -/
def network_wait_for_acknowledge (cfg : Config) (busy : Nat → Bool) (fuel : Nat)
    (packet : Header) (w : World) : Option (Nat × World) :=
  if w.conn.is_initialized = false then some (cfg.NETWORK_NOT_INITIALIZED, w)
  else if packet.status ≠ cfg.NETWORK_STATUS_CHECK
      ∧ packet.status ≠ cfg.NETWORK_STATUS_ACKNOWLEDGE then
    (network_wait_for_packet cfg busy fuel packet.destination
      cfg.NETWORK_STATUS_ACKNOWLEDGE packet.command packet.id (some Header.uninit) none
      cfg.NETWORK_TIMEOUT_ACKNOWLEDGE w).map (fun g => (g.error, g.world))
  else some (cfg.NETWORK_NO_ERROR, w)

/-- The do-while loop of `network_send`; `attempts` is the `uint8_t` counter and
`packet_to_send` the header built before the loop. -/
def network_send_loop (cfg : Config) (busy : Nat → Bool) (packet_to_send : Header)
    (data : Option (List Nat)) : Nat → Nat → World → Option (Nat × World)
  | 0, _, _ => none
  | fuel + 1, attempts, w =>
    match network_write_packet cfg busy fuel packet_to_send data w with
    | none => none
    | some r1 =>
      match (if r1.1 = cfg.NETWORK_NO_ERROR then
          network_wait_for_acknowledge cfg busy fuel packet_to_send.stamp r1.2
        else some r1) with
      | none => none
      | some r2 =>
        let attempts1 := (attempts + 1) % 256
        if r2.1 = cfg.NETWORK_TIMEOUT_EXCEEDED ∧ attempts1 < cfg.NETWORK_SEND_ATTEMPTS then
          network_send_loop cfg busy packet_to_send data fuel attempts1 r2.2
        else some r2

/-- The function `network_send`.  The checksum field of the local header is not set
before `network_write_packet` stamps it. -/
def network_send (cfg : Config) (busy : Nat → Bool) (fuel : Nat)
    (destination status command : Nat) (data : Option (List Nat)) (length : Nat)
    (w : World) : Option (Nat × World) :=
  if w.conn.is_initialized = false then some (cfg.NETWORK_NOT_INITIALIZED, w)
  else
    let id := (w.conn.last_id + 1) % 256
    let w1 : World := { w with conn := { w.conn with last_id := id } }
    network_send_loop cfg busy
      { destination := destination, source := w.conn.address, status := status,
        command := command, id := id, length := length, checksum := 0 }
      data fuel 0 w1

/-- Modelled from the spec: `struct network_request_data` is declared in `network.h`,
which is not part of the sources.  The fields are those that `network_get_request` and
`network_send_response` use: source, destination, command, length and the payload
pointer. -/
structure RequestData where
  source : Nat
  destination : Nat
  command : Nat
  length : Nat
  data : Option (List Nat)
deriving DecidableEq, Repr

/-- The function `network_get_request`. -/
def network_get_request (cfg : Config) (busy : Nat → Bool) (fuel : Nat)
    (request : RequestData) (timeout : Int) (w : World) :
    Option (Nat × RequestData × World) :=
  if w.conn.is_initialized = false then some (cfg.NETWORK_NOT_INITIALIZED, request, w)
  else
    match network_wait_for_packet cfg busy fuel cfg.NETWORK_ADDRESS_NONE
        cfg.NETWORK_STATUS_REQUEST cfg.NETWORK_COMMAND_NONE cfg.NETWORK_ID_ANY
        (some Header.uninit) (some request.data) timeout w with
    | none => none
    | some g =>
      let request1 : RequestData := { request with data := (g.packet_data.getD request.data) }
      if g.error = cfg.NETWORK_NO_ERROR then
        let request_packet := g.packet_header.getD Header.uninit
        some (g.error,
          { request1 with source := request_packet.source,
                          destination := request_packet.destination,
                          command := request_packet.command,
                          length := request_packet.length }, g.world)
      else some (g.error, request1, g.world)

/-- The function `network_process_byte`.  A fresh `malloc` block is modelled as a
block of zeros.  A block kept from an earlier frame is reused as it is, without a new
`malloc`; a store past the end of such a block, which in C writes behind the block and
has no defined effect, is dropped here, so the properties of the payload path are
stated from states that hold no block.  `bytes_to_skip` is computed in `size_t` and
truncated to `uint8_t`; `packet_index` never exceeds 255. -/
def network_process_byte (cfg : Config) (busy : Nat → Bool) (fuel : Nat)
    (error data : Nat) (w : World) : Option (Nat × World) :=
  let s : Nat × World :=
    if error = cfg.NETWORK_NO_ERROR then
      if w.packet_index < HEADER_SIZE then
        let header := w.packet_header.write w.packet_index data
        let index := (w.packet_index + 1) % 256
        let w1 : World := { w with packet_header := header, packet_index := index }
        if index = 2 then
          if header.destination ≠ w.conn.address
              ∧ header.destination ≠ cfg.NETWORK_ADDRESS_BROADCAST then
            (cfg.NETWORK_INVALID_PACKET, w1)
          else (error, w1)
        else if index = HEADER_SIZE then
          let c := network_calculate_checksum header
          let w2 : World := { w1 with packet_header := c.2 }
          if c.1 ≠ c.2.checksum then (cfg.NETWORK_INVALID_PACKET, w2) else (error, w2)
        else (error, w1)
      else if w.packet_index - HEADER_SIZE < w.packet_header.length then
        let block := match w.packet_data with
          | none => List.replicate w.packet_header.length 0
          | some b => b
        (error, { w with packet_data := some (block.set (w.packet_index - HEADER_SIZE) data),
                         packet_index := (w.packet_index + 1) % 256 })
      else (error, w)
    else (error, w)
  let w1 := s.2
  if s.1 = cfg.NETWORK_NO_ERROR then
    if w1.packet_index = HEADER_SIZE + w1.packet_header.length then
      if w1.packet_header.status = cfg.NETWORK_STATUS_CHECK then
        match network_send cfg busy fuel w1.packet_header.source
            cfg.NETWORK_STATUS_ACKNOWLEDGE cfg.NETWORK_COMMAND_NONE none 0 w1 with
        | none => none
        | some r => some (0, { r.2 with packet_index := 0 })
      else if w1.conn.is_packet_avaiable = false then
        some (0, { w1 with
          conn := { w1.conn with last_packet_header := w1.packet_header,
                                 last_packet_data := w1.packet_data,
                                 is_packet_avaiable := true },
          packet_data := none, packet_index := 0 })
      else some (0, { w1 with packet_index := 0 })
    else some (0, w1)
  else
    some ((HEADER_SIZE + w1.packet_header.length + 256 - w1.packet_index) % 256,
      { w1 with packet_index := 0 })

/-- Feeds a byte sequence to `network_process_byte`, one call per byte with no prior
error, and collects the returned skip counts. -/
def feed (cfg : Config) (busy : Nat → Bool) (fuel : Nat) :
    List Nat → World → Option (List Nat × World)
  | [], w => some ([], w)
  | b :: bs, w =>
    match network_process_byte cfg busy fuel cfg.NETWORK_NO_ERROR b w with
    | none => none
    | some r =>
      match feed cfg busy fuel bs r.2 with
      | none => none
      | some rs => some (r.1 :: rs.1, rs.2)

/-- The function `network_check`: a `Check` packet is sent to `address` and an
`Acknowledge` from it is awaited for `NETWORK_TIMEOUT_CHECK` ticks. -/
def network_check (cfg : Config) (busy : Nat → Bool) (fuel : Nat) (address : Nat)
    (w : World) : Option (Bool × World) :=
  match network_send cfg busy fuel address cfg.NETWORK_STATUS_CHECK
      cfg.NETWORK_COMMAND_NONE none 0 w with
  | none => none
  | some r =>
    if r.1 = cfg.NETWORK_NO_ERROR then
      (network_wait_for_packet cfg busy fuel address cfg.NETWORK_STATUS_ACKNOWLEDGE
        cfg.NETWORK_COMMAND_NONE cfg.NETWORK_ID_ANY (some Header.uninit) none
        cfg.NETWORK_TIMEOUT_CHECK r.2).map
        (fun g => (decide (g.error ≠ cfg.NETWORK_TIMEOUT_EXCEEDED), g.world))
    else some (decide (r.1 ≠ cfg.NETWORK_TIMEOUT_EXCEEDED), r.2)

/-- The do-while loop of `network_initialize` over an arbitrary probe `check`;
`address` is the `uint8_t` candidate before the increment.  Returns the last
candidate, the last probe result and the world. -/
def network_initialize_loop (cfg : Config) (check : Nat → World → Option (Bool × World)) :
    Nat → Nat → World → Option (Nat × Bool × World)
  | 0, _, _ => none
  | fuel + 1, address, w =>
    let address1 := (address + 1) % 256
    match check address1 w with
    | none => none
    | some r =>
      if address1 ≤ cfg.NETWORK_ADDRESS_MAX ∧ r.1 = true then
        network_initialize_loop cfg check fuel address1 r.2
      else some (address1, r.1, r.2)

/-- The body of `network_initialize` with the probe `network_check` as a parameter.
The start value `NETWORK_ADDRESS_MIN - 1` is stored into a `uint8_t`. -/
def network_initialize_with (cfg : Config) (check : Nat → World → Option (Bool × World))
    (fuel : Nat) (w : World) : Option (Nat × World) :=
  if w.conn.is_initialized = false then
    let w1 : World :=
      { w with conn := { w.conn with address := cfg.NETWORK_ADDRESS_NONE, last_id := 0,
                                     is_packet_avaiable := false, is_initialized := true } }
    match network_initialize_loop cfg check fuel ((cfg.NETWORK_ADDRESS_MIN + 255) % 256) w1 with
    | none => none
    | some r =>
      if r.2.1 = false then
        some (cfg.NETWORK_NO_ERROR, { r.2.2 with conn := { r.2.2.conn with address := r.1 } })
      else
        some (cfg.NETWORK_NONE_ADDRESS_AVAILABLE,
          { r.2.2 with conn := { r.2.2.conn with is_initialized := false } })
  else some (cfg.NETWORK_NO_ERROR, w)

/-- The function `network_initialize`. -/
def network_initialize (cfg : Config) (busy : Nat → Bool) (fuel : Nat) (w : World) :
    Option (Nat × World) :=
  network_initialize_with cfg (network_check cfg busy fuel) fuel w

/-- A probe that answers from a fixed table of addresses in use and touches nothing. -/
def probe (used : Nat → Bool) (address : Nat) (w : World) : Option (Bool × World) :=
  some (used address, w)

/-- One concrete choice of the constants, used to run the model on examples. -/
def Config.sample : Config :=
  { NETWORK_NO_ERROR := 0, NETWORK_NOT_INITIALIZED := 1, NETWORK_NONE_ADDRESS_AVAILABLE := 2,
    NETWORK_NO_DATA := 3, NETWORK_TIMEOUT_EXCEEDED := 4, NETWORK_INVALID_PACKET := 5,
    NETWORK_COLLISION_DETECTED := 6, NETWORK_WRITE_ERROR := 7,
    NETWORK_ADDRESS_NONE := 0, NETWORK_ADDRESS_BROADCAST := 255,
    NETWORK_ADDRESS_MIN := 1, NETWORK_ADDRESS_MAX := 8,
    NETWORK_STATUS_ANY := 0, NETWORK_STATUS_CHECK := 1, NETWORK_STATUS_ACKNOWLEDGE := 2,
    NETWORK_STATUS_REQUEST := 3, NETWORK_STATUS_RESPONSE := 4,
    NETWORK_COMMAND_NONE := 0, NETWORK_ID_ANY := 0,
    NETWORK_TIMEOUT_INFINITE := -1, NETWORK_TIMEOUT_CHECK := 2,
    NETWORK_TIMEOUT_ACKNOWLEDGE := 3,
    NETWORK_SEND_ATTEMPTS := 3, NETWORK_WRITE_PACKET_ATTEMPTS := 3 }

/-- An initialized node with the given address, an empty receive slot, an idle
reassembler without payload block and an empty trace. -/
def World.fresh (address : Nat) : World :=
  { conn := { address := address, last_id := 0, is_initialized := true,
              is_packet_avaiable := false, last_packet_header := Header.uninit,
              last_packet_data := none },
    packet_index := 0, packet_header := Header.uninit, packet_data := none,
    writes := 0, wire := [], sent := [], polls := 0 }

/-- A transport that accepts every byte. -/
def idle : Nat → Bool := fun _ => false

/-- The byte at offset `i` of a header (0 past the end). -/
def Header.byte (h : Header) (i : Nat) : Nat := h.bytes.getD i 0

/-- Two headers differ in exactly one of their seven bytes. -/
def differInOneByte (a b : Header) : Prop :=
  ∃ i, i < HEADER_SIZE ∧ b.byte i ≠ a.byte i ∧
    ∀ j, j < HEADER_SIZE → j ≠ i → b.byte j = a.byte j

/-- The payload block the next payload byte is stored into: the block held by the
reassembler, or a fresh block of `length` zeros. -/
def World.block (w : World) : List Nat :=
  match w.packet_data with
  | none => List.replicate w.packet_header.length 0
  | some b => b

/-- Stores the bytes `bs` into `blk` from offset `k` on. -/
def storeAt (blk : List Nat) : Nat → List Nat → List Nat
  | _, [] => blk
  | k, b :: bs => storeAt (blk.set k b) (k + 1) bs

/-- The eight error codes of the protocol, in the order of `Config`. -/
def Config.errorCodes (cfg : Config) : List Nat :=
  [cfg.NETWORK_NO_ERROR, cfg.NETWORK_NOT_INITIALIZED, cfg.NETWORK_NONE_ADDRESS_AVAILABLE,
   cfg.NETWORK_NO_DATA, cfg.NETWORK_TIMEOUT_EXCEEDED, cfg.NETWORK_INVALID_PACKET,
   cfg.NETWORK_COLLISION_DETECTED, cfg.NETWORK_WRITE_ERROR]

/-- The error codes are pairwise different. -/
def Config.distinctErrors (cfg : Config) : Prop := cfg.errorCodes.Nodup

instance (cfg : Config) : Decidable cfg.distinctErrors := by
  unfold Config.distinctErrors; infer_instance

/-- One pass through the body of the write loop of `network_write_packet`: the header
bytes, then the payload bytes unless the header write failed. -/
def write_once (cfg : Config) (busy : Nat → Bool) (packet_header : Header)
    (packet_data : Option (List Nat)) (w : World) : Nat × World :=
  let r1 := network_write_bytes cfg busy (some packet_header.bytes) HEADER_SIZE w
  if r1.1 = cfg.NETWORK_NO_ERROR then
    network_write_bytes cfg busy packet_data packet_header.length r1.2
  else r1
/-- The receive slot holds a packet that passes the four filters of
`network_wait_for_packet`. -/
def slot_matches (cfg : Config) (source status command id : Nat) (w : World) : Prop :=
  w.conn.is_packet_avaiable = true ∧
    packet_mismatch cfg source status command id (some w.conn.last_packet_header) = false

instance (cfg : Config) (source status command id : Nat) (w : World) :
    Decidable (slot_matches cfg source status command id w) := by
  unfold slot_matches; infer_instance

/-- The header that `network_acknowledge_packet` builds for the packet `p` on a node
with the given own address, before the checksum is stamped. -/
def acknowledge_header (cfg : Config) (address : Nat) (p : Header) : Header :=
  { destination := p.source, source := address, status := cfg.NETWORK_STATUS_ACKNOWLEDGE,
    command := p.command, id := p.id, length := 0, checksum := 0 }

/-- The node `World.fresh address` with the packet `(h, data)` in its receive slot. -/
def World.holding (address : Nat) (h : Header) (data : Option (List Nat)) : World :=
  { World.fresh address with
    conn := { (World.fresh address).conn with is_packet_avaiable := true,
                                              last_packet_header := h,
                                              last_packet_data := data } }

/-- A node before `network_initialize`: the zero-initialised globals and statics, and an
empty trace. -/
def World.boot : World :=
  { conn := { address := 0, last_id := 0, is_initialized := false,
              is_packet_avaiable := false, last_packet_header := Header.uninit,
              last_packet_data := none },
    packet_index := 0, packet_header := Header.uninit, packet_data := none,
    writes := 0, wire := [], sent := [], polls := 0 }

/-- The function `network_send_response`. -/
def network_send_response (cfg : Config) (busy : Nat → Bool) (fuel : Nat)
    (request : RequestData) (data : Option (List Nat)) (length : Nat) (w : World) :
    Option (Nat × World) :=
  if w.conn.is_initialized = false then some (cfg.NETWORK_NOT_INITIALIZED, w)
  else
    network_send cfg busy fuel request.source cfg.NETWORK_STATUS_RESPONSE request.command
      data length w

/-- What `network_get_response` leaves behind: the returned error, the caller's
response pointer variable (`none` when the pointer to it is `NULL`), the caller's
response length variable and the world. -/
structure Response where
  error : Nat
  response_data : Option (Option (List Nat))
  response_length : Nat
  world : World
deriving DecidableEq, Repr

/-- The function `network_get_response`.  `response_length` is the current value of the
caller's length variable; it is overwritten only after a successful wait with a
non-`NULL` `response_data`. -/
def network_get_response (cfg : Config) (busy : Nat → Bool) (fuel : Nat)
    (address command : Nat) (request_data : Option (List Nat)) (request_length : Nat)
    (response_data : Option (Option (List Nat))) (response_length : Nat) (timeout : Int)
    (w : World) : Option Response :=
  if w.conn.is_initialized = false then
    some ⟨cfg.NETWORK_NOT_INITIALIZED, response_data, response_length, w⟩
  else
    match network_send cfg busy fuel address cfg.NETWORK_STATUS_REQUEST command request_data
        request_length w with
    | none => none
    | some r =>
      if r.1 = cfg.NETWORK_NO_ERROR ∧ address ≠ cfg.NETWORK_ADDRESS_BROADCAST then
        match network_wait_for_packet cfg busy fuel address cfg.NETWORK_STATUS_RESPONSE
            command cfg.NETWORK_ID_ANY (some Header.uninit) response_data timeout r.2 with
        | none => none
        | some g =>
          if g.error = cfg.NETWORK_NO_ERROR ∧ response_data.isSome = true then
            some ⟨g.error, g.packet_data, (g.packet_header.getD Header.uninit).length,
              g.world⟩
          else some ⟨g.error, g.packet_data, response_length, g.world⟩
      else some ⟨r.1, response_data, response_length, r.2⟩

/-- The packets handed to the transport between the worlds `w` and `w1`: the entries
that `w1.sent` has beyond the length of `w.sent`. -/
def sentDuring (w w1 : World) : List (Header × Option (List Nat)) :=
  w1.sent.drop w.sent.length

/-- The receive slot of a connection: occupied flag, header and payload pointer. -/
def Connection.slot (c : Connection) : Bool × Header × Option (List Nat) :=
  (c.is_packet_avaiable, c.last_packet_header, c.last_packet_data)

/-- The worlds `w` and `w1` agree on the connection and on the statics of the
reassembler (they may differ in the trace counters). -/
def World.sameState (w w1 : World) : Prop :=
  w1.conn = w.conn ∧ w1.packet_index = w.packet_index ∧
    w1.packet_header = w.packet_header ∧ w1.packet_data = w.packet_data

/-- First half of `network_process_byte`: the byte is stored into the header or into
the payload block (as there, a store past the end of a block kept from an earlier frame
is dropped).  Returns the local `error` and the world. -/
def reassemble_store (cfg : Config) (error data : Nat) (w : World) : Nat × World :=
  if error = cfg.NETWORK_NO_ERROR then
    if w.packet_index < HEADER_SIZE then
      let header := w.packet_header.write w.packet_index data
      let index := (w.packet_index + 1) % 256
      let w1 : World := { w with packet_header := header, packet_index := index }
      if index = 2 then
        if header.destination ≠ w.conn.address
            ∧ header.destination ≠ cfg.NETWORK_ADDRESS_BROADCAST then
          (cfg.NETWORK_INVALID_PACKET, w1)
        else (error, w1)
      else if index = HEADER_SIZE then
        let c := network_calculate_checksum header
        let w2 : World := { w1 with packet_header := c.2 }
        if c.1 ≠ c.2.checksum then (cfg.NETWORK_INVALID_PACKET, w2) else (error, w2)
      else (error, w1)
    else if w.packet_index - HEADER_SIZE < w.packet_header.length then
      let block := match w.packet_data with
        | none => List.replicate w.packet_header.length 0
        | some b => b
      (error, { w with packet_data := some (block.set (w.packet_index - HEADER_SIZE) data),
                       packet_index := (w.packet_index + 1) % 256 })
    else (error, w)
  else (error, w)

/-- Second half of `network_process_byte`: completion of the frame, or the skip count
of a frame marked invalid. -/
def reassemble_finish (cfg : Config) (busy : Nat → Bool) (fuel : Nat) (s : Nat × World) :
    Option (Nat × World) :=
  let w1 := s.2
  if s.1 = cfg.NETWORK_NO_ERROR then
    if w1.packet_index = HEADER_SIZE + w1.packet_header.length then
      if w1.packet_header.status = cfg.NETWORK_STATUS_CHECK then
        match network_send cfg busy fuel w1.packet_header.source
            cfg.NETWORK_STATUS_ACKNOWLEDGE cfg.NETWORK_COMMAND_NONE none 0 w1 with
        | none => none
        | some r => some (0, { r.2 with packet_index := 0 })
      else if w1.conn.is_packet_avaiable = false then
        some (0, { w1 with
          conn := { w1.conn with last_packet_header := w1.packet_header,
                                 last_packet_data := w1.packet_data,
                                 is_packet_avaiable := true },
          packet_data := none, packet_index := 0 })
      else some (0, { w1 with packet_index := 0 })
    else some (0, w1)
  else
    some ((HEADER_SIZE + w1.packet_header.length + 256 - w1.packet_index) % 256,
      { w1 with packet_index := 0 })

/-- The payload block that the payload of a frame with the given length field is stored
into, starting from the world `w`: the block the reassembler already holds, or a fresh
block of `length` zeros. -/
def World.blockFor (w : World) (length : Nat) : List Nat :=
  match w.packet_data with
  | none => List.replicate length 0
  | some b => b

theorem checksum_fst (h : Header) :
    (network_calculate_checksum h).1 =
      h.destination ^^^ h.source ^^^ h.status ^^^ h.command ^^^ h.id ^^^ h.length := by
  simp [network_calculate_checksum, Header.bytes]

@[simp] theorem checksum_snd (h : Header) : (network_calculate_checksum h).2 = h := by
  cases h; rfl

theorem feed_append (cfg : Config) (busy : Nat → Bool) (fuel : Nat) (xs ys : List Nat)
    (w w1 w2 : World) (r1 r2 : List Nat)
    (h1 : feed cfg busy fuel xs w = some (r1, w1))
    (h2 : feed cfg busy fuel ys w1 = some (r2, w2)) :
    feed cfg busy fuel (xs ++ ys) w = some (r1 ++ r2, w2) := by
  induction xs generalizing w r1 with
  | nil =>
    simp only [feed, Option.some.injEq, Prod.mk.injEq] at h1
    obtain ⟨rfl, rfl⟩ := h1
    simpa using h2
  | cons x xs ih =>
    simp only [feed, List.cons_append] at h1 ⊢
    cases hp : network_process_byte cfg busy fuel cfg.NETWORK_NO_ERROR x w with
    | none => simp [hp] at h1
    | some r =>
      simp only [hp] at h1 ⊢
      cases hf : feed cfg busy fuel xs r.2 with
      | none => simp [hf] at h1
      | some rs =>
        simp only [hf, Option.some.injEq, Prod.mk.injEq] at h1
        obtain ⟨rfl, rfl⟩ := h1
        have := ih r.2 rs.1 (by rw [hf])
        simp [this]

theorem feed_one (cfg : Config) (busy : Nat → Bool) (fuel : Nat) (b : Nat) (w : World)
    (r : Nat × World)
    (h : network_process_byte cfg busy fuel cfg.NETWORK_NO_ERROR b w = some r) :
    feed cfg busy fuel [b] w = some ([r.1], r.2) := by
  simp [feed, h]

/-- A header byte at an offset other than 1 and 6 is stored and nothing else happens. -/
theorem step_header (cfg : Config) (busy : Nat → Bool) (fuel : Nat) (w : World) (b : Nat)
    (hi : w.packet_index < 6) (h1 : w.packet_index ≠ 1) :
    network_process_byte cfg busy fuel cfg.NETWORK_NO_ERROR b w =
      some (0, { w with packet_header := w.packet_header.write w.packet_index b,
                        packet_index := w.packet_index + 1 }) := by
  have e : (w.packet_index + 1) % 256 = w.packet_index + 1 := by omega
  have n2 : ¬ (w.packet_index + 1 = 2) := by omega
  have n7 : ¬ (w.packet_index + 1 = 7) := by omega
  have n7' : ∀ k, ¬ (w.packet_index + 1 = 7 + k) := by intro k; omega
  have lt : w.packet_index < 7 := by omega
  simp [network_process_byte, HEADER_SIZE, e, n2, n7, n7', lt]

/-- The second header byte when the destination stored by the first byte is accepted. -/
theorem step_source_ok (cfg : Config) (busy : Nat → Bool) (fuel : Nat) (w : World) (b : Nat)
    (hi : w.packet_index = 1)
    (hd : w.packet_header.destination = w.conn.address
      ∨ w.packet_header.destination = cfg.NETWORK_ADDRESS_BROADCAST) :
    network_process_byte cfg busy fuel cfg.NETWORK_NO_ERROR b w =
      some (0, { w with packet_header := { w.packet_header with source := b },
                        packet_index := 2 }) := by
  have hd' : ¬ (¬ w.packet_header.destination = w.conn.address
      ∧ ¬ w.packet_header.destination = cfg.NETWORK_ADDRESS_BROADCAST) := by tauto
  have n : ∀ k, ¬ (2 = 7 + k) := by intro k; omega
  simp [network_process_byte, HEADER_SIZE, hi, Header.write, hd', n]

/-- The second header byte when the destination is neither the own address nor the
broadcast address: the frame is dropped and the skip count uses the length field that
the header buffer holds at that moment. -/
theorem step_source_bad (cfg : Config) (busy : Nat → Bool) (fuel : Nat) (w : World) (b : Nat)
    (hi : w.packet_index = 1)
    (hd : w.packet_header.destination ≠ w.conn.address
      ∧ w.packet_header.destination ≠ cfg.NETWORK_ADDRESS_BROADCAST)
    (hcodes : cfg.NETWORK_INVALID_PACKET ≠ cfg.NETWORK_NO_ERROR) :
    network_process_byte cfg busy fuel cfg.NETWORK_NO_ERROR b w =
      some ((HEADER_SIZE + w.packet_header.length + 256 - 2) % 256,
        { w with packet_header := { w.packet_header with source := b },
                 packet_index := 0 }) := by
  simp [network_process_byte, HEADER_SIZE, hi, Header.write, hd, hcodes]

/-- The seventh header byte when it is not the XOR of the six bytes before it. -/
theorem step_checksum_bad (cfg : Config) (busy : Nat → Bool) (fuel : Nat) (w : World) (b : Nat)
    (hi : w.packet_index = 6)
    (hck : (network_calculate_checksum w.packet_header).1 ≠ b)
    (hcodes : cfg.NETWORK_INVALID_PACKET ≠ cfg.NETWORK_NO_ERROR) :
    network_process_byte cfg busy fuel cfg.NETWORK_NO_ERROR b w =
      some (w.packet_header.length % 256,
        { w with packet_header := { w.packet_header with checksum := b },
                 packet_index := 0 }) := by
  have hck' : ¬ (w.packet_header.destination ^^^ w.packet_header.source ^^^
      w.packet_header.status ^^^ w.packet_header.command ^^^ w.packet_header.id ^^^
      w.packet_header.length = b) := by
    rw [checksum_fst] at hck; exact hck
  have e : (7 + w.packet_header.length + 256 - 7) % 256 = w.packet_header.length % 256 := by
    omega
  simp [network_process_byte, HEADER_SIZE, hi, Header.write, checksum_fst, hck', hcodes]
  omega

/-- The seventh header byte when it is the XOR of the six bytes before it and a payload
follows: the header is complete and the reassembler waits for the payload. -/
theorem step_checksum_ok (cfg : Config) (busy : Nat → Bool) (fuel : Nat) (w : World) (b : Nat)
    (hi : w.packet_index = 6)
    (hck : (network_calculate_checksum w.packet_header).1 = b)
    (hlen : 0 < w.packet_header.length) :
    network_process_byte cfg busy fuel cfg.NETWORK_NO_ERROR b w =
      some (0, { w with packet_header := { w.packet_header with checksum := b },
                        packet_index := 7 }) := by
  have hck' : (w.packet_header.destination ^^^ w.packet_header.source ^^^
      w.packet_header.status ^^^ w.packet_header.command ^^^ w.packet_header.id ^^^
      w.packet_header.length = b) := by
    rw [checksum_fst] at hck; exact hck
  have n : ¬ (w.packet_header.length = 0) := by omega
  simp [network_process_byte, HEADER_SIZE, hi, Header.write, checksum_fst, hck', n]

/-- The first six bytes of a frame accepted by the destination test, fed to an idle
reassembler, fill the header buffer and return no skip count. -/
theorem feed_header6 (cfg : Config) (busy : Nat → Bool) (fuel : Nat) (w : World)
    (d s st c id l : Nat) (hidle : w.packet_index = 0)
    (hd : d = w.conn.address ∨ d = cfg.NETWORK_ADDRESS_BROADCAST) :
    feed cfg busy fuel [d, s, st, c, id, l] w =
      some ([0, 0, 0, 0, 0, 0],
        { w with packet_header := { destination := d, source := s, status := st,
                                    command := c, id := id, length := l,
                                    checksum := w.packet_header.checksum },
                 packet_index := 6 }) := by
  obtain ⟨conn, idx, hdr, data, writes, wire, sent, polls⟩ := w
  simp only at hidle hd
  subst hidle
  simp only [feed]
  rw [step_header _ _ _ _ _ (by simp) (by simp)]
  simp only [Header.write]
  rw [step_source_ok _ _ _ _ _ (by simp) (by simpa using hd)]
  simp only []
  rw [step_header _ _ _ _ _ (by simp) (by simp)]
  simp only [Header.write]
  rw [step_header _ _ _ _ _ (by simp) (by simp)]
  simp only [Header.write]
  rw [step_header _ _ _ _ _ (by simp) (by simp)]
  simp only [Header.write]
  rw [step_header _ _ _ _ _ (by simp) (by simp)]
  simp only [Header.write]

theorem storeAt_append (bs : List Nat) : ∀ (pre blk : List Nat),
    blk.length = bs.length → storeAt (pre ++ blk) pre.length bs = pre ++ bs := by
  induction bs with
  | nil =>
    intro pre blk h
    have : blk = [] := List.length_eq_zero.mp (by simpa using h)
    simp [storeAt, this]
  | cons b bs ih =>
    intro pre blk h
    cases blk with
    | nil => simp at h
    | cons x blk =>
      have := ih (pre ++ [b]) blk (by simpa using h)
      simp only [List.length_append, List.length_singleton, List.append_assoc,
        List.singleton_append] at this
      simp [storeAt, this]

theorem storeAt_replicate (P : List Nat) :
    storeAt (List.replicate P.length 0) 0 P = P := by
  simpa using storeAt_append P [] (List.replicate P.length 0) (by simp)

/-- A payload byte that does not complete the frame is stored at its offset. -/
theorem step_payload (cfg : Config) (busy : Nat → Bool) (fuel : Nat) (w : World) (b k : Nat)
    (hi : w.packet_index = 7 + k) (hk : k + 1 < w.packet_header.length)
    (hfit : 7 + k < 255) :
    network_process_byte cfg busy fuel cfg.NETWORK_NO_ERROR b w =
      some (0, { w with packet_data := some (w.block.set k b),
                        packet_index := 7 + (k + 1) }) := by
  have e : (7 + k + 1) % 256 = 7 + (k + 1) := by omega
  have n1 : ¬ (7 + k < 7) := by omega
  have n2 : k < w.packet_header.length := by omega
  have n3 : ¬ (k + 1 = w.packet_header.length) := by omega
  simp only [network_process_byte, HEADER_SIZE, hi, e, n1, World.block]
  simp [n2, n3]

/-- The payload byte that completes a frame other than a `Check` while the receive slot
is empty: header and payload move into the slot. -/
theorem step_payload_last (cfg : Config) (busy : Nat → Bool) (fuel : Nat) (w : World)
    (b k : Nat)
    (hi : w.packet_index = 7 + k) (hk : k + 1 = w.packet_header.length)
    (hfit : 7 + k < 255)
    (hst : w.packet_header.status ≠ cfg.NETWORK_STATUS_CHECK)
    (hslot : w.conn.is_packet_avaiable = false) :
    network_process_byte cfg busy fuel cfg.NETWORK_NO_ERROR b w =
      some (0, { w with
        conn := { w.conn with last_packet_header := w.packet_header,
                              last_packet_data := some (w.block.set k b),
                              is_packet_avaiable := true },
        packet_data := none, packet_index := 0 }) := by
  have e : (7 + k + 1) % 256 = 7 + (k + 1) := by omega
  have n1 : ¬ (7 + k < 7) := by omega
  have n2 : k < w.packet_header.length := by omega
  simp only [network_process_byte, HEADER_SIZE, hi, e, n1, World.block]
  simp [n2, hk, hst, hslot]

/-- The payload byte stored while the byte counter is 255: the counter wraps to 0 and
the frame is not completed. -/
theorem step_payload_wrap (cfg : Config) (busy : Nat → Bool) (fuel : Nat) (w : World)
    (b : Nat)
    (hi : w.packet_index = 255) (hk : 248 < w.packet_header.length) :
    network_process_byte cfg busy fuel cfg.NETWORK_NO_ERROR b w =
      some (0, { w with packet_data := some (w.block.set 248 b), packet_index := 0 }) := by
  have n : ∀ k, ¬ (0 = 7 + k) := by intro k; omega
  simp only [network_process_byte, HEADER_SIZE, hi, World.block]
  simp [hk, n]

/-- The seventh header byte of a frame without payload, other than a `Check`, while the
receive slot is empty: the header moves into the slot at once. -/
theorem step_checksum_ok_empty (cfg : Config) (busy : Nat → Bool) (fuel : Nat) (w : World)
    (b : Nat)
    (hi : w.packet_index = 6)
    (hck : (network_calculate_checksum w.packet_header).1 = b)
    (hlen : w.packet_header.length = 0)
    (hst : w.packet_header.status ≠ cfg.NETWORK_STATUS_CHECK)
    (hslot : w.conn.is_packet_avaiable = false) :
    network_process_byte cfg busy fuel cfg.NETWORK_NO_ERROR b w =
      some (0, { w with
        conn := { w.conn with
          last_packet_header := { w.packet_header with checksum := b },
          last_packet_data := w.packet_data,
          is_packet_avaiable := true },
        packet_header := { w.packet_header with checksum := b },
        packet_data := none, packet_index := 0 }) := by
  have hck' : (w.packet_header.destination ^^^ w.packet_header.source ^^^
      w.packet_header.status ^^^ w.packet_header.command ^^^ w.packet_header.id ^^^
      w.packet_header.length = b) := by
    rw [checksum_fst] at hck; exact hck
  rw [hlen, Nat.xor_zero] at hck'
  simp [network_process_byte, HEADER_SIZE, hi, Header.write, checksum_fst, hck', hlen, hst,
    hslot]

/-- Payload bytes that do not complete the frame are stored one after the other. -/
theorem feed_payload_part (cfg : Config) (busy : Nat → Bool) (fuel : Nat) (bs : List Nat) :
    ∀ (w : World) (k : Nat), w.packet_index = 7 + k →
      k + bs.length < w.packet_header.length → 7 + k + bs.length ≤ 255 →
      feed cfg busy fuel bs w =
        some (List.replicate bs.length 0,
          { w with packet_data := if bs = [] then w.packet_data
                                  else some (storeAt w.block k bs),
                   packet_index := 7 + (k + bs.length) }) := by
  induction bs with
  | nil =>
    intro w k hi _ _
    obtain ⟨conn, idx, hdr, data, writes, wire, sent, polls⟩ := w
    simp only at hi
    simp [feed, hi]
  | cons b bs ih =>
    intro w k hi hk hfit
    simp only [List.length_cons] at hk hfit
    simp only [feed]
    rw [step_payload cfg busy fuel w b k hi (by omega) (by omega)]
    simp only []
    rw [ih _ (k + 1) rfl (by simpa using (by omega : k + 1 + bs.length < w.packet_header.length))
      (by omega)]
    simp only [List.length_cons, List.replicate_succ, Option.some.injEq, Prod.mk.injEq,
      true_and, reduceCtorEq, if_false]
    by_cases hbs : bs = []
    · subst hbs; simp [storeAt, World.block]
    · simp [hbs, storeAt, World.block]
      omega

/-- Payload bytes that complete a frame other than a `Check` while the receive slot is
empty: the frame moves into the slot. -/
theorem feed_payload_rest (cfg : Config) (busy : Nat → Bool) (fuel : Nat) (bs : List Nat) :
    ∀ (w : World) (k : Nat), bs ≠ [] → w.packet_index = 7 + k →
      k + bs.length = w.packet_header.length → 7 + k + bs.length ≤ 255 →
      w.packet_header.status ≠ cfg.NETWORK_STATUS_CHECK →
      w.conn.is_packet_avaiable = false →
      feed cfg busy fuel bs w =
        some (List.replicate bs.length 0,
          { w with
            conn := { w.conn with last_packet_header := w.packet_header,
                                  last_packet_data := some (storeAt w.block k bs),
                                  is_packet_avaiable := true },
            packet_data := none, packet_index := 0 }) := by
  induction bs with
  | nil => intro w k h; exact absurd rfl h
  | cons b bs ih =>
    intro w k _ hi hk hfit hst hslot
    simp only [List.length_cons] at hk hfit
    simp only [feed]
    by_cases hbs : bs = []
    · subst hbs
      rw [step_payload_last cfg busy fuel w b k hi (by simpa using hk) (by omega) hst hslot]
      simp [feed, storeAt]
    · rw [step_payload cfg busy fuel w b k hi
        (by have := List.length_pos.mpr hbs; omega) (by omega)]
      simp only []
      rw [ih { w with packet_data := some (w.block.set k b), packet_index := 7 + (k + 1) }
        (k + 1) hbs rfl
        (by simpa using (by omega : k + 1 + bs.length = w.packet_header.length))
        (by omega) hst hslot]
      simp [storeAt, World.block, List.replicate_succ]

/-- A well-formed frame with at most 248 payload bytes, other than a `Check`, addressed
to this node or to everybody, fed to the idle reassembler while the receive slot is
empty: every call returns 0 and the frame ends up in the slot. -/
theorem feed_frame_stored (cfg : Config) (busy : Nat → Bool) (fuel : Nat) (w : World)
    (h : Header) (P : List Nat)
    (hidle : w.packet_index = 0) (hbuf : w.packet_data = none)
    (hslot : w.conn.is_packet_avaiable = false)
    (hdest : h.destination = w.conn.address ∨ h.destination = cfg.NETWORK_ADDRESS_BROADCAST)
    (hck : h.checksum =
      h.destination ^^^ h.source ^^^ h.status ^^^ h.command ^^^ h.id ^^^ h.length)
    (hst : h.status ≠ cfg.NETWORK_STATUS_CHECK)
    (hlen : P.length = h.length) (hfit : 7 + P.length ≤ 255) :
    feed cfg busy fuel (h.bytes ++ P) w =
      some (List.replicate (7 + P.length) 0,
        { w with
          conn := { w.conn with last_packet_header := h,
                                last_packet_data := if P = [] then none else some P,
                                is_packet_avaiable := true },
          packet_header := h, packet_data := none, packet_index := 0 }) := by
  obtain ⟨d, s, st, c, id, l, ck⟩ := h
  simp only at hdest hck hst hlen
  subst hlen
  have h6 := feed_header6 cfg busy fuel w d s st c id P.length hidle hdest
  by_cases hP : P = []
  · subst hP
    simp only [List.length_nil] at *
    have h7 := feed_one _ _ _ _ _ _ (step_checksum_ok_empty cfg busy fuel
      { w with packet_header := { destination := d, source := s, status := st,
                                  command := c, id := id, length := 0,
                                  checksum := w.packet_header.checksum },
               packet_index := 6 } ck rfl
      (by simp only [checksum_fst]; exact hck.symm) rfl hst hslot)
    have := feed_append cfg busy fuel _ _ _ _ _ _ _ h6 h7
    simpa [Header.bytes, hbuf] using this
  · have hl : 0 < P.length := List.length_pos.mpr hP
    have h7 := feed_one _ _ _ _ _ _ (step_checksum_ok cfg busy fuel
      { w with packet_header := { destination := d, source := s, status := st,
                                  command := c, id := id, length := P.length,
                                  checksum := w.packet_header.checksum },
               packet_index := 6 } ck rfl
      (by simp only [checksum_fst]; exact hck.symm) hl)
    have h67 := feed_append cfg busy fuel _ _ _ _ _ _ _ h6 h7
    have hp := feed_payload_rest cfg busy fuel P _ 0 hP
      (show (World.mk w.conn 7 ⟨d, s, st, c, id, P.length, ck⟩ w.packet_data w.writes w.wire
        w.sent w.polls).packet_index = 7 + 0 from rfl)
      (by simp) (by simpa using hfit) hst hslot
    have := feed_append cfg busy fuel _ _ _ _ _ _ _ h67 hp
    simp only [World.block, hbuf, storeAt_replicate] at this
    simpa [Header.bytes, hP, List.replicate_succ, List.replicate_add] using this

theorem storeAt_concat (xs ys : List Nat) : ∀ (blk : List Nat) (k : Nat),
    storeAt blk k (xs ++ ys) = storeAt (storeAt blk k xs) (k + xs.length) ys := by
  induction xs with
  | nil => intro blk k; simp [storeAt]
  | cons x xs ih =>
    intro blk k
    have e : k + 1 + xs.length = k + (xs.length + 1) := by omega
    show storeAt (blk.set k x) (k + 1) (xs ++ ys) = _
    rw [ih, e]
    rfl

/-- The seven bytes of a header with a valid checksum and a non-empty payload, accepted
by the destination test: the header buffer holds the header and the byte counter is 7. -/
theorem feed_header7 (cfg : Config) (busy : Nat → Bool) (fuel : Nat) (w : World)
    (h : Header) (hidle : w.packet_index = 0)
    (hdest : h.destination = w.conn.address ∨ h.destination = cfg.NETWORK_ADDRESS_BROADCAST)
    (hck : h.checksum =
      h.destination ^^^ h.source ^^^ h.status ^^^ h.command ^^^ h.id ^^^ h.length)
    (hlen : 0 < h.length) :
    feed cfg busy fuel h.bytes w =
      some (List.replicate 7 0, { w with packet_header := h, packet_index := 7 }) := by
  obtain ⟨d, s, st, c, id, l, ck⟩ := h
  simp only at hdest hck hlen
  have h6 := feed_header6 cfg busy fuel w d s st c id l hidle hdest
  have h7 := feed_one _ _ _ _ _ _ (step_checksum_ok cfg busy fuel
    { w with packet_header := { destination := d, source := s, status := st,
                                command := c, id := id, length := l,
                                checksum := w.packet_header.checksum },
             packet_index := 6 } ck rfl
    (by simp only [checksum_fst]; exact hck.symm) hlen)
  have h67 := feed_append cfg busy fuel _ _ _ _ _ _ _ h6 h7
  simpa [Header.bytes, List.replicate_succ] using h67

/-- A frame with 249 payload bytes: the byte counter wraps from 255 to 0 on the last
payload byte, the completion test `packet_index == 7 + length` never holds, and the frame
stays in the reassembler block instead of reaching the receive slot. -/
theorem feed_frame_249 (cfg : Config) (busy : Nat → Bool) (fuel : Nat) (w : World)
    (h : Header) (P : List Nat)
    (hidle : w.packet_index = 0) (hbuf : w.packet_data = none)
    (hdest : h.destination = w.conn.address ∨ h.destination = cfg.NETWORK_ADDRESS_BROADCAST)
    (hck : h.checksum =
      h.destination ^^^ h.source ^^^ h.status ^^^ h.command ^^^ h.id ^^^ h.length)
    (hlen : P.length = h.length) (h249 : h.length = 249) :
    feed cfg busy fuel (h.bytes ++ P) w =
      some (List.replicate 256 0,
        { w with packet_header := h, packet_data := some P, packet_index := 0 }) := by
  have hP : P ≠ [] := by intro e; simp [e, h249] at hlen
  obtain ⟨conn, idx, hdr, data, writes, wire, sent, polls⟩ := w
  simp only at hidle hbuf hdest
  subst hidle hbuf
  have h7 := feed_header7 cfg busy fuel ⟨conn, 0, hdr, none, writes, wire, sent, polls⟩ h rfl
    hdest hck (by omega)
  have hdl : P.dropLast.length = 248 := by simp [hlen, h249]
  have hne : P.dropLast ≠ [] := by intro e; simp [e] at hdl
  have hinit := feed_payload_part cfg busy fuel P.dropLast
    ⟨conn, 7, h, none, writes, wire, sent, polls⟩ 0 rfl
    (by simp [hlen, h249]) (by simp [hlen, h249])
  simp only [hne, if_false, hdl, World.block, Nat.zero_add, Nat.reduceAdd, h249]
    at hinit
  have hlast := feed_one _ _ _ _ _ _ (step_payload_wrap cfg busy fuel
    ⟨conn, 255, h, some (storeAt (List.replicate 249 0) 0 P.dropLast), writes, wire, sent,
      polls⟩
    (P.getLast hP) rfl (by simp [h249]))
  have hpay := feed_append cfg busy fuel _ _ _ _ _ _ _ hinit hlast
  rw [List.dropLast_append_getLast hP] at hpay
  have hall := feed_append cfg busy fuel _ _ _ _ _ _ _ h7 hpay
  have hblk : (storeAt (List.replicate 249 0) 0 P.dropLast).set 248 (P.getLast hP) = P := by
    have e1 := storeAt_concat P.dropLast [P.getLast hP] (List.replicate 249 0) 0
    rw [List.dropLast_append_getLast hP] at e1
    have e2 := storeAt_replicate P
    rw [hlen, h249] at e2
    rw [e2] at e1
    simp only [storeAt, hdl, Nat.zero_add] at e1
    exact e1.symm
  have hzeros : List.replicate 7 0 ++ (List.replicate 248 0 ++ [0]) = List.replicate 256 0 := by
    rw [show [0] = List.replicate 1 0 from rfl, List.append_replicate_replicate,
      List.append_replicate_replicate]
  simp only [World.block, hblk, hzeros] at hall
  exact hall

theorem nodup_get_ne (l : List Nat) (h : l.Nodup) (i j : Nat) (hi : i < l.length)
    (hj : j < l.length) (hij : i ≠ j) : l.get ⟨i, hi⟩ ≠ l.get ⟨j, hj⟩ := by
  intro e
  have := (List.Nodup.get_inj_iff h).mp e
  exact hij (by simpa using this)

theorem distinct_no_error_no_data (cfg : Config) (h : cfg.distinctErrors) :
    cfg.NETWORK_NO_ERROR ≠ cfg.NETWORK_NO_DATA :=
  nodup_get_ne cfg.errorCodes h 0 3 (by simp [Config.errorCodes]) (by simp [Config.errorCodes])
    (by decide)

theorem distinct_collision (cfg : Config) (h : cfg.distinctErrors) :
    cfg.NETWORK_NO_ERROR ≠ cfg.NETWORK_COLLISION_DETECTED
      ∧ cfg.NETWORK_WRITE_ERROR ≠ cfg.NETWORK_COLLISION_DETECTED :=
  ⟨nodup_get_ne cfg.errorCodes h 0 6 (by simp [Config.errorCodes])
      (by simp [Config.errorCodes]) (by decide),
   nodup_get_ne cfg.errorCodes h 7 6 (by simp [Config.errorCodes])
      (by simp [Config.errorCodes]) (by decide)⟩

/-- The byte loop returns `NETWORK_NO_ERROR` or `NETWORK_WRITE_ERROR` when it starts
without error, and only touches the byte trace. -/
theorem write_bytes_loop_spec (cfg : Config) (busy : Nat → Bool) (first : Nat) (n : Nat) :
    ∀ (e : Nat) (w : World),
      (e = cfg.NETWORK_NO_ERROR ∨ e = cfg.NETWORK_WRITE_ERROR) →
      let r := network_write_bytes_loop cfg busy first n e w
      (r.1 = cfg.NETWORK_NO_ERROR ∨ r.1 = cfg.NETWORK_WRITE_ERROR) ∧
      r.2.conn = w.conn ∧ r.2.packet_index = w.packet_index ∧
      r.2.packet_header = w.packet_header ∧ r.2.packet_data = w.packet_data ∧
      r.2.sent = w.sent ∧ r.2.polls = w.polls := by
  induction n with
  | zero => intro e w he; simp [network_write_bytes_loop, he]
  | succ n ih =>
    intro e w he
    simp only [network_write_bytes_loop]
    split
    · have hb : (network_write_byte cfg busy first w).1 = cfg.NETWORK_NO_ERROR ∨
          (network_write_byte cfg busy first w).1 = cfg.NETWORK_WRITE_ERROR := by
        unfold network_write_byte; split <;> simp
      have hw : (network_write_byte cfg busy first w).2.conn = w.conn ∧
          (network_write_byte cfg busy first w).2.packet_index = w.packet_index ∧
          (network_write_byte cfg busy first w).2.packet_header = w.packet_header ∧
          (network_write_byte cfg busy first w).2.packet_data = w.packet_data ∧
          (network_write_byte cfg busy first w).2.sent = w.sent ∧
          (network_write_byte cfg busy first w).2.polls = w.polls := by
        unfold network_write_byte; split <;> simp
      have := ih _ (network_write_byte cfg busy first w).2 hb
      simp only [hw.1, hw.2.1, hw.2.2.1, hw.2.2.2.1, hw.2.2.2.2.1, hw.2.2.2.2.2] at this
      exact this
    · simp [he]

/-- One pass of the write loop ends with `NETWORK_NO_ERROR` or `NETWORK_WRITE_ERROR`
and only touches the byte trace. -/
theorem write_once_spec (cfg : Config) (busy : Nat → Bool) (h : Header)
    (data : Option (List Nat)) (w : World) :
    let r := write_once cfg busy h data w
    (r.1 = cfg.NETWORK_NO_ERROR ∨ r.1 = cfg.NETWORK_WRITE_ERROR) ∧
    r.2.conn = w.conn ∧ r.2.packet_index = w.packet_index ∧
    r.2.packet_header = w.packet_header ∧ r.2.packet_data = w.packet_data ∧
    r.2.sent = w.sent ∧ r.2.polls = w.polls := by
  have h1 := write_bytes_loop_spec cfg busy ((some h.bytes).getD [] |>.headD 0) HEADER_SIZE
    cfg.NETWORK_NO_ERROR w (Or.inl rfl)
  simp only [write_once, network_write_bytes]
  split
  · have h2 := write_bytes_loop_spec cfg busy ((data.getD []).headD 0) h.length
      cfg.NETWORK_NO_ERROR
      (network_write_bytes_loop cfg busy ((some h.bytes).getD [] |>.headD 0) HEADER_SIZE
        cfg.NETWORK_NO_ERROR w).2 (Or.inl rfl)
    simp only [h1.2.1, h1.2.2.1, h1.2.2.2.1, h1.2.2.2.2.1, h1.2.2.2.2.2.1, h1.2.2.2.2.2.2] at h2
    exact h2
  · exact h1

/-- With pairwise different error codes the write loop of `network_write_packet` runs
its body exactly once, for any behaviour of the line. -/
theorem write_packet_eq (cfg : Config) (busy : Nat → Bool) (fuel : Nat) (h : Header)
    (data : Option (List Nat)) (w : World) (hd : cfg.distinctErrors) :
    network_write_packet cfg busy (fuel + 1) h data w =
      some (write_once cfg busy h.stamp data
        { w with sent := w.sent ++ [(h.stamp, data)] }) := by
  have hs := (write_once_spec cfg busy h.stamp data
    { w with sent := w.sent ++ [(h.stamp, data)] }).1
  have hc := distinct_collision cfg hd
  have hne : ¬ ((write_once cfg busy h.stamp data
      { w with sent := w.sent ++ [(h.stamp, data)] }).1 = cfg.NETWORK_COLLISION_DETECTED) := by
    rcases hs with e | e <;> rw [e]
    · exact hc.1
    · exact hc.2
  simp only [network_write_packet, network_write_packet_loop]
  simp only [write_once] at hne
  simp [hne, write_once]

theorem wrap16_pred (n : Nat) (h : n ≤ 32767) : wrap16 ((n : Int) + 1 - 1) = (n : Int) := by
  unfold wrap16; omega

theorem wrap16_neg_one : wrap16 (-1) = -1 := by decide

/-- The first poll of the wait loop finds a packet that passes the filters: the loop is
left at once with the slot copied out and the slot itself untouched. -/
theorem wait_loop_match (cfg : Config) (source status command id : Nat) (fuel : Nat)
    (timeout : Int) (h0 : Header) (pd : Option (Option (List Nat))) (w : World)
    (hinit : w.conn.is_initialized = true)
    (hm : slot_matches cfg source status command id w)
    (hne : cfg.NETWORK_NO_ERROR ≠ cfg.NETWORK_NO_DATA) :
    network_wait_for_packet_loop cfg source status command id (fuel + 1) timeout (some h0) pd w =
      some ⟨cfg.NETWORK_NO_ERROR, timeout, some w.conn.last_packet_header,
        pd.map (fun _ => w.conn.last_packet_data), { w with polls := w.polls + 1 }⟩ := by
  obtain ⟨ha, hmm⟩ := hm
  simp [network_wait_for_packet_loop, network_get_last_packet, hinit, ha, hmm, hne]

/-- While the slot is empty or holds a packet that fails a filter, a wait with a finite
timeout of `n` ticks polls the slot `n + 1` times and leaves the loop with
`NETWORK_NO_DATA` and a timeout of -1.  A non-matching occupant is copied to the
caller's buffers and stays in the slot. -/
theorem wait_loop_nomatch (cfg : Config) (source status command id : Nat) (n : Nat) :
    ∀ (fuel : Nat) (h0 : Header) (pd : Option (Option (List Nat))) (w : World),
      w.conn.is_initialized = true →
      ¬ slot_matches cfg source status command id w →
      cfg.NETWORK_TIMEOUT_INFINITE < 0 → n ≤ 32767 → n + 1 ≤ fuel →
      network_wait_for_packet_loop cfg source status command id fuel (n : Int) (some h0) pd w =
        some ⟨cfg.NETWORK_NO_DATA, -1,
          some (if w.conn.is_packet_avaiable = true then w.conn.last_packet_header else h0),
          if w.conn.is_packet_avaiable = true then pd.map (fun _ => w.conn.last_packet_data)
          else pd,
          { w with polls := w.polls + (n + 1) }⟩ := by
  induction n with
  | zero =>
    intro fuel h0 pd w hinit hm hinf _ hfuel
    obtain ⟨fuel, rfl⟩ : ∃ f, fuel = f + 1 := ⟨fuel - 1, by omega⟩
    have hinf' : ¬ ((0 : Int) = cfg.NETWORK_TIMEOUT_INFINITE) := by omega
    by_cases ha : w.conn.is_packet_avaiable = true
    · have hmm : packet_mismatch cfg source status command id (some w.conn.last_packet_header)
          = true := by
        by_contra hc
        exact hm ⟨ha, by simpa using hc⟩
      simp [network_wait_for_packet_loop, network_get_last_packet, hinit, ha, hmm, hinf',
        wrap16_neg_one]
    · have ha' : w.conn.is_packet_avaiable = false := by simpa using ha
      simp [network_wait_for_packet_loop, network_get_last_packet, hinit, ha', hinf',
        wrap16_neg_one]
  | succ n ih =>
    intro fuel h0 pd w hinit hm hinf hn hfuel
    obtain ⟨fuel, rfl⟩ : ∃ f, fuel = f + 1 := ⟨fuel - 1, by omega⟩
    have hinf' : ¬ (((n : Int) + 1) = cfg.NETWORK_TIMEOUT_INFINITE) := by omega
    have hpos : ((n : Int) + 1) > 0 := by omega
    have hw := wrap16_pred n (by omega)
    by_cases ha : w.conn.is_packet_avaiable = true
    · have hmm : packet_mismatch cfg source status command id (some w.conn.last_packet_header)
          = true := by
        by_contra hc
        exact hm ⟨ha, by simpa using hc⟩
      have hres := ih fuel w.conn.last_packet_header
        (pd.map (fun _ => w.conn.last_packet_data)) { w with polls := w.polls + 1 }
        hinit hm hinf (by omega) (by omega)
      simp only [network_wait_for_packet_loop, network_get_last_packet, hinit, ha, hmm]
      simp only [Nat.cast_add, Nat.cast_one, hinf', hpos, hw]
      simp only [hmm, Bool.true_eq_false, if_false, and_self, true_and, if_true]
      rw [hres]
      simp [ha, Nat.add_assoc, Nat.add_comm 1]
      cases pd <;> rfl
    · have ha' : w.conn.is_packet_avaiable = false := by simpa using ha
      have hres := ih fuel h0 pd { w with polls := w.polls + 1 }
        hinit hm hinf (by omega) (by omega)
      simp only [network_wait_for_packet_loop, network_get_last_packet, hinit, ha']
      simp only [Nat.cast_add, Nat.cast_one, hinf', hpos, hw]
      simp only [Bool.true_eq_false, if_false, and_self, if_true]
      simp
      rw [hres]
      simp [ha', Nat.add_assoc, Nat.add_comm 1]

/-- The function `network_wait_for_packet` when the first poll finds a packet that passes
the filters: it returns `NETWORK_NO_ERROR`, hands out the slot's header and payload,
and the world is the one after the poll and the call of `network_acknowledge_packet`. -/
theorem wait_for_packet_match (cfg : Config) (busy : Nat → Bool) (fuel : Nat)
    (source status command id : Nat) (h0 : Header) (pd : Option (Option (List Nat)))
    (timeout : Int) (w : World)
    (hinit : w.conn.is_initialized = true)
    (hm : slot_matches cfg source status command id w)
    (hd : cfg.distinctErrors) :
    network_wait_for_packet cfg busy (fuel + 1) source status command id (some h0) pd timeout w =
      some ⟨cfg.NETWORK_NO_ERROR, some w.conn.last_packet_header,
        pd.map (fun _ => w.conn.last_packet_data),
        if w.conn.last_packet_header.source ≠ cfg.NETWORK_ADDRESS_BROADCAST
            ∧ w.conn.last_packet_header.status ≠ cfg.NETWORK_STATUS_ACKNOWLEDGE then
          (write_once cfg busy (acknowledge_header cfg w.conn.address w.conn.last_packet_header).stamp
            none
            { w with polls := w.polls + 1,
                     sent := w.sent ++
                       [((acknowledge_header cfg w.conn.address w.conn.last_packet_header).stamp,
                         none)] }).2
        else { w with polls := w.polls + 1 }⟩ := by
  have hne := distinct_no_error_no_data cfg hd
  simp only [network_wait_for_packet, hinit, Bool.true_eq_false, if_false,
    wait_loop_match cfg source status command id fuel timeout h0 pd w hinit hm hne,
    network_acknowledge_packet, if_true]
  by_cases hc : w.conn.last_packet_header.source ≠ cfg.NETWORK_ADDRESS_BROADCAST
      ∧ w.conn.last_packet_header.status ≠ cfg.NETWORK_STATUS_ACKNOWLEDGE
  · simp only [hc, and_self, if_true, ne_eq, not_false_eq_true,
      write_packet_eq cfg busy fuel _ none _ hd]
    rfl
  · simp only [hc, if_false]

/-- The function `network_wait_for_packet` with a finite timeout of `n` ticks while the
slot is empty or holds a packet that fails a filter: `n + 1` polls, then
`NETWORK_TIMEOUT_EXCEEDED`; only the poll counter changes. -/
theorem wait_for_packet_nomatch (cfg : Config) (busy : Nat → Bool) (fuel : Nat)
    (source status command id : Nat) (h0 : Header) (pd : Option (Option (List Nat)))
    (n : Nat) (w : World)
    (hinit : w.conn.is_initialized = true)
    (hm : ¬ slot_matches cfg source status command id w)
    (hinf : cfg.NETWORK_TIMEOUT_INFINITE < 0) (hn : n ≤ 32767) (hfuel : n + 1 ≤ fuel)
    (hne : cfg.NETWORK_NO_ERROR ≠ cfg.NETWORK_NO_DATA) :
    network_wait_for_packet cfg busy fuel source status command id (some h0) pd (n : Int) w =
      some ⟨cfg.NETWORK_TIMEOUT_EXCEEDED,
        some (if w.conn.is_packet_avaiable = true then w.conn.last_packet_header else h0),
        if w.conn.is_packet_avaiable = true then pd.map (fun _ => w.conn.last_packet_data)
        else pd,
        { w with polls := w.polls + (n + 1) }⟩ := by
  simp only [network_wait_for_packet, hinit, Bool.true_eq_false, if_false,
    wait_loop_nomatch cfg source status command id n fuel h0 pd w hinit hm hinf hn hfuel]
  simp [hne.symm]

@[simp] theorem stamp_destination (h : Header) : h.stamp.destination = h.destination := rfl
@[simp] theorem stamp_source (h : Header) : h.stamp.source = h.source := rfl
@[simp] theorem stamp_status (h : Header) : h.stamp.status = h.status := rfl
@[simp] theorem stamp_command (h : Header) : h.stamp.command = h.command := rfl
@[simp] theorem stamp_id (h : Header) : h.stamp.id = h.id := rfl
@[simp] theorem stamp_length (h : Header) : h.stamp.length = h.length := rfl

theorem stamp_checksum (h : Header) :
    h.stamp.checksum =
      h.destination ^^^ h.source ^^^ h.status ^^^ h.command ^^^ h.id ^^^ h.length := by
  simp [Header.stamp, checksum_fst]

/-- On a line that accepts every byte the byte loop ends without error. -/
theorem write_bytes_loop_idle (cfg : Config) (busy : Nat → Bool) (hb : ∀ k, busy k = false)
    (first : Nat) (n : Nat) : ∀ (w : World),
    (network_write_bytes_loop cfg busy first n cfg.NETWORK_NO_ERROR w).1 =
      cfg.NETWORK_NO_ERROR := by
  induction n with
  | zero => intro w; rfl
  | succ n ih =>
    intro w
    simp only [network_write_bytes_loop, if_true, network_write_byte, hb, Bool.false_eq_true,
      if_false]
    exact ih _

/-- On a line that accepts every byte one pass of the write loop ends without error. -/
theorem write_once_idle (cfg : Config) (busy : Nat → Bool) (hb : ∀ k, busy k = false)
    (h : Header) (data : Option (List Nat)) (w : World) :
    (write_once cfg busy h data w).1 = cfg.NETWORK_NO_ERROR := by
  simp only [write_once, network_write_bytes, write_bytes_loop_idle cfg busy hb, if_true]

/-- The retry loop of `network_send` when every write is accepted and no matching
acknowledgment is in the receive slot: with `k` attempts left it transmits the packet
`k` times, polls the slot `n + 1` times after each transmission and ends with
`NETWORK_TIMEOUT_EXCEEDED`. -/
theorem send_loop_timeout (cfg : Config) (busy : Nat → Bool) (hb : ∀ k, busy k = false)
    (hd : cfg.distinctErrors) (p : Header) (data : Option (List Nat)) (n : Nat)
    (hT : cfg.NETWORK_TIMEOUT_ACKNOWLEDGE = (n : Int)) (hn : n ≤ 32767)
    (hinf : cfg.NETWORK_TIMEOUT_INFINITE < 0)
    (hst : p.status ≠ cfg.NETWORK_STATUS_CHECK ∧ p.status ≠ cfg.NETWORK_STATUS_ACKNOWLEDGE)
    (hN : cfg.NETWORK_SEND_ATTEMPTS ≤ 255) (k : Nat) :
    ∀ (fuel a : Nat) (w : World), 0 < k → a + k = cfg.NETWORK_SEND_ATTEMPTS →
      k + n + 1 ≤ fuel → w.conn.is_initialized = true →
      ¬ slot_matches cfg p.destination cfg.NETWORK_STATUS_ACKNOWLEDGE p.command p.id w →
      ∃ w', network_send_loop cfg busy p data fuel a w = some (cfg.NETWORK_TIMEOUT_EXCEEDED, w') ∧
        w'.conn = w.conn ∧ w'.sent = w.sent ++ List.replicate k (p.stamp, data) ∧
        w'.polls = w.polls + k * (n + 1) ∧ w'.packet_index = w.packet_index ∧
        w'.packet_header = w.packet_header ∧ w'.packet_data = w.packet_data := by
  induction k with
  | zero => intro fuel a w h0; omega
  | succ k ih =>
    intro fuel a w _ hak hfuel hinit hm
    obtain ⟨fuel, rfl⟩ : ∃ f, fuel = f + 1 := ⟨fuel - 1, by omega⟩
    obtain ⟨fuel, rfl⟩ : ∃ f, fuel = f + 1 := ⟨fuel - 1, by omega⟩
    have hne := distinct_no_error_no_data cfg hd
    have hw := write_once_spec cfg busy p.stamp data { w with sent := w.sent ++ [(p.stamp, data)] }
    have hok := write_once_idle cfg busy hb p.stamp data
      { w with sent := w.sent ++ [(p.stamp, data)] }
    obtain ⟨-, hconn, hidx, hhdr, hdat, hsent, hpolls⟩ := hw
    have hinit1 : (write_once cfg busy p.stamp data
        { w with sent := w.sent ++ [(p.stamp, data)] }).2.conn.is_initialized = true := by
      rw [hconn]; exact hinit
    have hm1 : ¬ slot_matches cfg p.destination cfg.NETWORK_STATUS_ACKNOWLEDGE p.command p.id
        (write_once cfg busy p.stamp data
          { w with sent := w.sent ++ [(p.stamp, data)] }).2 := by
      simpa [slot_matches, hconn] using hm
    have hwait := wait_for_packet_nomatch cfg busy (fuel + 1) p.destination
      cfg.NETWORK_STATUS_ACKNOWLEDGE p.command p.id Header.uninit none n _ hinit1 hm1 hinf hn
      (by omega) hne
    have ha1 : (a + 1) % 256 = a + 1 := by omega
    rw [network_send_loop]
    simp only [write_packet_eq cfg busy fuel p data w hd, hok, if_true,
      network_wait_for_acknowledge, hinit1, Bool.true_eq_false, if_false, stamp_status, hst,
      ne_eq, not_false_eq_true, and_self, stamp_destination, stamp_command, stamp_id, hT, hwait,
      Option.map_some', true_and, ha1]
    by_cases hk : k = 0
    · subst hk
      have : ¬ (a + 1 < cfg.NETWORK_SEND_ATTEMPTS) := by omega
      simp only [this, if_false]
      refine ⟨_, rfl, ?_⟩
      simp [hconn, hidx, hhdr, hdat, hsent, hpolls]
    · have hlt : a + 1 < cfg.NETWORK_SEND_ATTEMPTS := by omega
      simp only [hlt, if_true]
      obtain ⟨w', hres, h1, h2, h3, h4, h5, h6⟩ := ih (fuel + 1) (a + 1)
        { (write_once cfg busy p.stamp data
            { w with sent := w.sent ++ [(p.stamp, data)] }).2 with
          polls := (write_once cfg busy p.stamp data
            { w with sent := w.sent ++ [(p.stamp, data)] }).2.polls + (n + 1) }
        (by omega) (by omega) (by omega) hinit1 (by simpa [slot_matches] using hm1)
      refine ⟨w', hres, ?_⟩
      simp only [h1, h2, h3, h4, h5, h6, hconn, hidx, hhdr, hdat, hsent, hpolls]
      refine ⟨trivial, ?_, ?_, trivial, trivial, trivial⟩
      · simp [List.replicate_succ]
      · ring

/-- The function `network_send` when every write is accepted, the status asks for an
acknowledgment and no matching acknowledgment is in the receive slot: the packet is
transmitted `NETWORK_SEND_ATTEMPTS` times, each transmission is followed by
`NETWORK_TIMEOUT_ACKNOWLEDGE + 1` polls of the slot, and the call returns
`NETWORK_TIMEOUT_EXCEEDED`.  The destination plays no role. -/
theorem send_times_out (cfg : Config) (busy : Nat → Bool) (fuel : Nat)
    (destination status command : Nat) (data : Option (List Nat)) (length : Nat) (w : World)
    (hb : ∀ k, busy k = false) (hd : cfg.distinctErrors)
    (hinit : w.conn.is_initialized = true)
    (hst : status ≠ cfg.NETWORK_STATUS_CHECK ∧ status ≠ cfg.NETWORK_STATUS_ACKNOWLEDGE)
    (hT : 0 ≤ cfg.NETWORK_TIMEOUT_ACKNOWLEDGE ∧ cfg.NETWORK_TIMEOUT_ACKNOWLEDGE ≤ 32767)
    (hinf : cfg.NETWORK_TIMEOUT_INFINITE < 0)
    (hN : 1 ≤ cfg.NETWORK_SEND_ATTEMPTS ∧ cfg.NETWORK_SEND_ATTEMPTS ≤ 255)
    (hm : ¬ slot_matches cfg destination cfg.NETWORK_STATUS_ACKNOWLEDGE command
      ((w.conn.last_id + 1) % 256) w)
    (hfuel : cfg.NETWORK_SEND_ATTEMPTS + cfg.NETWORK_TIMEOUT_ACKNOWLEDGE.toNat + 1 ≤ fuel) :
    (network_send cfg busy fuel destination status command data length w).map
        (fun r => (r.1, r.2.sent, r.2.polls, r.2.conn)) =
      some (cfg.NETWORK_TIMEOUT_EXCEEDED,
        w.sent ++ List.replicate cfg.NETWORK_SEND_ATTEMPTS
          ((Header.mk destination w.conn.address status command
              ((w.conn.last_id + 1) % 256) length 0).stamp, data),
        w.polls + cfg.NETWORK_SEND_ATTEMPTS * (cfg.NETWORK_TIMEOUT_ACKNOWLEDGE.toNat + 1),
        { w.conn with last_id := (w.conn.last_id + 1) % 256 }) := by
  have hTn : cfg.NETWORK_TIMEOUT_ACKNOWLEDGE = (cfg.NETWORK_TIMEOUT_ACKNOWLEDGE.toNat : Int) :=
    (Int.toNat_of_nonneg hT.1).symm
  obtain ⟨w', hres, h1, h2, h3, -, -, -⟩ := send_loop_timeout cfg busy hb hd
    (Header.mk destination w.conn.address status command ((w.conn.last_id + 1) % 256) length 0)
    data cfg.NETWORK_TIMEOUT_ACKNOWLEDGE.toNat hTn (by omega) hinf hst hN.2
    cfg.NETWORK_SEND_ATTEMPTS fuel 0
    { w with conn := { w.conn with last_id := (w.conn.last_id + 1) % 256 } }
    (by omega) (by omega) (by omega) hinit (by simpa [slot_matches] using hm)
  have hni : ¬ (w.conn.is_initialized = false) := by simp [hinit]
  unfold network_send
  rw [if_neg hni]
  simp only []
  rw [hres]
  simp only [Option.map_some', h1, h2, h3]

/-- The scan of `network_initialize` over a table of used addresses: when the next
candidate `c` and all candidates up to `NETWORK_ADDRESS_MAX` are in use and
`NETWORK_ADDRESS_MAX + 1` is free, the loop goes on past the maximum and stops at
`NETWORK_ADDRESS_MAX + 1` with the answer "not in use". -/
theorem init_loop_overrun (cfg : Config) (used : Nat → Bool)
    (hmax : cfg.NETWORK_ADDRESS_MAX < 255)
    (hfree : used (cfg.NETWORK_ADDRESS_MAX + 1) = false) (k : Nat) :
    ∀ (fuel a c : Nat) (w : World), (a + 1) % 256 = c → c + k = cfg.NETWORK_ADDRESS_MAX + 1 →
      (∀ x, c ≤ x → x ≤ cfg.NETWORK_ADDRESS_MAX → used x = true) → k + 1 ≤ fuel →
      network_initialize_loop cfg (probe used) fuel a w =
        some (cfg.NETWORK_ADDRESS_MAX + 1, false, w) := by
  induction k with
  | zero =>
    intro fuel a c w hc hk _ hfuel
    obtain ⟨fuel, rfl⟩ : ∃ f, fuel = f + 1 := ⟨fuel - 1, by omega⟩
    have hc' : (a + 1) % 256 = cfg.NETWORK_ADDRESS_MAX + 1 := by omega
    simp [network_initialize_loop, probe, hc', hfree]
  | succ k ih =>
    intro fuel a c w hc hk hused hfuel
    obtain ⟨fuel, rfl⟩ : ∃ f, fuel = f + 1 := ⟨fuel - 1, by omega⟩
    have hle : c ≤ cfg.NETWORK_ADDRESS_MAX := by omega
    have hu : used c = true := hused c (le_refl c) hle
    rw [network_initialize_loop]
    simp only [probe, hc, hle, hu, and_self, if_true]
    exact ih fuel c (c + 1) w (by omega) (by omega)
      (fun x hx hx' => hused x (by omega) hx') (by omega)

/-- The poll only changes the poll counter and, with a `NULL` header, the slot. -/
theorem get_last_packet_sent (cfg : Config) (ph : Option Header)
    (pd : Option (Option (List Nat))) (w : World) :
    (network_get_last_packet cfg ph pd w).world.sent = w.sent := by
  unfold network_get_last_packet
  split
  · rfl
  · split
    · split <;> rfl
    · rfl

/-- The wait loop hands nothing to the transport. -/
theorem wait_loop_sent (cfg : Config) (source status command id : Nat) (fuel : Nat) :
    ∀ (timeout : Int) (ph : Option Header) (pd : Option (Option (List Nat))) (w : World)
      (p : Polled),
      network_wait_for_packet_loop cfg source status command id fuel timeout ph pd w = some p →
      p.world.sent = w.sent := by
  induction fuel with
  | zero => intro timeout ph pd w p h; simp [network_wait_for_packet_loop] at h
  | succ fuel ih =>
    intro timeout ph pd w p h
    rw [network_wait_for_packet_loop] at h
    have hg := get_last_packet_sent cfg ph pd w
    generalize network_get_last_packet cfg ph pd w = g at h hg
    by_cases h1 : (if g.error = cfg.NETWORK_NO_ERROR
        ∧ packet_mismatch cfg source status command id g.packet_header = true then
        cfg.NETWORK_NO_DATA else g.error) = cfg.NETWORK_NO_DATA
    · rw [if_pos h1] at h
      by_cases h2 : timeout = cfg.NETWORK_TIMEOUT_INFINITE
      · rw [if_pos h2] at h
        rw [ih _ _ _ _ _ h, hg]
      · rw [if_neg h2] at h
        by_cases h3 : timeout > 0
        · rw [if_pos h3] at h
          rw [ih _ _ _ _ _ h, hg]
        · rw [if_neg h3] at h
          simp only [Option.some.injEq] at h
          rw [← h]
          exact hg
    · rw [if_neg h1] at h
      simp only [Option.some.injEq] at h
      rw [← h]
      exact hg

/-- A call of `network_write_packet` that returns appends one entry to the trace of
transmitted packets. -/
theorem write_packet_sent (cfg : Config) (busy : Nat → Bool) (hd : cfg.distinctErrors)
    (fuel : Nat) (h : Header) (data : Option (List Nat)) (w : World) (r : Nat × World)
    (hr : network_write_packet cfg busy fuel h data w = some r) :
    r.2.sent = w.sent ++ [(h.stamp, data)] := by
  cases fuel with
  | zero => simp [network_write_packet, network_write_packet_loop] at hr
  | succ fuel =>
    rw [write_packet_eq cfg busy fuel h data w hd] at hr
    simp only [Option.some.injEq] at hr
    rw [← hr]
    exact (write_once_spec cfg busy h.stamp data
      { w with sent := w.sent ++ [(h.stamp, data)] }).2.2.2.2.2.1

/-- A call of `network_acknowledge_packet` that returns only appends to the trace. -/
theorem acknowledge_packet_sent (cfg : Config) (busy : Nat → Bool) (hd : cfg.distinctErrors)
    (fuel : Nat) (p : Option Header) (w : World) (r : Nat × World)
    (hr : network_acknowledge_packet cfg busy fuel p w = some r) :
    ∃ rest, r.2.sent = w.sent ++ rest := by
  unfold network_acknowledge_packet at hr
  split at hr
  · simp only [Option.some.injEq] at hr; exact ⟨[], by rw [← hr]; simp⟩
  · split at hr
    · simp only [Option.some.injEq] at hr; exact ⟨[], by rw [← hr]; simp⟩
    · split at hr
      · exact ⟨_, write_packet_sent cfg busy hd fuel _ _ w r hr⟩
      · simp only [Option.some.injEq] at hr; exact ⟨[], by rw [← hr]; simp⟩

/-- A call of `network_wait_for_packet` that returns only appends to the trace. -/
theorem wait_for_packet_sent (cfg : Config) (busy : Nat → Bool) (hd : cfg.distinctErrors)
    (fuel : Nat) (source status command id : Nat) (ph : Option Header)
    (pd : Option (Option (List Nat))) (timeout : Int) (w : World) (g : Got)
    (hg : network_wait_for_packet cfg busy fuel source status command id ph pd timeout w
      = some g) :
    ∃ rest, g.world.sent = w.sent ++ rest := by
  unfold network_wait_for_packet at hg
  split at hg
  · simp only [Option.some.injEq] at hg; exact ⟨[], by rw [← hg]; simp⟩
  · split at hg
    · simp at hg
    · rename_i p hp
      have hps := wait_loop_sent cfg source status command id fuel timeout ph pd w p hp
      split at hg
      · split at hg
        · simp at hg
        · rename_i a ha
          obtain ⟨rest, hrest⟩ := acknowledge_packet_sent cfg busy hd fuel _ _ a ha
          simp only [Option.some.injEq] at hg
          exact ⟨rest, by rw [← hg]; simp only []; rw [hrest, hps]⟩
      · split at hg <;>
        · simp only [Option.some.injEq] at hg
          exact ⟨[], by rw [← hg]; simp [hps]⟩

/-- A call of `network_wait_for_acknowledge` that returns only appends to the trace. -/
theorem wait_for_acknowledge_sent (cfg : Config) (busy : Nat → Bool)
    (hd : cfg.distinctErrors) (fuel : Nat) (packet : Header) (w : World) (r : Nat × World)
    (hr : network_wait_for_acknowledge cfg busy fuel packet w = some r) :
    ∃ rest, r.2.sent = w.sent ++ rest := by
  unfold network_wait_for_acknowledge at hr
  split at hr
  · simp only [Option.some.injEq] at hr; exact ⟨[], by rw [← hr]; simp⟩
  · split at hr
    · simp only [Option.map_eq_some'] at hr
      obtain ⟨g, hg, hgr⟩ := hr
      obtain ⟨rest, hrest⟩ := wait_for_packet_sent cfg busy hd fuel _ _ _ _ _ _ _ w g hg
      exact ⟨rest, by rw [← hgr]; exact hrest⟩
    · simp only [Option.some.injEq] at hr; exact ⟨[], by rw [← hr]; simp⟩

/-- Whenever the retry loop of `network_send` returns, the first packet it handed to the
transport is the stamped header `packet_to_send` with the caller's payload pointer. -/
theorem send_loop_first_sent (cfg : Config) (busy : Nat → Bool) (hd : cfg.distinctErrors)
    (p : Header) (data : Option (List Nat)) (fuel : Nat) :
    ∀ (a : Nat) (w : World) (r : Nat × World),
      network_send_loop cfg busy p data fuel a w = some r →
      ∃ rest, r.2.sent = w.sent ++ (p.stamp, data) :: rest := by
  induction fuel with
  | zero => intro a w r h; simp [network_send_loop] at h
  | succ fuel ih =>
    intro a w r h
    rw [network_send_loop] at h
    split at h
    · simp at h
    · rename_i r1 hr1
      have h1 := write_packet_sent cfg busy hd fuel p data w r1 hr1
      split at h
      · simp at h
      · rename_i r2 hr2
        have h2 : ∃ rest, r2.2.sent = r1.2.sent ++ rest := by
          split at hr2
          · exact wait_for_acknowledge_sent cfg busy hd fuel _ _ r2 hr2
          · simp only [Option.some.injEq] at hr2; exact ⟨[], by rw [← hr2]; simp⟩
        obtain ⟨rest2, hrest2⟩ := h2
        simp only [] at h
        split at h
        · obtain ⟨rest3, hrest3⟩ := ih _ _ _ h
          exact ⟨rest2 ++ (p.stamp, data) :: rest3, by rw [hrest3, hrest2, h1]; simp⟩
        · simp only [Option.some.injEq] at h
          exact ⟨rest2, by rw [← h, hrest2, h1]; simp⟩

/-- Whenever `network_send` returns on an initialized connection, the first packet it
handed to the transport is the header built from its arguments, the own address and
the incremented sequence number, stamped with its checksum. -/
theorem send_first_sent (cfg : Config) (busy : Nat → Bool) (hd : cfg.distinctErrors)
    (fuel : Nat) (destination status command : Nat) (data : Option (List Nat))
    (length : Nat) (w : World) (r : Nat × World)
    (hinit : w.conn.is_initialized = true)
    (hr : network_send cfg busy fuel destination status command data length w = some r) :
    r.2.sent.get? w.sent.length =
      some ((Header.mk destination w.conn.address status command
        ((w.conn.last_id + 1) % 256) length 0).stamp, data) := by
  have hni : ¬ (w.conn.is_initialized = false) := by simp [hinit]
  unfold network_send at hr
  rw [if_neg hni] at hr
  obtain ⟨rest, hrest⟩ := send_loop_first_sent cfg busy hd _ data fuel 0 _ r hr
  rw [hrest]
  simp only []
  rw [List.get?_eq_getElem?, List.getElem?_append_right (le_refl _)]
  simp

/-- A `Request` in the receive slot passes the filters of `network_get_request`. -/
theorem request_slot_matches (cfg : Config) (w : World)
    (ha : w.conn.is_packet_avaiable = true)
    (hst : w.conn.last_packet_header.status = cfg.NETWORK_STATUS_REQUEST) :
    slot_matches cfg cfg.NETWORK_ADDRESS_NONE cfg.NETWORK_STATUS_REQUEST
      cfg.NETWORK_COMMAND_NONE cfg.NETWORK_ID_ANY w := by
  simp [slot_matches, packet_mismatch, ha, hst]

/-- The function `network_get_request` when the receive slot holds a `Request`: it
returns `NETWORK_NO_ERROR` and projects the slot's header and payload pointer. -/
theorem get_request_match (cfg : Config) (busy : Nat → Bool) (fuel : Nat)
    (request : RequestData) (timeout : Int) (w : World)
    (hinit : w.conn.is_initialized = true)
    (ha : w.conn.is_packet_avaiable = true)
    (hst : w.conn.last_packet_header.status = cfg.NETWORK_STATUS_REQUEST)
    (hd : cfg.distinctErrors) :
    (network_get_request cfg busy (fuel + 1) request timeout w).map (fun r => (r.1, r.2.1)) =
      some (cfg.NETWORK_NO_ERROR,
        { source := w.conn.last_packet_header.source,
          destination := w.conn.last_packet_header.destination,
          command := w.conn.last_packet_header.command,
          length := w.conn.last_packet_header.length,
          data := w.conn.last_packet_data }) := by
  have hni : ¬ (w.conn.is_initialized = false) := by simp [hinit]
  unfold network_get_request
  rw [if_neg hni, wait_for_packet_match cfg busy fuel _ _ _ _ Header.uninit (some request.data)
    timeout w hinit (request_slot_matches cfg w ha hst) hd]
  simp

/-- On a line that accepts every byte the byte loop passes the same byte `first` to
`network_write_byte` once per iteration. -/
theorem write_bytes_loop_idle_eq (cfg : Config) (busy : Nat → Bool)
    (hb : ∀ k, busy k = false) (first : Nat) (n : Nat) : ∀ (w : World),
    network_write_bytes_loop cfg busy first n cfg.NETWORK_NO_ERROR w =
      (cfg.NETWORK_NO_ERROR,
        { w with writes := w.writes + n, wire := w.wire ++ List.replicate n first }) := by
  induction n with
  | zero => intro w; simp [network_write_bytes_loop]
  | succ n ih =>
    intro w
    rw [network_write_bytes_loop]
    simp only [if_true, network_write_byte, hb, Bool.false_eq_true, if_false]
    rw [ih]
    simp [List.replicate_succ, Nat.add_assoc, Nat.add_comm 1]

/-- On a line that accepts every byte one pass of the write loop puts seven copies of
the first header byte and `length` copies of the first payload byte on the wire. -/
theorem write_once_idle_eq (cfg : Config) (busy : Nat → Bool) (hb : ∀ k, busy k = false)
    (h : Header) (data : Option (List Nat)) (w : World) :
    write_once cfg busy h data w =
      (cfg.NETWORK_NO_ERROR,
        { w with writes := w.writes + 7 + h.length,
                 wire := w.wire ++ List.replicate 7 h.destination ++
                   List.replicate h.length ((data.getD []).headD 0) }) := by
  simp only [write_once, network_write_bytes, write_bytes_loop_idle_eq cfg busy hb, if_true,
    HEADER_SIZE]
  rfl

/-- The scan of `network_initialize` over a table of used addresses: when the next
candidate `c` and all candidates up to `NETWORK_ADDRESS_MAX` are in use, the loop goes
on past the maximum, probes `NETWORK_ADDRESS_MAX + 1` and stops there with the answer of
that probe. -/
theorem init_loop_scan (cfg : Config) (used : Nat → Bool)
    (hmax : cfg.NETWORK_ADDRESS_MAX < 255) (k : Nat) :
    ∀ (fuel a c : Nat) (w : World), (a + 1) % 256 = c → c + k = cfg.NETWORK_ADDRESS_MAX + 1 →
      (∀ x, c ≤ x → x ≤ cfg.NETWORK_ADDRESS_MAX → used x = true) → k + 1 ≤ fuel →
      network_initialize_loop cfg (probe used) fuel a w =
        some (cfg.NETWORK_ADDRESS_MAX + 1, used (cfg.NETWORK_ADDRESS_MAX + 1), w) := by
  induction k with
  | zero =>
    intro fuel a c w hc hk _ hfuel
    obtain ⟨fuel, rfl⟩ : ∃ f, fuel = f + 1 := ⟨fuel - 1, by omega⟩
    have hc' : (a + 1) % 256 = cfg.NETWORK_ADDRESS_MAX + 1 := by omega
    simp [network_initialize_loop, probe, hc']
  | succ k ih =>
    intro fuel a c w hc hk hused hfuel
    obtain ⟨fuel, rfl⟩ : ∃ f, fuel = f + 1 := ⟨fuel - 1, by omega⟩
    have hle : c ≤ cfg.NETWORK_ADDRESS_MAX := by omega
    have hu : used c = true := hused c (le_refl c) hle
    rw [network_initialize_loop]
    simp only [probe, hc, hle, hu, and_self, if_true]
    exact ih fuel c (c + 1) w (by omega) (by omega)
      (fun x hx hx' => hused x (by omega) hx') (by omega)

/-- While the slot is empty, a wait with a finite timeout of `n` ticks polls the slot
`n + 1` times and leaves the loop with `NETWORK_NO_DATA` and a timeout of -1, whether
the caller passed a header buffer or `NULL`. -/
theorem wait_loop_empty (cfg : Config) (source status command id : Nat) (n : Nat) :
    ∀ (fuel : Nat) (ph : Option Header) (pd : Option (Option (List Nat))) (w : World),
      w.conn.is_initialized = true → w.conn.is_packet_avaiable = false →
      cfg.NETWORK_TIMEOUT_INFINITE < 0 → n ≤ 32767 → n + 1 ≤ fuel →
      network_wait_for_packet_loop cfg source status command id fuel (n : Int) ph pd w =
        some ⟨cfg.NETWORK_NO_DATA, -1, ph, pd, { w with polls := w.polls + (n + 1) }⟩ := by
  induction n with
  | zero =>
    intro fuel ph pd w hinit ha hinf _ hfuel
    obtain ⟨fuel, rfl⟩ : ∃ f, fuel = f + 1 := ⟨fuel - 1, by omega⟩
    have hinf' : ¬ ((0 : Int) = cfg.NETWORK_TIMEOUT_INFINITE) := by omega
    simp [network_wait_for_packet_loop, network_get_last_packet, hinit, ha, hinf',
      wrap16_neg_one]
  | succ n ih =>
    intro fuel ph pd w hinit ha hinf hn hfuel
    obtain ⟨fuel, rfl⟩ : ∃ f, fuel = f + 1 := ⟨fuel - 1, by omega⟩
    have hinf' : ¬ (((n : Int) + 1) = cfg.NETWORK_TIMEOUT_INFINITE) := by omega
    have hpos : ((n : Int) + 1) > 0 := by omega
    have hw := wrap16_pred n (by omega)
    have hres := ih fuel ph pd { w with polls := w.polls + 1 } hinit ha hinf (by omega)
      (by omega)
    rw [network_wait_for_packet_loop]
    simp only [network_get_last_packet, hinit, ha]
    simp only [Nat.cast_add, Nat.cast_one, hinf', hpos, hw]
    simp only [Bool.true_eq_false, Bool.false_eq_true, if_false, and_self, if_true]
    simp
    rw [hres]
    simp [Nat.add_assoc, Nat.add_comm 1]

/-- The function `network_wait_for_packet` with a finite timeout of `n` ticks while the
slot is empty: `n + 1` polls, then `NETWORK_TIMEOUT_EXCEEDED`; only the poll counter
changes. -/
theorem wait_for_packet_empty (cfg : Config) (busy : Nat → Bool) (fuel : Nat)
    (source status command id : Nat) (ph : Option Header) (pd : Option (Option (List Nat)))
    (n : Nat) (w : World)
    (hinit : w.conn.is_initialized = true) (ha : w.conn.is_packet_avaiable = false)
    (hinf : cfg.NETWORK_TIMEOUT_INFINITE < 0) (hn : n ≤ 32767) (hfuel : n + 1 ≤ fuel)
    (hne : cfg.NETWORK_NO_ERROR ≠ cfg.NETWORK_NO_DATA) :
    network_wait_for_packet cfg busy fuel source status command id ph pd (n : Int) w =
      some ⟨cfg.NETWORK_TIMEOUT_EXCEEDED, ph, pd, { w with polls := w.polls + (n + 1) }⟩ := by
  simp only [network_wait_for_packet, hinit, Bool.true_eq_false, if_false,
    wait_loop_empty cfg source status command id n fuel ph pd w hinit ha hinf hn hfuel]
  simp [hne.symm]

theorem distinct_timeout (cfg : Config) (h : cfg.distinctErrors) :
    cfg.NETWORK_NO_ERROR ≠ cfg.NETWORK_TIMEOUT_EXCEEDED
      ∧ cfg.NETWORK_NO_DATA ≠ cfg.NETWORK_TIMEOUT_EXCEEDED
      ∧ cfg.NETWORK_WRITE_ERROR ≠ cfg.NETWORK_TIMEOUT_EXCEEDED :=
  ⟨nodup_get_ne cfg.errorCodes h 0 4 (by simp [Config.errorCodes])
      (by simp [Config.errorCodes]) (by decide),
   nodup_get_ne cfg.errorCodes h 3 4 (by simp [Config.errorCodes])
      (by simp [Config.errorCodes]) (by decide),
   nodup_get_ne cfg.errorCodes h 7 4 (by simp [Config.errorCodes])
      (by simp [Config.errorCodes]) (by decide)⟩

theorem sameState_refl (w : World) : World.sameState w w := ⟨rfl, rfl, rfl, rfl⟩

theorem sameState_trans (a b c : World) (h1 : World.sameState a b) (h2 : World.sameState b c) :
    World.sameState a c :=
  ⟨h2.1.trans h1.1, h2.2.1.trans h1.2.1, h2.2.2.1.trans h1.2.2.1, h2.2.2.2.trans h1.2.2.2⟩

/-- A call of `network_write_packet` that returns has appended one entry to the trace of
transmitted packets, returns `NETWORK_NO_ERROR` or `NETWORK_WRITE_ERROR`, and has left
the connection, the reassembler and the poll counter alone. -/
theorem write_packet_frame (cfg : Config) (busy : Nat → Bool) (hd : cfg.distinctErrors)
    (fuel : Nat) (h : Header) (data : Option (List Nat)) (w : World) (r : Nat × World)
    (hr : network_write_packet cfg busy fuel h data w = some r) :
    World.sameState w r.2 ∧ r.2.polls = w.polls ∧ r.2.sent = w.sent ++ [(h.stamp, data)] ∧
      (r.1 = cfg.NETWORK_NO_ERROR ∨ r.1 = cfg.NETWORK_WRITE_ERROR) := by
  cases fuel with
  | zero => simp [network_write_packet, network_write_packet_loop] at hr
  | succ fuel =>
    rw [write_packet_eq cfg busy fuel h data w hd] at hr
    simp only [Option.some.injEq] at hr
    have hs := write_once_spec cfg busy h.stamp data
      { w with sent := w.sent ++ [(h.stamp, data)] }
    rw [← hr]
    exact ⟨⟨hs.2.1, hs.2.2.1, hs.2.2.2.1, hs.2.2.2.2.1⟩, hs.2.2.2.2.2.2, hs.2.2.2.2.2.1, hs.1⟩

/-- When the wait loop, called with a header buffer on an initialized connection, is
left, the connection, the reassembler and the trace of transmitted packets are as
before; if it is left with `NETWORK_NO_ERROR`, the slot holds a packet that passes the
filters and the caller's buffer holds its header. -/
theorem wait_loop_frame (cfg : Config) (source status command id : Nat)
    (hne : cfg.NETWORK_NO_ERROR ≠ cfg.NETWORK_NO_DATA) (fuel : Nat) :
    ∀ (timeout : Int) (h0 : Header) (pd : Option (Option (List Nat))) (w : World) (p : Polled),
      w.conn.is_initialized = true →
      network_wait_for_packet_loop cfg source status command id fuel timeout (some h0) pd w
        = some p →
      World.sameState w p.world ∧ p.world.sent = w.sent ∧
        (p.error = cfg.NETWORK_NO_ERROR →
          slot_matches cfg source status command id w ∧
            p.packet_header = some w.conn.last_packet_header) := by
  induction fuel with
  | zero => intro timeout h0 pd w p _ h; simp [network_wait_for_packet_loop] at h
  | succ fuel ih =>
    intro timeout h0 pd w p hinit h
    rw [network_wait_for_packet_loop] at h
    by_cases ha : w.conn.is_packet_avaiable = true
    · by_cases hmm : packet_mismatch cfg source status command id
          (some w.conn.last_packet_header) = true
      · simp only [network_get_last_packet, hinit, ha, hmm, Bool.true_eq_false, if_false,
          if_true, and_self] at h
        have hrec : ∀ t, network_wait_for_packet_loop cfg source status command id fuel t
            (some w.conn.last_packet_header)
            (Option.map (fun _ => w.conn.last_packet_data) pd)
            { w with polls := w.polls + 1 } = some p →
            World.sameState w p.world ∧ p.world.sent = w.sent ∧
              (p.error = cfg.NETWORK_NO_ERROR →
                slot_matches cfg source status command id w ∧
                  p.packet_header = some w.conn.last_packet_header) := by
          intro t ht
          exact ih t _ _ { w with polls := w.polls + 1 } p hinit ht
        split at h
        · exact hrec _ h
        · split at h
          · exact hrec _ h
          · simp only [Option.some.injEq] at h
            rw [← h]
            exact ⟨sameState_refl w, rfl, fun e => absurd e.symm hne⟩
      · have hmf : packet_mismatch cfg source status command id
            (some w.conn.last_packet_header) = false := by simpa using hmm
        simp only [network_get_last_packet, hinit, ha, hmf, Bool.true_eq_false, if_false,
          if_true, and_false, hne, Bool.false_eq_true] at h
        simp only [Option.some.injEq] at h
        rw [← h]
        exact ⟨sameState_refl w, rfl, fun _ => ⟨⟨ha, hmf⟩, rfl⟩⟩
    · have haf : w.conn.is_packet_avaiable = false := by simpa using ha
      simp only [network_get_last_packet, hinit, haf, Bool.true_eq_false, if_false,
        Bool.false_eq_true, if_true] at h
      have hnd : ¬ (cfg.NETWORK_NO_DATA = cfg.NETWORK_NO_ERROR) := fun e => hne e.symm
      simp only [hnd, false_and, if_false, if_true] at h
      have hrec : ∀ t, network_wait_for_packet_loop cfg source status command id fuel t
          (some h0) pd { w with polls := w.polls + 1 } = some p →
          World.sameState w p.world ∧ p.world.sent = w.sent ∧
            (p.error = cfg.NETWORK_NO_ERROR →
              slot_matches cfg source status command id w ∧
                p.packet_header = some w.conn.last_packet_header) := by
        intro t ht
        exact ih t _ _ { w with polls := w.polls + 1 } p hinit ht
      split at h
      · exact hrec _ h
      · split at h
        · exact hrec _ h
        · simp only [Option.some.injEq] at h
          rw [← h]
          exact ⟨sameState_refl w, rfl, fun e => absurd e.symm hne⟩

/-- A wait for an `Acknowledge` that returns has handed nothing to the transport and has
left the connection and the reassembler alone: a packet that passes the status filter
`Acknowledge` is itself an `Acknowledge` and is not acknowledged. -/
theorem wait_for_ack_packet_frame (cfg : Config) (busy : Nat → Bool)
    (hd : cfg.distinctErrors)
    (hany : cfg.NETWORK_STATUS_ACKNOWLEDGE ≠ cfg.NETWORK_STATUS_ANY)
    (fuel : Nat) (source command id : Nat) (h0 : Header) (pd : Option (Option (List Nat)))
    (timeout : Int) (w : World) (g : Got)
    (hg : network_wait_for_packet cfg busy fuel source cfg.NETWORK_STATUS_ACKNOWLEDGE command
      id (some h0) pd timeout w = some g) :
    World.sameState w g.world ∧ g.world.sent = w.sent := by
  have hne := distinct_no_error_no_data cfg hd
  unfold network_wait_for_packet at hg
  split at hg
  · simp only [Option.some.injEq] at hg
    rw [← hg]
    exact ⟨sameState_refl w, rfl⟩
  · rename_i hni
    have hinit : w.conn.is_initialized = true := by simpa using hni
    split at hg
    · simp at hg
    · rename_i p hp
      obtain ⟨hsame, hsent, hok⟩ := wait_loop_frame cfg source
        cfg.NETWORK_STATUS_ACKNOWLEDGE command id hne fuel timeout h0 pd w p hinit hp
      by_cases he : p.error = cfg.NETWORK_NO_ERROR
      · obtain ⟨⟨_, hmf⟩, hph⟩ := hok he
        have hstat : w.conn.last_packet_header.status = cfg.NETWORK_STATUS_ACKNOWLEDGE := by
          by_contra hc
          have : packet_mismatch cfg source cfg.NETWORK_STATUS_ACKNOWLEDGE command id
              (some w.conn.last_packet_header) = true := by
            simp only [packet_mismatch, decide_eq_true_eq]
            exact Or.inr (Or.inl ⟨hany, fun e => hc e.symm⟩)
          rw [hmf] at this
          exact absurd this (by decide)
        have hpi : p.world.conn.is_initialized = true := by rw [hsame.1]; exact hinit
        simp only [he, if_true, hph, network_acknowledge_packet, hpi, Bool.true_eq_false,
          if_false, hstat, ne_eq, not_true_eq_false, and_false, Option.some.injEq] at hg
        rw [← hg]
        exact ⟨hsame, hsent⟩
      · simp only [he, if_false] at hg
        split at hg <;>
        · simp only [Option.some.injEq] at hg
          rw [← hg]
          exact ⟨hsame, hsent⟩

/-- A call of `network_wait_for_acknowledge` that returns has handed nothing to the
transport and has left the connection and the reassembler alone. -/
theorem wait_for_acknowledge_frame (cfg : Config) (busy : Nat → Bool)
    (hd : cfg.distinctErrors) (fuel : Nat) (packet : Header) (w : World) (r : Nat × World)
    (hH : packet.status = cfg.NETWORK_STATUS_CHECK
      ∨ packet.status = cfg.NETWORK_STATUS_ACKNOWLEDGE
      ∨ cfg.NETWORK_STATUS_ACKNOWLEDGE ≠ cfg.NETWORK_STATUS_ANY)
    (hr : network_wait_for_acknowledge cfg busy fuel packet w = some r) :
    World.sameState w r.2 ∧ r.2.sent = w.sent := by
  unfold network_wait_for_acknowledge at hr
  split at hr
  · simp only [Option.some.injEq] at hr
    rw [← hr]
    exact ⟨sameState_refl w, rfl⟩
  · split at hr
    · rename_i hst
      have hany : cfg.NETWORK_STATUS_ACKNOWLEDGE ≠ cfg.NETWORK_STATUS_ANY := by
        rcases hH with h | h | h
        · exact absurd h hst.1
        · exact absurd h hst.2
        · exact h
      simp only [Option.map_eq_some'] at hr
      obtain ⟨g, hg, hgr⟩ := hr
      have := wait_for_ack_packet_frame cfg busy hd hany fuel _ _ _ _ _ _ w g hg
      rw [← hgr]
      exact this
    · simp only [Option.some.injEq] at hr
      rw [← hr]
      exact ⟨sameState_refl w, rfl⟩

/-- Whenever the retry loop of `network_send` returns, the connection and the
reassembler are as before and the packets handed to the transport are one or more
copies of the stamped header with the caller's payload pointer. -/
theorem send_loop_frame (cfg : Config) (busy : Nat → Bool) (hd : cfg.distinctErrors)
    (p : Header) (data : Option (List Nat))
    (hH : p.status = cfg.NETWORK_STATUS_CHECK
      ∨ p.status = cfg.NETWORK_STATUS_ACKNOWLEDGE
      ∨ cfg.NETWORK_STATUS_ACKNOWLEDGE ≠ cfg.NETWORK_STATUS_ANY) (fuel : Nat) :
    ∀ (a : Nat) (w : World) (r : Nat × World),
      network_send_loop cfg busy p data fuel a w = some r →
      World.sameState w r.2 ∧ ∃ k, r.2.sent = w.sent ++ List.replicate (k + 1) (p.stamp, data) := by
  induction fuel with
  | zero => intro a w r h; simp [network_send_loop] at h
  | succ fuel ih =>
    intro a w r h
    rw [network_send_loop] at h
    split at h
    · simp at h
    · rename_i r1 hr1
      obtain ⟨hs1, -, hsent1, -⟩ := write_packet_frame cfg busy hd fuel p data w r1 hr1
      split at h
      · simp at h
      · rename_i r2 hr2
        have h2 : World.sameState r1.2 r2.2 ∧ r2.2.sent = r1.2.sent := by
          split at hr2
          · exact wait_for_acknowledge_frame cfg busy hd fuel p.stamp r1.2 r2
              (by simpa using hH) hr2
          · simp only [Option.some.injEq] at hr2
            rw [← hr2]
            exact ⟨sameState_refl _, rfl⟩
        have hs2 := sameState_trans w r1.2 r2.2 hs1 h2.1
        simp only [] at h
        split at h
        · obtain ⟨hs3, k, hk⟩ := ih _ _ _ h
          refine ⟨sameState_trans w r2.2 r.2 hs2 hs3, k + 1, ?_⟩
          rw [hk, h2.2, hsent1]
          simp [List.replicate_succ]
        · simp only [Option.some.injEq] at h
          rw [← h]
          exact ⟨hs2, 0, by rw [h2.2, hsent1]; rfl⟩

/-- Whenever `network_send` returns on an initialized connection: `last_id` has been
incremented once, nothing else in the connection and nothing in the reassembler has
changed, and the packets handed to the transport are one or more copies of the header
built from the arguments, stamped with its checksum. -/
theorem send_frame (cfg : Config) (busy : Nat → Bool) (hd : cfg.distinctErrors)
    (fuel : Nat) (destination status command : Nat) (data : Option (List Nat))
    (length : Nat) (w : World) (r : Nat × World)
    (hH : status = cfg.NETWORK_STATUS_CHECK ∨ status = cfg.NETWORK_STATUS_ACKNOWLEDGE
      ∨ cfg.NETWORK_STATUS_ACKNOWLEDGE ≠ cfg.NETWORK_STATUS_ANY)
    (hinit : w.conn.is_initialized = true)
    (hr : network_send cfg busy fuel destination status command data length w = some r) :
    r.2.conn = { w.conn with last_id := (w.conn.last_id + 1) % 256 } ∧
      r.2.packet_index = w.packet_index ∧ r.2.packet_header = w.packet_header ∧
      r.2.packet_data = w.packet_data ∧
      ∃ k, r.2.sent = w.sent ++ List.replicate (k + 1)
        ((Header.mk destination w.conn.address status command
          ((w.conn.last_id + 1) % 256) length 0).stamp, data) := by
  have hni : ¬ (w.conn.is_initialized = false) := by simp [hinit]
  unfold network_send at hr
  rw [if_neg hni] at hr
  obtain ⟨hs, k, hk⟩ := send_loop_frame cfg busy hd _ data hH fuel 0 _ r hr
  exact ⟨hs.1, hs.2.1, hs.2.2.1, hs.2.2.2, k, hk⟩

/-- The retry loop of `network_send` returns for every behaviour of the line and every
content of the receive slot, when the acknowledgment timeout is finite and the attempt
limit fits the 8-bit counter: `k` bounds the attempts that are left. -/
theorem send_loop_returns (cfg : Config) (busy : Nat → Bool) (hd : cfg.distinctErrors)
    (p : Header) (data : Option (List Nat)) (n : Nat)
    (hT : cfg.NETWORK_TIMEOUT_ACKNOWLEDGE = (n : Int)) (hn : n ≤ 32767)
    (hinf : cfg.NETWORK_TIMEOUT_INFINITE < 0) (k : Nat) :
    ∀ (fuel a : Nat) (w : World), 1 ≤ k → cfg.NETWORK_SEND_ATTEMPTS ≤ a + k → a + k ≤ 255 →
      k + n + 1 ≤ fuel → w.conn.is_initialized = true →
      ∃ r, network_send_loop cfg busy p data fuel a w = some r := by
  induction k with
  | zero => intro fuel a w h1; omega
  | succ k ih =>
    intro fuel a w _ hak hak' hfuel hinit
    obtain ⟨fuel, rfl⟩ : ∃ f, fuel = f + 1 := ⟨fuel - 1, by omega⟩
    obtain ⟨fuel, rfl⟩ : ∃ f, fuel = f + 1 := ⟨fuel - 1, by omega⟩
    have hne := distinct_no_error_no_data cfg hd
    have hto := distinct_timeout cfg hd
    have hw := write_once_spec cfg busy p.stamp data { w with sent := w.sent ++ [(p.stamp, data)] }
    obtain ⟨herr, hconn, -, -, -, -, -⟩ := hw
    have hinit1 : (write_once cfg busy p.stamp data
        { w with sent := w.sent ++ [(p.stamp, data)] }).2.conn.is_initialized = true := by
      rw [hconn]; exact hinit
    have ha1 : (a + 1) % 256 = a + 1 := by omega
    rw [network_send_loop]
    simp only [write_packet_eq cfg busy fuel p data w hd, ha1]
    generalize hr1 : write_once cfg busy p.stamp data
      { w with sent := w.sent ++ [(p.stamp, data)] } = r1 at herr hinit1
    by_cases he : r1.1 = cfg.NETWORK_NO_ERROR
    · simp only [he, if_true, network_wait_for_acknowledge, hinit1, Bool.true_eq_false,
        if_false, stamp_status, stamp_destination, stamp_command, stamp_id, hT]
      by_cases hst : p.status ≠ cfg.NETWORK_STATUS_CHECK
          ∧ p.status ≠ cfg.NETWORK_STATUS_ACKNOWLEDGE
      · simp only [hst, and_self, if_true, ne_eq, not_false_eq_true]
        by_cases hm : slot_matches cfg p.destination cfg.NETWORK_STATUS_ACKNOWLEDGE p.command
            p.id r1.2
        · rw [wait_for_packet_match cfg busy fuel _ _ _ _ Header.uninit none _ r1.2 hinit1 hm
            hd]
          simp [hto.1]
        · rw [wait_for_packet_nomatch cfg busy (fuel + 1) _ _ _ _ Header.uninit none n r1.2
            hinit1 hm hinf hn (by omega) hne]
          simp only [Option.map_some', true_and]
          by_cases hlt : a + 1 < cfg.NETWORK_SEND_ATTEMPTS
          · simp only [hlt, if_true]
            exact ih (fuel + 1) (a + 1) _ (by omega) (by omega) (by omega) (by omega) hinit1
          · simp [hlt]
      · simp only [hst, if_false]
        simp [hto.1]
    · have hwe : r1.1 = cfg.NETWORK_WRITE_ERROR := by
        rcases herr with h | h
        · exact absurd h he
        · exact h
      simp only [he, if_false]
      simp [hwe, hto.2.2]

/-- The function `network_send` returns for every behaviour of the line and every
content of the receive slot, when the acknowledgment timeout is finite and the attempt
limit fits the 8-bit counter. -/
theorem send_returns (cfg : Config) (busy : Nat → Bool) (hd : cfg.distinctErrors)
    (fuel : Nat) (destination status command : Nat) (data : Option (List Nat))
    (length : Nat) (w : World)
    (hT : 0 ≤ cfg.NETWORK_TIMEOUT_ACKNOWLEDGE ∧ cfg.NETWORK_TIMEOUT_ACKNOWLEDGE ≤ 32767)
    (hinf : cfg.NETWORK_TIMEOUT_INFINITE < 0)
    (hN : cfg.NETWORK_SEND_ATTEMPTS ≤ 255)
    (hfuel : cfg.NETWORK_SEND_ATTEMPTS + cfg.NETWORK_TIMEOUT_ACKNOWLEDGE.toNat + 2 ≤ fuel) :
    ∃ r, network_send cfg busy fuel destination status command data length w = some r := by
  by_cases hinit : w.conn.is_initialized = true
  · have hni : ¬ (w.conn.is_initialized = false) := by simp [hinit]
    have hTn : cfg.NETWORK_TIMEOUT_ACKNOWLEDGE =
        (cfg.NETWORK_TIMEOUT_ACKNOWLEDGE.toNat : Int) := (Int.toNat_of_nonneg hT.1).symm
    unfold network_send
    rw [if_neg hni]
    exact send_loop_returns cfg busy hd _ data cfg.NETWORK_TIMEOUT_ACKNOWLEDGE.toNat hTn
      (by omega) hinf (max cfg.NETWORK_SEND_ATTEMPTS 1) fuel 0 _ (by omega) (by omega) (by omega)
      (by omega) hinit
  · have hf : w.conn.is_initialized = false := by simpa using hinit
    exact ⟨_, by unfold network_send; rw [if_pos hf]⟩

/-- The stamped header, field by field. -/
theorem stamp_eq (h : Header) :
    h.stamp = { destination := h.destination, source := h.source, status := h.status,
                command := h.command, id := h.id, length := h.length,
                checksum := h.destination ^^^ h.source ^^^ h.status ^^^ h.command ^^^ h.id
                  ^^^ h.length } := by
  simp [Header.stamp, checksum_fst]

/-- The `Acknowledge` that a node with address `p.destination` builds for the packet `p`
passes the filters that the sender of `p` waits with. -/
theorem acknowledge_passes_filter (cfg : Config) (p : Header) :
    packet_mismatch cfg p.destination cfg.NETWORK_STATUS_ACKNOWLEDGE p.command p.id
      (some (acknowledge_header cfg p.destination p).stamp) = false := by
  simp [packet_mismatch, acknowledge_header]

/-- The retry loop of `network_send` when every write is accepted and the receive slot
already holds an `Acknowledge` that passes the filters: one transmission, one poll,
`NETWORK_NO_ERROR`. -/
theorem send_loop_acknowledged (cfg : Config) (busy : Nat → Bool) (hb : ∀ k, busy k = false)
    (hd : cfg.distinctErrors) (p : Header) (data : Option (List Nat)) (fuel a : Nat)
    (w : World)
    (hinit : w.conn.is_initialized = true)
    (hst : p.status ≠ cfg.NETWORK_STATUS_CHECK ∧ p.status ≠ cfg.NETWORK_STATUS_ACKNOWLEDGE)
    (hm : slot_matches cfg p.destination cfg.NETWORK_STATUS_ACKNOWLEDGE p.command p.id w)
    (hack : w.conn.last_packet_header.status = cfg.NETWORK_STATUS_ACKNOWLEDGE) :
    (network_send_loop cfg busy p data (fuel + 2) a w).map
        (fun r => (r.1, r.2.sent, r.2.polls, r.2.conn)) =
      some (cfg.NETWORK_NO_ERROR, w.sent ++ [(p.stamp, data)], w.polls + 1, w.conn) := by
  have hto := distinct_timeout cfg hd
  have hw := write_once_spec cfg busy p.stamp data { w with sent := w.sent ++ [(p.stamp, data)] }
  have hok := write_once_idle cfg busy hb p.stamp data
    { w with sent := w.sent ++ [(p.stamp, data)] }
  obtain ⟨-, hconn, -, -, -, hsent, hpolls⟩ := hw
  have hinit1 : (write_once cfg busy p.stamp data
      { w with sent := w.sent ++ [(p.stamp, data)] }).2.conn.is_initialized = true := by
    rw [hconn]; exact hinit
  have hm1 : slot_matches cfg p.destination cfg.NETWORK_STATUS_ACKNOWLEDGE p.command p.id
      (write_once cfg busy p.stamp data
        { w with sent := w.sent ++ [(p.stamp, data)] }).2 := by
    simpa [slot_matches, hconn] using hm
  have hack1 : (write_once cfg busy p.stamp data
      { w with sent := w.sent ++ [(p.stamp, data)] }).2.conn.last_packet_header.status =
      cfg.NETWORK_STATUS_ACKNOWLEDGE := by
    rw [hconn]; exact hack
  have hwait := wait_for_packet_match cfg busy fuel p.destination
    cfg.NETWORK_STATUS_ACKNOWLEDGE p.command p.id Header.uninit none
    cfg.NETWORK_TIMEOUT_ACKNOWLEDGE _ hinit1 hm1 hd
  rw [network_send_loop]
  simp only [write_packet_eq cfg busy fuel p data w hd, hok, if_true,
    network_wait_for_acknowledge, hinit1, Bool.true_eq_false, if_false, stamp_status, hst,
    ne_eq, not_false_eq_true, and_self, stamp_destination, stamp_command, stamp_id, hwait,
    Option.map_some', hack1, not_true_eq_false, and_false, hto.1, false_and]
  simp only [hconn, hsent, hpolls]

/-- The function `network_send` when every write is accepted and the receive slot
already holds an `Acknowledge` that passes the filters: one transmission, one poll,
`NETWORK_NO_ERROR`. -/
theorem send_acknowledged (cfg : Config) (busy : Nat → Bool) (fuel : Nat)
    (destination status command : Nat) (data : Option (List Nat)) (length : Nat) (w : World)
    (hb : ∀ k, busy k = false) (hd : cfg.distinctErrors)
    (hinit : w.conn.is_initialized = true)
    (hst : status ≠ cfg.NETWORK_STATUS_CHECK ∧ status ≠ cfg.NETWORK_STATUS_ACKNOWLEDGE)
    (hm : slot_matches cfg destination cfg.NETWORK_STATUS_ACKNOWLEDGE command
      ((w.conn.last_id + 1) % 256) w)
    (hack : w.conn.last_packet_header.status = cfg.NETWORK_STATUS_ACKNOWLEDGE) :
    (network_send cfg busy (fuel + 2) destination status command data length w).map
        (fun r => (r.1, r.2.sent, r.2.polls, r.2.conn)) =
      some (cfg.NETWORK_NO_ERROR,
        w.sent ++ [((Header.mk destination w.conn.address status command
          ((w.conn.last_id + 1) % 256) length 0).stamp, data)],
        w.polls + 1,
        { w.conn with last_id := (w.conn.last_id + 1) % 256 }) := by
  have hni : ¬ (w.conn.is_initialized = false) := by simp [hinit]
  unfold network_send
  rw [if_neg hni]
  exact send_loop_acknowledged cfg busy hb hd
    (Header.mk destination w.conn.address status command ((w.conn.last_id + 1) % 256) length 0)
    data fuel 0 { w with conn := { w.conn with last_id := (w.conn.last_id + 1) % 256 } }
    hinit hst (by simpa [slot_matches] using hm) hack

/-- The header and all payload bytes but the last of a well-formed frame with a
non-empty payload, fed to an idle reassembler: the header buffer holds the header, the
payload block holds the bytes fed so far, nothing else has changed. -/
theorem feed_frame_body (cfg : Config) (busy : Nat → Bool) (fuel : Nat) (w : World)
    (h : Header) (P : List Nat) (hP : P ≠ [])
    (hidle : w.packet_index = 0)
    (hdest : h.destination = w.conn.address ∨ h.destination = cfg.NETWORK_ADDRESS_BROADCAST)
    (hck : h.checksum =
      h.destination ^^^ h.source ^^^ h.status ^^^ h.command ^^^ h.id ^^^ h.length)
    (hlen : P.length = h.length) (hfit : 7 + P.length ≤ 255) :
    feed cfg busy fuel (h.bytes ++ P.dropLast) w =
      some (List.replicate (7 + (P.length - 1)) 0,
        { w with packet_header := h,
                 packet_data := if P.dropLast = [] then w.packet_data
                                else some (storeAt (w.blockFor h.length) 0 P.dropLast),
                 packet_index := 7 + (P.length - 1) }) := by
  have hpos : 0 < P.length := List.length_pos.mpr hP
  obtain ⟨conn, idx, hdr, data, writes, wire, sent, polls⟩ := w
  simp only at hidle hdest
  subst hidle
  have h7 := feed_header7 cfg busy fuel ⟨conn, 0, hdr, data, writes, wire, sent, polls⟩ h rfl
    hdest hck (by omega)
  have hpart := feed_payload_part cfg busy fuel P.dropLast
    ⟨conn, 7, h, data, writes, wire, sent, polls⟩ 0 rfl
    (by simp only [List.length_dropLast]; omega) (by simp only [List.length_dropLast]; omega)
  have hall := feed_append cfg busy fuel _ _ _ _ _ _ _ h7 hpart
  simp only [List.length_dropLast, Nat.zero_add, List.append_replicate_replicate] at hall
  rw [hall]
  rfl

/-- A well-formed frame with a non-empty payload, fed to an idle reassembler, ends as
the call for its last payload byte ends, and every earlier call returns 0. -/
theorem feed_frame_via_last (cfg : Config) (busy : Nat → Bool) (fuel : Nat) (w : World)
    (h : Header) (P : List Nat) (hP : P ≠ []) (r : World)
    (hidle : w.packet_index = 0)
    (hdest : h.destination = w.conn.address ∨ h.destination = cfg.NETWORK_ADDRESS_BROADCAST)
    (hck : h.checksum =
      h.destination ^^^ h.source ^^^ h.status ^^^ h.command ^^^ h.id ^^^ h.length)
    (hlen : P.length = h.length) (hfit : 7 + P.length ≤ 255)
    (hlast : network_process_byte cfg busy fuel cfg.NETWORK_NO_ERROR (P.getLast hP)
      { w with packet_header := h,
               packet_data := if P.dropLast = [] then w.packet_data
                              else some (storeAt (w.blockFor h.length) 0 P.dropLast),
               packet_index := 7 + (P.length - 1) } = some (0, r)) :
    feed cfg busy fuel (h.bytes ++ P) w = some (List.replicate (7 + P.length) 0, r) := by
  have hpos : 0 < P.length := List.length_pos.mpr hP
  have hbody := feed_frame_body cfg busy fuel w h P hP hidle hdest hck hlen hfit
  have hl := feed_one _ _ _ _ _ _ hlast
  have hall := feed_append cfg busy fuel _ _ _ _ _ _ _ hbody hl
  rw [List.append_assoc, List.dropLast_append_getLast hP] at hall
  rw [hall]
  have : List.replicate (7 + (P.length - 1)) 0 ++ [0] = List.replicate (7 + P.length) 0 := by
    rw [show [0] = List.replicate 1 0 from rfl, List.append_replicate_replicate]
    congr 1
    omega
  simp only [this]

/-- The block of the world before the last payload byte, with that byte stored, is the
starting block with the whole payload stored. -/
theorem block_with_last (w : World) (h : Header) (P : List Nat) (hP : P ≠ []) :
    (({ w with packet_header := h,
               packet_data := if P.dropLast = [] then w.packet_data
                              else some (storeAt (w.blockFor h.length) 0 P.dropLast),
               packet_index := 7 + (P.length - 1) } : World).block).set (P.length - 1)
        (P.getLast hP) =
      storeAt (w.blockFor h.length) 0 P := by
  have e1 := storeAt_concat P.dropLast [P.getLast hP] (w.blockFor h.length) 0
  rw [List.dropLast_append_getLast hP] at e1
  simp only [storeAt, Nat.zero_add, List.length_dropLast] at e1
  rw [e1]
  by_cases hd : P.dropLast = []
  · simp only [hd, if_true, storeAt]
    cases hw : w.packet_data <;> simp [World.block, World.blockFor, hw]
  · simp only [hd, if_false, World.block]

/-- The payload byte that completes a frame other than a `Check` while the receive slot
is occupied: the slot is left alone, the byte counter is reset and the payload block
stays with the reassembler. -/
theorem step_payload_last_occupied (cfg : Config) (busy : Nat → Bool) (fuel : Nat)
    (w : World) (b k : Nat)
    (hi : w.packet_index = 7 + k) (hk : k + 1 = w.packet_header.length)
    (hfit : 7 + k < 255)
    (hst : w.packet_header.status ≠ cfg.NETWORK_STATUS_CHECK)
    (hslot : w.conn.is_packet_avaiable = true) :
    network_process_byte cfg busy fuel cfg.NETWORK_NO_ERROR b w =
      some (0, { w with packet_data := some (w.block.set k b), packet_index := 0 }) := by
  have e : (7 + k + 1) % 256 = 7 + (k + 1) := by omega
  have n1 : ¬ (7 + k < 7) := by omega
  have n2 : k < w.packet_header.length := by omega
  simp only [network_process_byte, HEADER_SIZE, hi, e, n1, World.block]
  simp [n2, hk, hst, hslot]

/-- The seventh header byte of a frame without payload, other than a `Check`, while the
receive slot is occupied: the slot is left alone and the byte counter is reset. -/
theorem step_checksum_ok_empty_occupied (cfg : Config) (busy : Nat → Bool) (fuel : Nat)
    (w : World) (b : Nat)
    (hi : w.packet_index = 6)
    (hck : (network_calculate_checksum w.packet_header).1 = b)
    (hlen : w.packet_header.length = 0)
    (hst : w.packet_header.status ≠ cfg.NETWORK_STATUS_CHECK)
    (hslot : w.conn.is_packet_avaiable = true) :
    network_process_byte cfg busy fuel cfg.NETWORK_NO_ERROR b w =
      some (0, { w with packet_header := { w.packet_header with checksum := b },
                        packet_index := 0 }) := by
  have hck' : (w.packet_header.destination ^^^ w.packet_header.source ^^^
      w.packet_header.status ^^^ w.packet_header.command ^^^ w.packet_header.id ^^^
      w.packet_header.length = b) := by
    rw [checksum_fst] at hck; exact hck
  rw [hlen, Nat.xor_zero] at hck'
  simp [network_process_byte, HEADER_SIZE, hi, Header.write, checksum_fst, hck', hlen, hst,
    hslot]

/-- The function `network_send` for a `Check` or an `Acknowledge` when every write is
accepted: one transmission, no acknowledgment wait, `NETWORK_NO_ERROR`. -/
theorem send_plain_idle (cfg : Config) (busy : Nat → Bool) (fuel : Nat)
    (destination status command : Nat) (data : Option (List Nat)) (length : Nat) (w : World)
    (hb : ∀ k, busy k = false) (hd : cfg.distinctErrors)
    (hinit : w.conn.is_initialized = true)
    (hst : status = cfg.NETWORK_STATUS_CHECK ∨ status = cfg.NETWORK_STATUS_ACKNOWLEDGE) :
    network_send cfg busy (fuel + 2) destination status command data length w =
      some (cfg.NETWORK_NO_ERROR,
        { w with conn := { w.conn with last_id := (w.conn.last_id + 1) % 256 },
                 sent := w.sent ++ [((Header.mk destination w.conn.address status command
                   ((w.conn.last_id + 1) % 256) length 0).stamp, data)],
                 writes := w.writes + 7 + length,
                 wire := w.wire ++ List.replicate 7 destination ++
                   List.replicate length ((data.getD []).headD 0) }) := by
  have hni : ¬ (w.conn.is_initialized = false) := by simp [hinit]
  have hto := distinct_timeout cfg hd
  have hst' : ¬ (status ≠ cfg.NETWORK_STATUS_CHECK ∧ status ≠ cfg.NETWORK_STATUS_ACKNOWLEDGE) := by
    tauto
  unfold network_send
  rw [if_neg hni]
  simp only []
  rw [network_send_loop]
  rw [write_packet_eq cfg busy fuel _ data _ hd, write_once_idle_eq cfg busy hb]
  simp only [if_true, network_wait_for_acknowledge, stamp_status, stamp_length,
    stamp_destination]
  rw [if_neg hni, if_neg hst']
  simp [hto.1]

/-- First half of `network_process_byte` for a payload byte: it is stored at its
offset. -/
theorem store_payload (cfg : Config) (w : World) (b k : Nat)
    (hi : w.packet_index = 7 + k) (hk : k < w.packet_header.length) (hfit : 7 + k < 255) :
    reassemble_store cfg cfg.NETWORK_NO_ERROR b w =
      (cfg.NETWORK_NO_ERROR,
        { w with packet_data := some (w.block.set k b), packet_index := 7 + (k + 1) }) := by
  have e : (7 + k + 1) % 256 = 7 + (k + 1) := by omega
  have n1 : ¬ (7 + k < 7) := by omega
  simp only [reassemble_store, HEADER_SIZE, hi, e, n1, World.block]
  simp [hk]

/-- First half of `network_process_byte` for the seventh header byte when it is the XOR
of the six bytes before it. -/
theorem store_checksum_ok (cfg : Config) (w : World) (b : Nat)
    (hi : w.packet_index = 6)
    (hck : (network_calculate_checksum w.packet_header).1 = b) :
    reassemble_store cfg cfg.NETWORK_NO_ERROR b w =
      (cfg.NETWORK_NO_ERROR,
        { w with packet_header := { w.packet_header with checksum := b },
                 packet_index := 7 }) := by
  have hck' : (w.packet_header.destination ^^^ w.packet_header.source ^^^
      w.packet_header.status ^^^ w.packet_header.command ^^^ w.packet_header.id ^^^
      w.packet_header.length = b) := by
    rw [checksum_fst] at hck; exact hck
  simp [reassemble_store, HEADER_SIZE, hi, Header.write, checksum_fst, hck']

/-- Second half of `network_process_byte` when a `Check` frame is complete, on an
initialized connection and a line that accepts every byte: one `Acknowledge` goes to
the source of the `Check`, then the byte counter is reset. -/
theorem finish_check (cfg : Config) (busy : Nat → Bool) (fuel : Nat) (w : World)
    (hb : ∀ k, busy k = false) (hd : cfg.distinctErrors)
    (hinit : w.conn.is_initialized = true)
    (hi : w.packet_index = 7 + w.packet_header.length)
    (hst : w.packet_header.status = cfg.NETWORK_STATUS_CHECK) :
    reassemble_finish cfg busy (fuel + 2) (cfg.NETWORK_NO_ERROR, w) =
      some (0,
        { w with conn := { w.conn with last_id := (w.conn.last_id + 1) % 256 },
                 packet_index := 0,
                 sent := w.sent ++ [((Header.mk w.packet_header.source w.conn.address
                   cfg.NETWORK_STATUS_ACKNOWLEDGE cfg.NETWORK_COMMAND_NONE
                   ((w.conn.last_id + 1) % 256) 0 0).stamp, none)],
                 writes := w.writes + 7,
                 wire := w.wire ++ List.replicate 7 w.packet_header.source }) := by
  unfold reassemble_finish
  simp only [if_true, HEADER_SIZE, hi, hst]
  rw [send_plain_idle cfg busy fuel _ _ _ none 0 w hb hd hinit (Or.inr rfl)]
  simp

/-- A well-formed `Check` frame addressed to this node or to everybody, fed to the idle
reassembler of an initialized node on a line that accepts every byte: every call
returns 0, one `Acknowledge` goes to the source of the `Check`, `last_id` is
incremented, the receive slot is untouched and the byte counter is back at 0. -/
theorem feed_frame_check (cfg : Config) (busy : Nat → Bool) (fuel : Nat) (w : World)
    (h : Header) (P : List Nat)
    (hb : ∀ k, busy k = false) (hd : cfg.distinctErrors)
    (hinit : w.conn.is_initialized = true)
    (hidle : w.packet_index = 0)
    (hdest : h.destination = w.conn.address ∨ h.destination = cfg.NETWORK_ADDRESS_BROADCAST)
    (hck : h.checksum =
      h.destination ^^^ h.source ^^^ h.status ^^^ h.command ^^^ h.id ^^^ h.length)
    (hst : h.status = cfg.NETWORK_STATUS_CHECK)
    (hlen : P.length = h.length) (hfit : 7 + P.length ≤ 255) :
    feed cfg busy (fuel + 2) (h.bytes ++ P) w =
      some (List.replicate (7 + P.length) 0,
        { w with conn := { w.conn with last_id := (w.conn.last_id + 1) % 256 },
                 packet_header := h,
                 packet_data := if P = [] then w.packet_data
                                else some (storeAt (w.blockFor h.length) 0 P),
                 packet_index := 0,
                 sent := w.sent ++ [((Header.mk h.source w.conn.address
                   cfg.NETWORK_STATUS_ACKNOWLEDGE cfg.NETWORK_COMMAND_NONE
                   ((w.conn.last_id + 1) % 256) 0 0).stamp, none)],
                 writes := w.writes + 7,
                 wire := w.wire ++ List.replicate 7 h.source }) := by
  by_cases hP : P = []
  · subst hP
    obtain ⟨d, s, st, c, id, l, ck⟩ := h
    simp only [List.length_nil] at hlen
    simp only at hdest hck hst
    subst hlen
    have h6 := feed_header6 cfg busy (fuel + 2) w d s st c id 0 hidle hdest
    have hstep := (congrArg (reassemble_finish cfg busy (fuel + 2))
      (store_checksum_ok cfg
        { w with packet_header := { destination := d, source := s, status := st,
                                    command := c, id := id, length := 0,
                                    checksum := w.packet_header.checksum },
                 packet_index := 6 } ck rfl
        (by simp only [checksum_fst]; exact hck.symm))).trans
      (finish_check cfg busy fuel _ hb hd hinit rfl hst)
    have h7 := feed_one cfg busy (fuel + 2) ck _ _ hstep
    have hall := feed_append cfg busy (fuel + 2) _ _ _ _ _ _ _ h6 h7
    simpa [Header.bytes] using hall
  · have hpos : 0 < P.length := List.length_pos.mpr hP
    have hlast := (congrArg (reassemble_finish cfg busy (fuel + 2))
      (store_payload cfg
        { w with packet_header := h,
                 packet_data := if P.dropLast = [] then w.packet_data
                                else some (storeAt (w.blockFor h.length) 0 P.dropLast),
                 packet_index := 7 + (P.length - 1) } (P.getLast hP) (P.length - 1) rfl
        (show P.length - 1 < h.length by omega) (by omega))).trans
      (finish_check cfg busy fuel _ hb hd hinit
        (show 7 + (P.length - 1 + 1) = 7 + h.length by omega) hst)
    rw [feed_frame_via_last cfg busy (fuel + 2) w h P hP _ hidle hdest hck hlen hfit hlast]
    simp only [block_with_last, hP, if_false]

/-- A well-formed frame other than a `Check`, addressed to this node or to everybody,
fed to the idle reassembler while the receive slot is occupied: every call returns 0,
the connection is untouched, the byte counter is back at 0 and the payload block stays
with the reassembler. -/
theorem feed_frame_dropped (cfg : Config) (busy : Nat → Bool) (fuel : Nat) (w : World)
    (h : Header) (P : List Nat)
    (hidle : w.packet_index = 0)
    (hslot : w.conn.is_packet_avaiable = true)
    (hdest : h.destination = w.conn.address ∨ h.destination = cfg.NETWORK_ADDRESS_BROADCAST)
    (hck : h.checksum =
      h.destination ^^^ h.source ^^^ h.status ^^^ h.command ^^^ h.id ^^^ h.length)
    (hst : h.status ≠ cfg.NETWORK_STATUS_CHECK)
    (hlen : P.length = h.length) (hfit : 7 + P.length ≤ 255) :
    feed cfg busy fuel (h.bytes ++ P) w =
      some (List.replicate (7 + P.length) 0,
        { w with packet_header := h,
                 packet_data := if P = [] then w.packet_data
                                else some (storeAt (w.blockFor h.length) 0 P),
                 packet_index := 0 }) := by
  by_cases hP : P = []
  · subst hP
    obtain ⟨d, s, st, c, id, l, ck⟩ := h
    simp only [List.length_nil] at hlen
    simp only at hdest hck hst
    subst hlen
    have h6 := feed_header6 cfg busy fuel w d s st c id 0 hidle hdest
    have h7 := feed_one _ _ _ _ _ _ (step_checksum_ok_empty_occupied cfg busy fuel
      { w with packet_header := { destination := d, source := s, status := st,
                                  command := c, id := id, length := 0,
                                  checksum := w.packet_header.checksum },
               packet_index := 6 } ck rfl
      (by simp only [checksum_fst]; exact hck.symm) rfl hst hslot)
    have hall := feed_append cfg busy fuel _ _ _ _ _ _ _ h6 h7
    simpa [Header.bytes] using hall
  · have hpos : 0 < P.length := List.length_pos.mpr hP
    have hlast := step_payload_last_occupied cfg busy fuel
      { w with packet_header := h,
               packet_data := if P.dropLast = [] then w.packet_data
                              else some (storeAt (w.blockFor h.length) 0 P.dropLast),
               packet_index := 7 + (P.length - 1) } (P.getLast hP) (P.length - 1) rfl
      (show P.length - 1 + 1 = h.length by omega) (by omega) hst hslot
    rw [feed_frame_via_last cfg busy fuel w h P hP _ hidle hdest hck hlen hfit hlast]
    simp only [block_with_last, hP, if_false]

/-- The function `network_acknowledge_packet` on an initialized node whose transport
accepts every byte, for a packet that is not an `Acknowledge` and whose source is not
the broadcast address: one `Acknowledge` is handed to the transport, with destination =
source of the packet, source = own address, command and id of the packet and length 0;
the slot is not polled and the connection is untouched. -/
theorem acknowledge_packet_sends (cfg : Config) (busy : Nat → Bool) (fuel : Nat)
    (p : Header) (w : World)
    (hb : ∀ k, busy k = false) (hd : cfg.distinctErrors)
    (hinit : w.conn.is_initialized = true)
    (hsrc : p.source ≠ cfg.NETWORK_ADDRESS_BROADCAST)
    (hst : p.status ≠ cfg.NETWORK_STATUS_ACKNOWLEDGE) :
    (network_acknowledge_packet cfg busy (fuel + 1) (some p) w).map
        (fun r => (r.1, r.2.sent, r.2.polls, r.2.conn)) =
      some (cfg.NETWORK_NO_ERROR,
        w.sent ++ [((Header.mk p.source w.conn.address cfg.NETWORK_STATUS_ACKNOWLEDGE
          p.command p.id 0 0).stamp, none)],
        w.polls, w.conn) := by
  have hni : ¬ (w.conn.is_initialized = false) := by simp [hinit]
  unfold network_acknowledge_packet
  rw [if_neg hni]
  simp only [if_pos (And.intro hsrc hst)]
  rw [write_packet_eq cfg busy fuel _ none w hd, write_once_idle_eq cfg busy hb]
  rfl

/-- The function `network_wait_for_acknowledge` for a packet that is neither a `Check`
nor an `Acknowledge`, when the receive slot already holds an `Acknowledge` that passes
the filters: one poll, `NETWORK_NO_ERROR`, nothing is handed to the transport. -/
theorem wait_for_acknowledge_matched (cfg : Config) (busy : Nat → Bool) (fuel : Nat)
    (p : Header) (w : World) (hd : cfg.distinctErrors)
    (hinit : w.conn.is_initialized = true)
    (hst : p.status ≠ cfg.NETWORK_STATUS_CHECK ∧ p.status ≠ cfg.NETWORK_STATUS_ACKNOWLEDGE)
    (hm : slot_matches cfg p.destination cfg.NETWORK_STATUS_ACKNOWLEDGE p.command p.id w)
    (hack : w.conn.last_packet_header.status = cfg.NETWORK_STATUS_ACKNOWLEDGE) :
    (network_wait_for_acknowledge cfg busy (fuel + 1) p w).map
        (fun r => (r.1, r.2.sent, r.2.polls, r.2.conn)) =
      some (cfg.NETWORK_NO_ERROR, w.sent, w.polls + 1, w.conn) := by
  have hni : ¬ (w.conn.is_initialized = false) := by simp [hinit]
  unfold network_wait_for_acknowledge
  rw [if_neg hni, if_pos hst,
    wait_for_packet_match cfg busy fuel p.destination cfg.NETWORK_STATUS_ACKNOWLEDGE
      p.command p.id Header.uninit none cfg.NETWORK_TIMEOUT_ACKNOWLEDGE w hinit hm hd]
  simp only [Option.map_some', hack, ne_eq, not_true_eq_false, and_false, if_false]

/-! ## Claims -/

/-- Claim C1 (fails on the code for payloads of 249 to 255 bytes).  A well-formed frame
with 249 payload bytes, addressed to this node or to everybody, fed byte by byte to the
idle reassembler: every call returns 0, but the 8-bit byte counter wraps from 255 to 0
on the last payload byte, the frame never reaches the receive slot (the connection is
unchanged) and the reassembler keeps the payload block. -/
theorem C1_frame_with_249_payload_bytes_is_lost (cfg : Config) (busy : Nat → Bool)
    (fuel : Nat) (w : World) (h : Header) (P : List Nat)
    (hidle : w.packet_index = 0) (hbuf : w.packet_data = none)
    (hdest : h.destination = w.conn.address ∨ h.destination = cfg.NETWORK_ADDRESS_BROADCAST)
    (hck : h.checksum =
      h.destination ^^^ h.source ^^^ h.status ^^^ h.command ^^^ h.id ^^^ h.length)
    (hlen : P.length = h.length) (h249 : h.length = 249) :
    feed cfg busy fuel (h.bytes ++ P) w =
      some (List.replicate 256 0,
        { w with packet_header := h, packet_data := some P, packet_index := 0 }) :=
  feed_frame_249 cfg busy fuel w h P hidle hbuf hdest hck hlen h249

/-- Witness of C1: a `Request` frame for node 2 with 249 payload bytes leaves the
receive slot of node 2 empty. -/
theorem C1_frame_with_249_payload_bytes_is_lost_witness :
    feed Config.sample idle 0
        (Header.bytes ⟨2, 1, 3, 9, 1, 249, 241⟩ ++ List.replicate 249 7) (World.fresh 2) =
      some (List.replicate 256 0,
        { World.fresh 2 with packet_header := ⟨2, 1, 3, 9, 1, 249, 241⟩,
                             packet_data := some (List.replicate 249 7),
                             packet_index := 0 }) :=
  C1_frame_with_249_payload_bytes_is_lost Config.sample idle 0 (World.fresh 2)
    ⟨2, 1, 3, 9, 1, 249, 241⟩ (List.replicate 249 7) rfl rfl (Or.inl rfl) (by decide)
    (List.length_replicate 249 7) rfl

/-- Claim C2.  Request round trip between a sender `ws` and a receiver `wr` (initialized,
idle reassembler, empty receive slot), for a payload `P` with `7 + |P| ≤ 255`.
First part: whenever the sender's `network_send(A, Request, C, P, |P|)` returns, the first
packet it handed to the transport is the header `(A, s, Request, C, last_id + 1, |P|)`
stamped with its checksum, with payload `P`.  Second part: feeding that header followed
by the bytes of `P` to the receiver and calling `network_get_request` gives
`NETWORK_NO_ERROR` and a request with source `s`, destination `A`, command `C`,
length `|P|` and the data pointer on a block equal to `P` (`NULL` when `P` is empty). -/
theorem C2_request_round_trip (cfg : Config) (busyS busyR : Nat → Bool) (fuelS fuelR : Nat)
    (ws wr : World) (C : Nat) (P : List Nat) (request : RequestData) (timeout : Int)
    (hd : cfg.distinctErrors)
    (hreq : cfg.NETWORK_STATUS_REQUEST ≠ cfg.NETWORK_STATUS_CHECK)
    (hs : ws.conn.is_initialized = true) (hr : wr.conn.is_initialized = true)
    (hidle : wr.packet_index = 0) (hbuf : wr.packet_data = none)
    (hslot : wr.conn.is_packet_avaiable = false)
    (hfit : 7 + P.length ≤ 255) :
    (∀ rs, network_send cfg busyS fuelS wr.conn.address cfg.NETWORK_STATUS_REQUEST C (some P)
        P.length ws = some rs →
      rs.2.sent.get? ws.sent.length =
        some ((Header.mk wr.conn.address ws.conn.address cfg.NETWORK_STATUS_REQUEST C
          ((ws.conn.last_id + 1) % 256) P.length 0).stamp, some P)) ∧
    ((feed cfg busyR fuelR
        ((Header.mk wr.conn.address ws.conn.address cfg.NETWORK_STATUS_REQUEST C
          ((ws.conn.last_id + 1) % 256) P.length 0).stamp.bytes ++ P) wr).bind
      (fun r => network_get_request cfg busyR (fuelR + 1) request timeout r.2)).map
        (fun r => (r.1, r.2.1)) =
      some (cfg.NETWORK_NO_ERROR,
        { source := ws.conn.address, destination := wr.conn.address, command := C,
          length := P.length, data := if P = [] then none else some P }) := by
  refine ⟨fun rs hrs => send_first_sent cfg busyS hd fuelS _ _ _ _ _ ws rs hs hrs, ?_⟩
  rw [feed_frame_stored cfg busyR fuelR wr
    (Header.mk wr.conn.address ws.conn.address cfg.NETWORK_STATUS_REQUEST C
      ((ws.conn.last_id + 1) % 256) P.length 0).stamp P hidle hbuf hslot (Or.inl rfl)
    (stamp_checksum _) hreq rfl hfit]
  rw [Option.some_bind]
  exact get_request_match cfg busyR fuelR request timeout _ hr rfl rfl hd

/-- Witness of C2: node 1 sends the request (command 9, payload 10 20 30) to node 2.
The sender's call returns and its first transmitted packet is the stamped header
`2 1 3 9 1 3 | 11` with the payload; node 2 gets the request out of it. -/
theorem C2_request_round_trip_witness :
    (∃ rs, network_send Config.sample idle 7 2 3 9 (some [10, 20, 30]) 3 (World.fresh 1)
        = some rs ∧
      rs.2.sent.get? 0 = some (⟨2, 1, 3, 9, 1, 3, 11⟩, some [10, 20, 30])) ∧
    ((feed Config.sample idle 0
        ((Header.mk 2 1 3 9 1 3 0).stamp.bytes ++ [10, 20, 30]) (World.fresh 2)).bind
      (fun r => network_get_request Config.sample idle 1 ⟨0, 0, 0, 0, none⟩ (-1) r.2)).map
        (fun r => (r.1, r.2.1)) =
      some (0, { source := 1, destination := 2, command := 9, length := 3,
                 data := some [10, 20, 30] }) :=
  ⟨match h : network_send Config.sample idle 7 2 3 9 (some [10, 20, 30]) 3 (World.fresh 1) with
    | some rs =>
      ⟨rs, rfl, (C2_request_round_trip Config.sample idle idle 7 0 (World.fresh 1)
        (World.fresh 2) 9 [10, 20, 30] ⟨0, 0, 0, 0, none⟩ (-1) (by decide) (by decide) rfl rfl
        rfl rfl rfl (by decide)).1 rs h⟩
    | none => absurd h (by decide),
   (C2_request_round_trip Config.sample idle idle 7 0 (World.fresh 1) (World.fresh 2) 9
    [10, 20, 30] ⟨0, 0, 0, 0, none⟩ (-1) (by decide) (by decide) rfl rfl rfl rfl rfl
    (by decide)).2⟩

/-- Claim C3 (fails on the code).  When the receive slot holds a packet that passes the
filters and the caller passes a header buffer, `network_wait_for_packet` returns
`NETWORK_NO_ERROR` and hands out the slot's header and payload, but the connection is
left as it was: `is_packet_avaiable` is still true, the packet is not consumed. -/
theorem C3_matched_packet_stays_in_slot (cfg : Config) (busy : Nat → Bool) (fuel : Nat)
    (source status command id : Nat) (h0 : Header) (pd : Option (Option (List Nat)))
    (timeout : Int) (w : World)
    (hinit : w.conn.is_initialized = true)
    (hm : slot_matches cfg source status command id w)
    (hd : cfg.distinctErrors) :
    (network_wait_for_packet cfg busy (fuel + 1) source status command id (some h0) pd
        timeout w).map (fun g => (g.error, g.packet_header, g.packet_data, g.world.conn)) =
      some (cfg.NETWORK_NO_ERROR, some w.conn.last_packet_header,
        pd.map (fun _ => w.conn.last_packet_data), w.conn) ∧
    (network_wait_for_packet cfg busy (fuel + 1) source status command id (some h0) pd
        timeout w).map (fun g => g.world.conn.is_packet_avaiable) = some true := by
  rw [wait_for_packet_match cfg busy fuel source status command id h0 pd timeout w hinit hm hd]
  have hs := write_once_spec cfg busy
    (acknowledge_header cfg w.conn.address w.conn.last_packet_header).stamp none
    { w with polls := w.polls + 1,
             sent := w.sent ++
               [((acknowledge_header cfg w.conn.address w.conn.last_packet_header).stamp, none)] }
  simp only [Option.map_some', Option.some.injEq, Prod.mk.injEq, true_and]
  split
  · exact ⟨hs.2.1, by rw [hs.2.1]; exact hm.1⟩
  · exact ⟨rfl, hm.1⟩

/-- Witness of C3: node 2 holds a `Request` from node 1; the wait of
`network_get_request` returns it and the slot is still marked occupied. -/
theorem C3_matched_packet_stays_in_slot_witness :
    (network_wait_for_packet Config.sample idle 1 0 3 0 0 (some Header.uninit) (some none)
        (-1) (World.holding 2 ⟨2, 1, 3, 9, 1, 0, 8⟩ none)).map
      (fun g => g.world.conn.is_packet_avaiable) = some true :=
  (C3_matched_packet_stays_in_slot Config.sample idle 0 0 3 0 0 Header.uninit (some none)
    (-1) (World.holding 2 ⟨2, 1, 3, 9, 1, 0, 8⟩ none) rfl (by decide) (by decide)).2

/-- Claim C4.  On an initialized connection, for a status other than `Check` and
`Acknowledge`, when the transport accepts every write and the receive slot holds no
matching `Acknowledge` (it is empty or its occupant fails a filter), `network_send`
returns, with `NETWORK_TIMEOUT_EXCEEDED`, after exactly `NETWORK_SEND_ATTEMPTS` calls of
`network_write_packet` with the stamped header, each followed by an acknowledgment wait
of `NETWORK_TIMEOUT_ACKNOWLEDGE + 1` polls.  This holds for every destination, unicast
ones included. -/
theorem C4_send_without_acknowledge_times_out (cfg : Config) (busy : Nat → Bool)
    (fuel : Nat) (destination status command : Nat) (data : Option (List Nat))
    (length : Nat) (w : World)
    (hb : ∀ k, busy k = false) (hd : cfg.distinctErrors)
    (hinit : w.conn.is_initialized = true)
    (hst : status ≠ cfg.NETWORK_STATUS_CHECK ∧ status ≠ cfg.NETWORK_STATUS_ACKNOWLEDGE)
    (hT : 0 ≤ cfg.NETWORK_TIMEOUT_ACKNOWLEDGE ∧ cfg.NETWORK_TIMEOUT_ACKNOWLEDGE ≤ 32767)
    (hinf : cfg.NETWORK_TIMEOUT_INFINITE < 0)
    (hN : 1 ≤ cfg.NETWORK_SEND_ATTEMPTS ∧ cfg.NETWORK_SEND_ATTEMPTS ≤ 255)
    (hm : ¬ slot_matches cfg destination cfg.NETWORK_STATUS_ACKNOWLEDGE command
      ((w.conn.last_id + 1) % 256) w)
    (hfuel : cfg.NETWORK_SEND_ATTEMPTS + cfg.NETWORK_TIMEOUT_ACKNOWLEDGE.toNat + 1 ≤ fuel) :
    (network_send cfg busy fuel destination status command data length w).map
        (fun r => (r.1, r.2.sent, r.2.polls, r.2.conn)) =
      some (cfg.NETWORK_TIMEOUT_EXCEEDED,
        w.sent ++ List.replicate cfg.NETWORK_SEND_ATTEMPTS
          ((Header.mk destination w.conn.address status command
              ((w.conn.last_id + 1) % 256) length 0).stamp, data),
        w.polls + cfg.NETWORK_SEND_ATTEMPTS * (cfg.NETWORK_TIMEOUT_ACKNOWLEDGE.toNat + 1),
        { w.conn with last_id := (w.conn.last_id + 1) % 256 }) :=
  send_times_out cfg busy fuel destination status command data length w hb hd hinit hst hT
    hinf hN hm hfuel

/-- Witness of C4: node 1 sends a `Request` with two payload bytes to node 2 while its
receive slot is empty; with 3 attempts and an acknowledgment timeout of 3 ticks the
packet is transmitted 3 times, the slot is polled 12 times and the call times out. -/
theorem C4_send_without_acknowledge_times_out_witness :
    (network_send Config.sample idle 7 2 3 9 (some [10, 20]) 2 (World.fresh 1)).map
        (fun r => (r.1, r.2.sent, r.2.polls, r.2.conn)) =
      some (4, List.replicate 3 (⟨2, 1, 3, 9, 1, 2, 10⟩, some [10, 20]), 12,
        { (World.fresh 1).conn with last_id := 1 }) :=
  (C4_send_without_acknowledge_times_out Config.sample idle 7 2 3 9 (some [10, 20]) 2
    (World.fresh 1) (fun _ => rfl) (by decide) rfl (by decide) (by decide) (by decide)
    (by decide) (by decide) (by decide)).trans rfl

/-- Claim C5 (fails on the code for broadcast packets).  For a packet in the receive
slot that passes the filters, `network_wait_for_packet` hands exactly one `Acknowledge`
to the transport when the packet's source is not the broadcast address and its status
is not `Acknowledge`, and nothing otherwise.  The test looks at the source, so a packet
sent to the broadcast address is acknowledged like any other. -/
theorem C5_acknowledge_depends_on_source (cfg : Config) (busy : Nat → Bool) (fuel : Nat)
    (source status command id : Nat) (h0 : Header) (pd : Option (Option (List Nat)))
    (timeout : Int) (w : World)
    (hinit : w.conn.is_initialized = true)
    (hm : slot_matches cfg source status command id w)
    (hd : cfg.distinctErrors) :
    (network_wait_for_packet cfg busy (fuel + 1) source status command id (some h0) pd
        timeout w).map (fun g => g.world.sent) =
      some (if w.conn.last_packet_header.source ≠ cfg.NETWORK_ADDRESS_BROADCAST
              ∧ w.conn.last_packet_header.status ≠ cfg.NETWORK_STATUS_ACKNOWLEDGE then
          w.sent ++
            [((acknowledge_header cfg w.conn.address w.conn.last_packet_header).stamp, none)]
        else w.sent) := by
  rw [wait_for_packet_match cfg busy fuel source status command id h0 pd timeout w hinit hm hd]
  have hs := write_once_spec cfg busy
    (acknowledge_header cfg w.conn.address w.conn.last_packet_header).stamp none
    { w with polls := w.polls + 1,
             sent := w.sent ++
               [((acknowledge_header cfg w.conn.address w.conn.last_packet_header).stamp, none)] }
  simp only [Option.map_some', Option.some.injEq]
  split
  · exact hs.2.2.2.2.2.1
  · rfl

/-- Witness of C5: node 2 holds a `Request` that node 1 sent to the broadcast address
255; consuming it hands one `Acknowledge` addressed to node 1 to the transport. -/
theorem C5_acknowledge_depends_on_source_witness :
    (network_wait_for_packet Config.sample idle 1 0 3 0 0 (some Header.uninit) (some none)
        (-1) (World.holding 2 ⟨255, 1, 3, 9, 1, 0, 245⟩ none)).map (fun g => g.world.sent) =
      some [(⟨1, 2, 2, 9, 1, 0, 9⟩, none)] :=
  (C5_acknowledge_depends_on_source Config.sample idle 0 0 3 0 0 Header.uninit (some none)
    (-1) (World.holding 2 ⟨255, 1, 3, 9, 1, 0, 245⟩ none) rfl (by decide) (by decide)).trans
    (by decide)

/-- Claim C6 (fails on the code).  A `Request` sent to the broadcast address is treated
like any other `Request`: `network_wait_for_acknowledge` only looks at the status.  So
when the transport accepts every write and the receive slot is empty, `network_send`
transmits the packet `NETWORK_SEND_ATTEMPTS` times, polls the receive slot
`NETWORK_TIMEOUT_ACKNOWLEDGE + 1` times after each transmission and returns
`NETWORK_TIMEOUT_EXCEEDED`. -/
theorem C6_broadcast_request_waits_for_acknowledge (cfg : Config) (busy : Nat → Bool)
    (fuel : Nat) (command : Nat) (data : Option (List Nat)) (length : Nat) (w : World)
    (hb : ∀ k, busy k = false) (hd : cfg.distinctErrors)
    (hinit : w.conn.is_initialized = true)
    (hreq : cfg.NETWORK_STATUS_REQUEST ≠ cfg.NETWORK_STATUS_CHECK
      ∧ cfg.NETWORK_STATUS_REQUEST ≠ cfg.NETWORK_STATUS_ACKNOWLEDGE)
    (hT : 0 ≤ cfg.NETWORK_TIMEOUT_ACKNOWLEDGE ∧ cfg.NETWORK_TIMEOUT_ACKNOWLEDGE ≤ 32767)
    (hinf : cfg.NETWORK_TIMEOUT_INFINITE < 0)
    (hN : 1 ≤ cfg.NETWORK_SEND_ATTEMPTS ∧ cfg.NETWORK_SEND_ATTEMPTS ≤ 255)
    (hslot : w.conn.is_packet_avaiable = false)
    (hfuel : cfg.NETWORK_SEND_ATTEMPTS + cfg.NETWORK_TIMEOUT_ACKNOWLEDGE.toNat + 1 ≤ fuel) :
    (network_send cfg busy fuel cfg.NETWORK_ADDRESS_BROADCAST cfg.NETWORK_STATUS_REQUEST
        command data length w).map (fun r => (r.1, r.2.sent.length, r.2.polls)) =
      some (cfg.NETWORK_TIMEOUT_EXCEEDED, w.sent.length + cfg.NETWORK_SEND_ATTEMPTS,
        w.polls + cfg.NETWORK_SEND_ATTEMPTS * (cfg.NETWORK_TIMEOUT_ACKNOWLEDGE.toNat + 1)) := by
  have h := send_times_out cfg busy fuel cfg.NETWORK_ADDRESS_BROADCAST
    cfg.NETWORK_STATUS_REQUEST command data length w hb hd hinit hreq hT hinf hN
    (by simp [slot_matches, hslot]) hfuel
  cases hs : network_send cfg busy fuel cfg.NETWORK_ADDRESS_BROADCAST
      cfg.NETWORK_STATUS_REQUEST command data length w with
  | none => simp [hs] at h
  | some r =>
    simp only [hs, Option.map_some', Option.some.injEq, Prod.mk.injEq] at h ⊢
    obtain ⟨h1, h2, h3, -⟩ := h
    simp [h1, h2, h3]

/-- Witness of C6: node 1 broadcasts a `Request` while its receive slot is empty; the
call transmits 3 times, polls the slot 12 times and returns `NETWORK_TIMEOUT_EXCEEDED`
(code 4) instead of `NETWORK_NO_ERROR` after a single transmission. -/
theorem C6_broadcast_request_waits_for_acknowledge_witness :
    (network_send Config.sample idle 7 255 3 9 (some [10, 20]) 2 (World.fresh 1)).map
        (fun r => (r.1, r.2.sent.length, r.2.polls)) = some (4, 3, 12) :=
  C6_broadcast_request_waits_for_acknowledge Config.sample idle 7 9 (some [10, 20]) 2
    (World.fresh 1) (fun _ => rfl) (by decide) rfl (by decide) (by decide) (by decide)
    (by decide) rfl (by decide)

/-- Claim C7 (fails on the code).  The scan of `network_initialize` tests
`address <= NETWORK_ADDRESS_MAX` after the probe of the incremented candidate, so it
probes `NETWORK_ADDRESS_MAX + 1` as well: when every address of the range is in use and
`NETWORK_ADDRESS_MAX + 1` is reported free, the call returns `NETWORK_NO_ERROR` and
claims `NETWORK_ADDRESS_MAX + 1`, an address outside the range. -/
theorem C7_claims_address_past_maximum (cfg : Config) (used : Nat → Bool) (fuel : Nat)
    (w : World)
    (huninit : w.conn.is_initialized = false)
    (hmin : cfg.NETWORK_ADDRESS_MIN ≤ cfg.NETWORK_ADDRESS_MAX)
    (hmax : cfg.NETWORK_ADDRESS_MAX < 255)
    (hused : ∀ a, cfg.NETWORK_ADDRESS_MIN ≤ a → a ≤ cfg.NETWORK_ADDRESS_MAX → used a = true)
    (hfree : used (cfg.NETWORK_ADDRESS_MAX + 1) = false)
    (hfuel : cfg.NETWORK_ADDRESS_MAX - cfg.NETWORK_ADDRESS_MIN + 2 ≤ fuel) :
    network_initialize_with cfg (probe used) fuel w =
      some (cfg.NETWORK_NO_ERROR,
        { w with conn := { w.conn with address := cfg.NETWORK_ADDRESS_MAX + 1, last_id := 0,
                                       is_packet_avaiable := false,
                                       is_initialized := true } }) := by
  have hloop := init_loop_overrun cfg used hmax hfree
    (cfg.NETWORK_ADDRESS_MAX + 1 - cfg.NETWORK_ADDRESS_MIN) fuel
    ((cfg.NETWORK_ADDRESS_MIN + 255) % 256) cfg.NETWORK_ADDRESS_MIN
    { w with conn := { w.conn with address := cfg.NETWORK_ADDRESS_NONE, last_id := 0,
                                   is_packet_avaiable := false, is_initialized := true } }
    (by omega) (by omega) hused (by omega)
  unfold network_initialize_with
  rw [if_pos huninit]
  simp only []
  rw [hloop]
  rfl

/-- Witness of C7: with the range 1..8, the addresses 1 to 8 in use and 9 free, the node
claims address 9. -/
theorem C7_claims_address_past_maximum_witness :
    network_initialize_with Config.sample (probe (fun a => decide (a ≠ 9))) 9 World.boot =
      some (0, { World.boot with conn := { World.boot.conn with address := 9,
                                                                 is_initialized := true } }) :=
  C7_claims_address_past_maximum Config.sample (fun a => decide (a ≠ 9)) 9 World.boot rfl
    (by decide) (by decide)
    (fun a _ h => by
      have h' : a ≤ 8 := h
      simp; omega)
    (by decide) (by decide)

/-- Claim C8.  A header stamped as `network_write_packet` does passes the validity test
of the reassembler, `network_calculate_checksum(h) == h.checksum`; a header that differs
from a stamped header in exactly one of its seven bytes fails it. -/
theorem C8_checksum_detects_single_byte_corruption (h h' : Header)
    (hdiff : differInOneByte h.stamp h') :
    (network_calculate_checksum h.stamp).1 = h.stamp.checksum ∧
      (network_calculate_checksum h').1 ≠ h'.checksum := by
  constructor
  · simp [Header.stamp, checksum_fst]
  · obtain ⟨i, hi, hne, hrest⟩ := hdiff
    have e0 := hrest 0 (by decide)
    have e1 := hrest 1 (by decide)
    have e2 := hrest 2 (by decide)
    have e3 := hrest 3 (by decide)
    have e4 := hrest 4 (by decide)
    have e5 := hrest 5 (by decide)
    have e6 := hrest 6 (by decide)
    simp only [checksum_fst]
    simp only [Header.byte, Header.bytes, Header.stamp, checksum_fst, checksum_snd, HEADER_SIZE,
      List.getD_cons_zero, List.getD_cons_succ] at *
    intro hx
    have hi' : i = 0 ∨ i = 1 ∨ i = 2 ∨ i = 3 ∨ i = 4 ∨ i = 5 ∨ i = 6 := by omega
    rcases hi' with rfl | rfl | rfl | rfl | rfl | rfl | rfl <;>
      simp_all [Nat.xor_left_inj, Nat.xor_right_inj]

/-- Witness of C8: the stamped header `2 1 3 9 1 3 | 11` passes the test, the same
header with the source byte changed from 1 to 5 fails it. -/
theorem C8_checksum_detects_single_byte_corruption_witness :
    (network_calculate_checksum (Header.stamp ⟨2, 1, 3, 9, 1, 3, 0⟩)).1 =
        (Header.stamp ⟨2, 1, 3, 9, 1, 3, 0⟩).checksum ∧
      (network_calculate_checksum ⟨2, 5, 3, 9, 1, 3, 11⟩).1 ≠
        (Header.mk 2 5 3 9 1 3 11).checksum :=
  C8_checksum_detects_single_byte_corruption ⟨2, 1, 3, 9, 1, 3, 0⟩ ⟨2, 5, 3, 9, 1, 3, 11⟩
    ⟨1, by decide, by decide, fun j hj hne => by
      have hj' : j < 7 := hj
      have : j = 0 ∨ j = 2 ∨ j = 3 ∨ j = 4 ∨ j = 5 ∨ j = 6 := by omega
      rcases this with rfl | rfl | rfl | rfl | rfl | rfl <;> rfl⟩

/-- Claim C9.  A seven-byte header addressed to this node or to everybody whose checksum
byte is not the XOR of its other six bytes, fed byte by byte to the idle reassembler
that holds no payload block: the first six calls return 0 and the seventh returns the
length field; afterwards the byte counter is 0, no payload block is held, and the
connection (with the receive slot) and the transport trace are unchanged. -/
theorem C9_corrupted_checksum_skips_payload (cfg : Config) (busy : Nat → Bool) (fuel : Nat)
    (w : World) (h : Header)
    (hidle : w.packet_index = 0) (hbuf : w.packet_data = none)
    (hdest : h.destination = w.conn.address ∨ h.destination = cfg.NETWORK_ADDRESS_BROADCAST)
    (hck : h.checksum ≠
      h.destination ^^^ h.source ^^^ h.status ^^^ h.command ^^^ h.id ^^^ h.length)
    (hlen : h.length < 256)
    (hcodes : cfg.NETWORK_INVALID_PACKET ≠ cfg.NETWORK_NO_ERROR) :
    feed cfg busy fuel h.bytes w =
      some ([0, 0, 0, 0, 0, 0, h.length],
        { conn := w.conn, packet_index := 0, packet_header := h, packet_data := none,
          writes := w.writes, wire := w.wire, sent := w.sent, polls := w.polls }) := by
  have h6 := feed_header6 cfg busy fuel w h.destination h.source h.status h.command h.id
    h.length hidle hdest
  have h7 := feed_one _ _ _ _ _ _ (step_checksum_bad cfg busy fuel
    { w with packet_header := { destination := h.destination, source := h.source,
                                status := h.status, command := h.command, id := h.id,
                                length := h.length, checksum := w.packet_header.checksum },
             packet_index := 6 } h.checksum rfl
    (by simp only [checksum_fst]; exact fun e => hck e.symm) hcodes)
  have := feed_append cfg busy fuel _ _ _ _ _ _ _ h6 h7
  simp only [List.cons_append, List.nil_append, Nat.mod_eq_of_lt hlen] at this
  rw [← hbuf]
  exact this

/-- Witness of C9: a header for node 2 announcing 3 payload bytes with checksum byte 0
instead of 11. -/
theorem C9_corrupted_checksum_skips_payload_witness :
    feed Config.sample idle 0 (Header.bytes ⟨2, 1, 3, 9, 1, 3, 0⟩) (World.fresh 2) =
      some ([0, 0, 0, 0, 0, 0, 3],
        { conn := (World.fresh 2).conn, packet_index := 0,
          packet_header := ⟨2, 1, 3, 9, 1, 3, 0⟩, packet_data := none,
          writes := 0, wire := [], sent := [], polls := 0 }) :=
  C9_corrupted_checksum_skips_payload Config.sample idle 0 (World.fresh 2)
    ⟨2, 1, 3, 9, 1, 3, 0⟩ rfl rfl (Or.inl rfl) (by decide) (by decide) (by decide)

/-- Claim C10 (fails on the code).  The second byte of a frame whose destination is
neither this node nor the broadcast address makes `network_process_byte` return
`7 + length - 2` truncated to 8 bits, where `length` is the length field that the
header buffer holds at that moment: the byte left there by the previous frame, because
the length byte of the current frame (offset 5) has not been read yet. -/
theorem C10_skip_count_uses_stale_length (cfg : Config) (busy : Nat → Bool) (fuel : Nat)
    (w : World) (d s : Nat)
    (hidle : w.packet_index = 0)
    (hdest : d ≠ w.conn.address ∧ d ≠ cfg.NETWORK_ADDRESS_BROADCAST)
    (hcodes : cfg.NETWORK_INVALID_PACKET ≠ cfg.NETWORK_NO_ERROR) :
    feed cfg busy fuel [d, s] w =
      some ([0, (HEADER_SIZE + w.packet_header.length + 256 - 2) % 256],
        { w with packet_header := { w.packet_header with destination := d, source := s },
                 packet_index := 0 }) := by
  obtain ⟨conn, idx, hdr, data, writes, wire, sent, polls⟩ := w
  simp only at hidle hdest
  subst hidle
  simp only [feed]
  rw [step_header _ _ _ _ _ (by simp) (by simp)]
  simp only [Header.write]
  rw [step_source_bad _ _ _ _ _ rfl hdest hcodes]

/-- Witness of C10: node 1, whose header buffer still holds length 0, receives the first
two bytes of a frame for node 2 (which announces 5 payload bytes further on): the second
call returns 5, not the 10 bytes of the frame that remain. -/
theorem C10_skip_count_uses_stale_length_witness :
    feed Config.sample idle 0 [2, 9] (World.fresh 1) =
      some ([0, 5],
        { World.fresh 1 with packet_header := ⟨2, 9, 0, 0, 0, 0, 0⟩, packet_index := 0 }) :=
  C10_skip_count_uses_stale_length Config.sample idle 0 (World.fresh 1) 2 9 rfl
    (by decide) (by decide)

/-- Claim C16.  For every header, `network_calculate_checksum` returns the XOR of the six
bytes destination, source, status, command, id and length, whatever value the checksum
field holds, and leaves the header, checksum field included, as it was. -/
theorem C16_checksum_is_xor_of_six_bytes (h : Header) (c : Nat) :
    (network_calculate_checksum h).1 =
        h.destination ^^^ h.source ^^^ h.status ^^^ h.command ^^^ h.id ^^^ h.length ∧
      (network_calculate_checksum { h with checksum := c }).1 =
        (network_calculate_checksum h).1 ∧
      (network_calculate_checksum h).2 = h := by
  refine ⟨checksum_fst h, ?_, checksum_snd h⟩
  rw [checksum_fst, checksum_fst]

/-- Claim C13.  On a connection with `is_initialized = false` each of `network_send`,
`network_get_response`, `network_get_request`, `network_send_response` and
`network_wait_for_packet` returns `NETWORK_NOT_INITIALIZED` for every argument list and
every amount of fuel, and the world (connection, reassembler and transport trace) is the
one before the call; the caller's output variables are untouched as well. -/
theorem C13_uninitialized_operations_fail (cfg : Config) (busy : Nat → Bool) (fuel : Nat)
    (w : World) (huninit : w.conn.is_initialized = false)
    (destination status command id length : Nat) (data : Option (List Nat))
    (request : RequestData) (packet_header : Option Header)
    (packet_data : Option (Option (List Nat))) (response_length : Nat) (timeout : Int) :
    network_send cfg busy fuel destination status command data length w =
        some (cfg.NETWORK_NOT_INITIALIZED, w) ∧
      network_get_response cfg busy fuel destination command data length packet_data
          response_length timeout w =
        some ⟨cfg.NETWORK_NOT_INITIALIZED, packet_data, response_length, w⟩ ∧
      network_get_request cfg busy fuel request timeout w =
        some (cfg.NETWORK_NOT_INITIALIZED, request, w) ∧
      network_send_response cfg busy fuel request data length w =
        some (cfg.NETWORK_NOT_INITIALIZED, w) ∧
      network_wait_for_packet cfg busy fuel destination status command id packet_header
          packet_data timeout w =
        some ⟨cfg.NETWORK_NOT_INITIALIZED, packet_header, packet_data, w⟩ := by
  refine ⟨?_, ?_, ?_, ?_, ?_⟩
  · unfold network_send; rw [if_pos huninit]
  · unfold network_get_response; rw [if_pos huninit]
  · unfold network_get_request; rw [if_pos huninit]
  · unfold network_send_response; rw [if_pos huninit]
  · unfold network_wait_for_packet; rw [if_pos huninit]

/-- Witness of C13: the five operations on a node that has not run
`network_initialize`. -/
theorem C13_uninitialized_operations_fail_witness :
    network_send Config.sample idle 5 2 3 9 (some [10, 20]) 2 World.boot =
        some (1, World.boot) ∧
      network_get_response Config.sample idle 5 2 9 (some [10, 20]) 2 (some none) 0 (-1)
          World.boot = some ⟨1, some none, 0, World.boot⟩ ∧
      network_get_request Config.sample idle 5 ⟨0, 0, 0, 0, none⟩ (-1) World.boot =
        some (1, ⟨0, 0, 0, 0, none⟩, World.boot) ∧
      network_send_response Config.sample idle 5 ⟨0, 0, 0, 0, none⟩ (some [10, 20]) 2
          World.boot = some (1, World.boot) ∧
      network_wait_for_packet Config.sample idle 5 2 3 9 0 (some Header.uninit) (some none)
          (-1) World.boot = some ⟨1, some Header.uninit, some none, World.boot⟩ :=
  C13_uninitialized_operations_fail Config.sample idle 5 World.boot rfl 2 3 9 0 2
    (some [10, 20]) ⟨0, 0, 0, 0, none⟩ (some Header.uninit) (some none) 0 (-1)

/-- Claim C12 (fails on the code).  When the transport accepts every byte,
`network_write_packet` passes `7 + length` bytes to `network_write_byte`, but the loop
of `network_write_bytes` passes `*data` in every iteration: the wire receives seven
copies of the destination byte followed by `length` copies of the first payload byte,
not the header fields and the payload in order. -/
theorem C12_wire_repeats_first_byte (cfg : Config) (busy : Nat → Bool) (fuel : Nat)
    (h : Header) (data : Option (List Nat)) (w : World)
    (hb : ∀ k, busy k = false) (hd : cfg.distinctErrors) :
    (network_write_packet cfg busy (fuel + 1) h data w).map
        (fun r => (r.1, r.2.wire, r.2.writes)) =
      some (cfg.NETWORK_NO_ERROR,
        w.wire ++ List.replicate 7 h.destination ++
          List.replicate h.length ((data.getD []).headD 0),
        w.writes + 7 + h.length) := by
  rw [write_packet_eq cfg busy fuel h data w hd, write_once_idle_eq cfg busy hb]
  rfl

/-- Witness of C12: the header `2 1 3 9 1 2` with payload `10 20` goes out as
`2 2 2 2 2 2 2 10 10` instead of `2 1 3 9 1 2 10 10 20`. -/
theorem C12_wire_repeats_first_byte_witness :
    (network_write_packet Config.sample idle 1 ⟨2, 1, 3, 9, 1, 2, 0⟩ (some [10, 20])
        (World.fresh 1)).map (fun r => (r.1, r.2.wire, r.2.writes)) =
      some (0, [2, 2, 2, 2, 2, 2, 2, 10, 10], 9) :=
  C12_wire_repeats_first_byte Config.sample idle 0 ⟨2, 1, 3, 9, 1, 2, 0⟩ (some [10, 20])
    (World.fresh 1) (fun _ => rfl) (by decide)

/-- Claim C14 (fails on the code when the probe reports `NETWORK_ADDRESS_MAX + 1` free).
On an uninitialized connection with every address of the range in use, the scan also
probes `NETWORK_ADDRESS_MAX + 1`: if that address is reported in use, the call returns
`NETWORK_NONE_ADDRESS_AVAILABLE` and leaves `is_initialized = false` with the address
`NETWORK_ADDRESS_NONE`; if it is reported free, the call returns `NETWORK_NO_ERROR` and
claims it.  On an initialized connection the call returns `NETWORK_NO_ERROR` and
changes nothing, for every probe. -/
theorem C14_full_range_outcome_depends_on_next_address (cfg : Config) (used : Nat → Bool)
    (fuel : Nat) (w : World)
    (hmin : cfg.NETWORK_ADDRESS_MIN ≤ cfg.NETWORK_ADDRESS_MAX)
    (hmax : cfg.NETWORK_ADDRESS_MAX < 255)
    (hused : ∀ a, cfg.NETWORK_ADDRESS_MIN ≤ a → a ≤ cfg.NETWORK_ADDRESS_MAX → used a = true)
    (hfuel : cfg.NETWORK_ADDRESS_MAX - cfg.NETWORK_ADDRESS_MIN + 2 ≤ fuel) :
    (w.conn.is_initialized = false →
      network_initialize_with cfg (probe used) fuel w =
        some (if used (cfg.NETWORK_ADDRESS_MAX + 1) = true then
            (cfg.NETWORK_NONE_ADDRESS_AVAILABLE,
              { w with conn := { w.conn with address := cfg.NETWORK_ADDRESS_NONE,
                                             last_id := 0, is_packet_avaiable := false,
                                             is_initialized := false } })
          else
            (cfg.NETWORK_NO_ERROR,
              { w with conn := { w.conn with address := cfg.NETWORK_ADDRESS_MAX + 1,
                                             last_id := 0, is_packet_avaiable := false,
                                             is_initialized := true } }))) ∧
    (w.conn.is_initialized = true →
      (∀ check, network_initialize_with cfg check fuel w = some (cfg.NETWORK_NO_ERROR, w)) ∧
      ∀ busy, network_initialize cfg busy fuel w = some (cfg.NETWORK_NO_ERROR, w)) := by
  constructor
  · intro huninit
    have hloop := init_loop_scan cfg used hmax
      (cfg.NETWORK_ADDRESS_MAX + 1 - cfg.NETWORK_ADDRESS_MIN) fuel
      ((cfg.NETWORK_ADDRESS_MIN + 255) % 256) cfg.NETWORK_ADDRESS_MIN
      { w with conn := { w.conn with address := cfg.NETWORK_ADDRESS_NONE, last_id := 0,
                                     is_packet_avaiable := false, is_initialized := true } }
      (by omega) (by omega) hused (by omega)
    unfold network_initialize_with
    rw [if_pos huninit]
    simp only []
    rw [hloop]
    cases hu : used (cfg.NETWORK_ADDRESS_MAX + 1) <;> simp
  · intro hinit
    have hni : ¬ (w.conn.is_initialized = false) := by simp [hinit]
    refine ⟨fun check => ?_, fun busy => ?_⟩
    · unfold network_initialize_with; rw [if_neg hni]
    · unfold network_initialize network_initialize_with; rw [if_neg hni]

/-- Witness of C14: with the range 1..8 and a probe that reports exactly the addresses
1 to 8 in use, the uninitialized node does not fail with
`NETWORK_NONE_ADDRESS_AVAILABLE` (code 2): it returns `NETWORK_NO_ERROR` (code 0),
initialized, with address 9. -/
theorem C14_full_range_outcome_depends_on_next_address_witness :
    network_initialize_with Config.sample (probe (fun a => decide (a ≤ 8))) 20 World.boot =
      some (0, { World.boot with conn := { World.boot.conn with address := 9,
                                                                 is_initialized := true } }) :=
  ((C14_full_range_outcome_depends_on_next_address Config.sample (fun a => decide (a ≤ 8)) 20
    World.boot (by decide) (by decide)
    (fun a _ h => by
      have h' : a ≤ 8 := h
      simp [h'])
    (by decide)).1 rfl).trans rfl

/-- Counterexample to C17 as stated: node 2 holds a `Request`, the caller waits for a
`Response` (so the occupant fails the status filter) with timeout 0 and passes `NULL`
for the header.  The call returns `NETWORK_NO_ERROR` (code 0), not
`NETWORK_TIMEOUT_EXCEEDED` (code 4), and the slot is emptied: with a `NULL` header
`network_get_last_packet` discards the occupant and no filter is applied. -/
theorem C17_null_header_discards_occupant :
    packet_mismatch Config.sample 0 4 0 0 (some ⟨2, 1, 3, 9, 1, 0, 8⟩) = true ∧
      (network_wait_for_packet Config.sample idle 1 0 4 0 0 none none 0
          (World.holding 2 ⟨2, 1, 3, 9, 1, 0, 8⟩ none)).map
        (fun g => (g.error, g.world.conn.is_packet_avaiable, g.world.polls)) =
      some (0, false, 1) ∧
      Config.sample.NETWORK_TIMEOUT_EXCEEDED = 4 := by
  decide

/-- Claim C17, amended.  On an initialized connection, for a finite timeout of `n` ticks
(`0 ≤ n ≤ 32767`), when the receive slot is empty, or the caller passes a header buffer
and the slot holds a packet that fails a filter: `network_wait_for_packet` polls the
slot exactly `n + 1` times and returns `NETWORK_TIMEOUT_EXCEEDED`; the connection with
its slot, the reassembler and the transport trace are unchanged. -/
theorem C17_wait_without_match_times_out (cfg : Config) (busy : Nat → Bool) (fuel : Nat)
    (source status command id : Nat) (ph : Option Header) (pd : Option (Option (List Nat)))
    (n : Nat) (w : World)
    (hinit : w.conn.is_initialized = true)
    (hcase : w.conn.is_packet_avaiable = false ∨
      (ph.isSome = true ∧ ¬ slot_matches cfg source status command id w))
    (hinf : cfg.NETWORK_TIMEOUT_INFINITE < 0) (hn : n ≤ 32767) (hfuel : n + 1 ≤ fuel)
    (hne : cfg.NETWORK_NO_ERROR ≠ cfg.NETWORK_NO_DATA) :
    (network_wait_for_packet cfg busy fuel source status command id ph pd (n : Int) w).map
        (fun g => (g.error, g.world)) =
      some (cfg.NETWORK_TIMEOUT_EXCEEDED, { w with polls := w.polls + (n + 1) }) := by
  rcases hcase with ha | ⟨hph, hm⟩
  · rw [wait_for_packet_empty cfg busy fuel source status command id ph pd n w hinit ha hinf
      hn hfuel hne]
    rfl
  · obtain ⟨h0, rfl⟩ := Option.isSome_iff_exists.mp hph
    rw [wait_for_packet_nomatch cfg busy fuel source status command id h0 pd n w hinit hm
      hinf hn hfuel hne]
    rfl

/-- Witness of C17 (amended): node 2 holds a `Request`, the caller waits 3 ticks for a
`Response` with a header buffer: 4 polls, `NETWORK_TIMEOUT_EXCEEDED`, the occupant stays
in place. -/
theorem C17_wait_without_match_times_out_witness :
    (network_wait_for_packet Config.sample idle 4 0 4 0 0 (some Header.uninit) (some none)
        3 (World.holding 2 ⟨2, 1, 3, 9, 1, 0, 8⟩ none)).map (fun g => (g.error, g.world)) =
      some (4, { World.holding 2 ⟨2, 1, 3, 9, 1, 0, 8⟩ none with polls := 4 }) :=
  C17_wait_without_match_times_out Config.sample idle 4 0 4 0 0 (some Header.uninit)
    (some none) 3 (World.holding 2 ⟨2, 1, 3, 9, 1, 0, 8⟩ none) rfl
    (Or.inr ⟨rfl, by decide⟩) (by decide) (by decide) (by decide) (by decide)

/-- Claim C18.  On an initialized connection `network_send` returns for every behaviour
of the line and every content of the receive slot, and afterwards: `last_id` is the old
value plus one modulo 256 and the rest of the connection (address, receive slot) is
unchanged; at least one packet was handed to the transport and every packet handed to
the transport during the call carries the given destination, status, command and
length, the own address as source, the new `last_id` as id, the XOR of these six bytes
as checksum, and the caller's payload pointer. -/
theorem C18_send_increments_id_once (cfg : Config) (busy : Nat → Bool) (fuel : Nat)
    (destination status command : Nat) (data : Option (List Nat)) (length : Nat) (w : World)
    (hd : cfg.distinctErrors)
    (hany : cfg.NETWORK_STATUS_ACKNOWLEDGE ≠ cfg.NETWORK_STATUS_ANY)
    (hinit : w.conn.is_initialized = true)
    (hT : 0 ≤ cfg.NETWORK_TIMEOUT_ACKNOWLEDGE ∧ cfg.NETWORK_TIMEOUT_ACKNOWLEDGE ≤ 32767)
    (hinf : cfg.NETWORK_TIMEOUT_INFINITE < 0)
    (hN : cfg.NETWORK_SEND_ATTEMPTS ≤ 255)
    (hfuel : cfg.NETWORK_SEND_ATTEMPTS + cfg.NETWORK_TIMEOUT_ACKNOWLEDGE.toNat + 2 ≤ fuel) :
    ∃ r, network_send cfg busy fuel destination status command data length w = some r ∧
      r.2.conn = { w.conn with last_id := (w.conn.last_id + 1) % 256 } ∧
      w.sent <+: r.2.sent ∧ sentDuring w r.2 ≠ [] ∧
      ∀ x ∈ sentDuring w r.2,
        x = (⟨destination, w.conn.address, status, command, (w.conn.last_id + 1) % 256,
              length,
              destination ^^^ w.conn.address ^^^ status ^^^ command ^^^
                ((w.conn.last_id + 1) % 256) ^^^ length⟩, data) := by
  obtain ⟨r, hr⟩ := send_returns cfg busy hd fuel destination status command data length w
    hT hinf hN hfuel
  obtain ⟨hconn, -, -, -, k, hk⟩ := send_frame cfg busy hd fuel destination status command
    data length w r (Or.inr (Or.inr hany)) hinit hr
  have hdrop : sentDuring w r.2 = List.replicate (k + 1)
      ((Header.mk destination w.conn.address status command
        ((w.conn.last_id + 1) % 256) length 0).stamp, data) := by
    simp [sentDuring, hk]
  refine ⟨r, hr, hconn, ⟨_, hk.symm⟩, ?_, ?_⟩
  · rw [hdrop]; simp [List.replicate_succ]
  · intro x hx
    rw [hdrop] at hx
    rw [List.eq_of_mem_replicate hx, stamp_eq]

/-- Witness of C18: node 1 (`last_id` 0) sends a `Request` to node 2 with no
acknowledgment in sight. -/
theorem C18_send_increments_id_once_witness :
    ∃ r, network_send Config.sample idle 8 2 3 9 (some [10, 20]) 2 (World.fresh 1) = some r ∧
      r.2.conn = { (World.fresh 1).conn with
        last_id := ((World.fresh 1).conn.last_id + 1) % 256 } ∧
      (World.fresh 1).sent <+: r.2.sent ∧ sentDuring (World.fresh 1) r.2 ≠ [] ∧
      ∀ x ∈ sentDuring (World.fresh 1) r.2,
        x = (⟨2, (World.fresh 1).conn.address, 3, 9,
              ((World.fresh 1).conn.last_id + 1) % 256, 2,
              2 ^^^ (World.fresh 1).conn.address ^^^ 3 ^^^ 9 ^^^
                (((World.fresh 1).conn.last_id + 1) % 256) ^^^ 2⟩, some [10, 20]) :=
  C18_send_increments_id_once Config.sample idle 8 2 3 9 (some [10, 20]) 2 (World.fresh 1)
    (by decide) (by decide) rfl (by decide) (by decide) (by decide) (by decide)

/-- Claim C19.  Node `ws` (the sender) sends a packet `p` with a status other than
`Check` and `Acknowledge` to `destination`; node `wr` has the own address `destination`;
every write is accepted.  (1) `network_acknowledge_packet`, called on `wr` with the
header `p` that `network_send` builds, hands exactly one packet to the transport: the
`Acknowledge` with destination = `p.source`, source = `destination`, command = `p.command`,
id = `p.id` and length 0.  (2) That `Acknowledge` passes the filters of
`network_wait_for_packet` for source `p.destination`, status `Acknowledge`, command
`p.command` and id `p.id`.  (3) With it in the sender's receive slot,
`network_wait_for_acknowledge(p)` returns `NETWORK_NO_ERROR` after one poll, and (4)
`network_send` returns `NETWORK_NO_ERROR` after one transmission and one poll. -/
theorem C19_acknowledge_correlates (cfg : Config) (busy : Nat → Bool) (fuel : Nat)
    (destination status command : Nat) (data : Option (List Nat)) (length : Nat)
    (ws wr : World)
    (hb : ∀ k, busy k = false) (hd : cfg.distinctErrors)
    (hinit : ws.conn.is_initialized = true)
    (hst : status ≠ cfg.NETWORK_STATUS_CHECK ∧ status ≠ cfg.NETWORK_STATUS_ACKNOWLEDGE)
    (hsrc : ws.conn.address ≠ cfg.NETWORK_ADDRESS_BROADCAST)
    (hrinit : wr.conn.is_initialized = true)
    (hraddr : wr.conn.address = destination)
    (hfull : ws.conn.is_packet_avaiable = true)
    (hslot : ws.conn.last_packet_header =
      (Header.mk ws.conn.address destination cfg.NETWORK_STATUS_ACKNOWLEDGE command
        ((ws.conn.last_id + 1) % 256) 0 0).stamp) :
    (network_acknowledge_packet cfg busy (fuel + 1)
        (some (Header.mk destination ws.conn.address status command
          ((ws.conn.last_id + 1) % 256) length 0).stamp) wr).map
        (fun r => (r.1, r.2.sent, r.2.polls, r.2.conn)) =
      some (cfg.NETWORK_NO_ERROR,
        wr.sent ++ [((Header.mk ws.conn.address destination cfg.NETWORK_STATUS_ACKNOWLEDGE
          command ((ws.conn.last_id + 1) % 256) 0 0).stamp, none)],
        wr.polls, wr.conn) ∧
    packet_mismatch cfg destination cfg.NETWORK_STATUS_ACKNOWLEDGE command
        ((ws.conn.last_id + 1) % 256)
        (some (Header.mk ws.conn.address destination cfg.NETWORK_STATUS_ACKNOWLEDGE command
          ((ws.conn.last_id + 1) % 256) 0 0).stamp) = false ∧
    (network_wait_for_acknowledge cfg busy (fuel + 1)
        (Header.mk destination ws.conn.address status command
          ((ws.conn.last_id + 1) % 256) length 0).stamp ws).map
        (fun r => (r.1, r.2.sent, r.2.polls, r.2.conn)) =
      some (cfg.NETWORK_NO_ERROR, ws.sent, ws.polls + 1, ws.conn) ∧
    (network_send cfg busy (fuel + 2) destination status command data length ws).map
        (fun r => (r.1, r.2.sent, r.2.polls, r.2.conn)) =
      some (cfg.NETWORK_NO_ERROR,
        ws.sent ++ [((Header.mk destination ws.conn.address status command
          ((ws.conn.last_id + 1) % 256) length 0).stamp, data)],
        ws.polls + 1,
        { ws.conn with last_id := (ws.conn.last_id + 1) % 256 }) := by
  have hpass : packet_mismatch cfg destination cfg.NETWORK_STATUS_ACKNOWLEDGE command
      ((ws.conn.last_id + 1) % 256)
      (some (Header.mk ws.conn.address destination cfg.NETWORK_STATUS_ACKNOWLEDGE command
        ((ws.conn.last_id + 1) % 256) 0 0).stamp) = false := by
    simp [packet_mismatch]
  have hm : slot_matches cfg destination cfg.NETWORK_STATUS_ACKNOWLEDGE command
      ((ws.conn.last_id + 1) % 256) ws := by
    refine ⟨hfull, ?_⟩
    rw [hslot]
    exact hpass
  have hack : ws.conn.last_packet_header.status = cfg.NETWORK_STATUS_ACKNOWLEDGE := by
    rw [hslot]; rfl
  refine ⟨?_, hpass, ?_, ?_⟩
  · have h := acknowledge_packet_sends cfg busy fuel
      (Header.mk destination ws.conn.address status command
        ((ws.conn.last_id + 1) % 256) length 0).stamp wr hb hd hrinit
      (by simpa using hsrc) (by simpa using hst.2)
    rw [h, hraddr]
    simp
  · exact wait_for_acknowledge_matched cfg busy fuel
      (Header.mk destination ws.conn.address status command
        ((ws.conn.last_id + 1) % 256) length 0).stamp ws hd hinit
      (by simpa using hst) (by simpa using hm) hack
  · exact send_acknowledged cfg busy fuel destination status command data length ws hb hd
      hinit hst hm hack

/-- Witness of C19: node 1 sends the `Request` `2 1 3 9 1 2 | 10`; node 2 answers it with
the `Acknowledge` `1 2 2 9 1 0 | 9`, and with that header in the slot of node 1
`network_send` returns 0 after one transmission and one poll. -/
theorem C19_acknowledge_correlates_witness :
    (network_acknowledge_packet Config.sample idle 1 (some ⟨2, 1, 3, 9, 1, 2, 10⟩)
        (World.fresh 2)).map (fun r => (r.1, r.2.sent, r.2.polls, r.2.conn)) =
      some (0, [(⟨1, 2, 2, 9, 1, 0, 9⟩, none)], 0, (World.fresh 2).conn) ∧
    (network_send Config.sample idle 2 2 3 9 (some [10, 20]) 2
        (World.holding 1 ⟨1, 2, 2, 9, 1, 0, 9⟩ none)).map
        (fun r => (r.1, r.2.sent, r.2.polls, r.2.conn)) =
      some (0, [(⟨2, 1, 3, 9, 1, 2, 10⟩, some [10, 20])], 1,
        { (World.holding 1 ⟨1, 2, 2, 9, 1, 0, 9⟩ none).conn with last_id := 1 }) :=
  have h := C19_acknowledge_correlates Config.sample idle 0 2 3 9 (some [10, 20]) 2
    (World.holding 1 ⟨1, 2, 2, 9, 1, 0, 9⟩ none) (World.fresh 2) (fun _ => rfl) (by decide)
    rfl (by decide) (by decide) rfl rfl rfl rfl
  ⟨h.1.trans rfl, h.2.2.2.trans rfl⟩

/-- Claim C11.  A well-formed `Check` frame (valid checksum, `length` payload bytes,
`7 + length ≤ 255`) addressed to this node or to everybody, fed byte by byte to the idle
reassembler (byte counter 0, no payload block held) of an initialized node whose
transport accepts every write: every call returns 0; exactly one packet is handed to
the transport, the `Acknowledge` with destination = source of the `Check`, source = own
address, command `NETWORK_COMMAND_NONE` and length 0; the receive slot is not polled
(no acknowledgment wait); the slot (flag, header, payload) is unchanged and the byte
counter is 0.  The payload bytes went into a block of their own of `length` bytes. -/
theorem C11_check_frame_is_acknowledged_once (cfg : Config) (busy : Nat → Bool) (fuel : Nat)
    (w : World) (h : Header) (P : List Nat)
    (hb : ∀ k, busy k = false) (hd : cfg.distinctErrors)
    (hinit : w.conn.is_initialized = true)
    (hidle : w.packet_index = 0) (hbuf : w.packet_data = none)
    (hdest : h.destination = w.conn.address ∨ h.destination = cfg.NETWORK_ADDRESS_BROADCAST)
    (hck : h.checksum =
      h.destination ^^^ h.source ^^^ h.status ^^^ h.command ^^^ h.id ^^^ h.length)
    (hst : h.status = cfg.NETWORK_STATUS_CHECK)
    (hlen : P.length = h.length) (hfit : 7 + P.length ≤ 255) :
    (feed cfg busy (fuel + 2) (h.bytes ++ P) w).map
        (fun r => (r.1, r.2.sent, r.2.polls, r.2.conn.slot, r.2.packet_index,
          r.2.packet_data)) =
      some (List.replicate (7 + P.length) 0,
        w.sent ++ [((Header.mk h.source w.conn.address cfg.NETWORK_STATUS_ACKNOWLEDGE
          cfg.NETWORK_COMMAND_NONE ((w.conn.last_id + 1) % 256) 0 0).stamp, none)],
        w.polls, w.conn.slot, 0, if P = [] then none else some P) := by
  rw [feed_frame_check cfg busy fuel w h P hb hd hinit hidle hdest hck hst hlen hfit]
  simp only [Option.map_some', hbuf, World.blockFor, ← hlen, storeAt_replicate]
  rfl

/-- Witness of C11: node 2 receives the `Check` frame `2 1 1 0 5 1 | 6` with one payload
byte from node 1 and answers with the `Acknowledge` `1 2 2 0 1 0 | 0`. -/
theorem C11_check_frame_is_acknowledged_once_witness :
    (feed Config.sample idle 2 (Header.bytes ⟨2, 1, 1, 0, 5, 1, 6⟩ ++ [42])
        (World.fresh 2)).map
        (fun r => (r.1, r.2.sent, r.2.polls, r.2.conn.slot, r.2.packet_index,
          r.2.packet_data)) =
      some (List.replicate 8 0, [(⟨1, 2, 2, 0, 1, 0, 0⟩, none)], 0,
        (World.fresh 2).conn.slot, 0, some [42]) :=
  (C11_check_frame_is_acknowledged_once Config.sample idle 0 (World.fresh 2)
    ⟨2, 1, 1, 0, 5, 1, 6⟩ [42] (fun _ => rfl) (by decide) rfl rfl rfl (Or.inl rfl)
    (by decide) rfl rfl (by decide)).trans rfl

/-- Claim C20 (fails on the code).  From a state with byte counter 0, no payload block
and an empty slot, two well-formed frames other than `Check` are fed, the second with a
non-empty payload.  The first goes into the receive slot; the second is completed while
the slot is occupied and is dropped, but `network_process_byte` only resets the byte
counter: afterwards the counter is 0 and the reassembler still holds the block with the
second payload, which the payload of the next frame will be stored into. -/
theorem C20_dropped_frame_keeps_payload_block (cfg : Config) (busy : Nat → Bool)
    (fuel : Nat) (w : World) (h1 h2 : Header) (P1 P2 : List Nat)
    (hidle : w.packet_index = 0) (hbuf : w.packet_data = none)
    (hslot : w.conn.is_packet_avaiable = false)
    (hdest1 : h1.destination = w.conn.address
      ∨ h1.destination = cfg.NETWORK_ADDRESS_BROADCAST)
    (hck1 : h1.checksum =
      h1.destination ^^^ h1.source ^^^ h1.status ^^^ h1.command ^^^ h1.id ^^^ h1.length)
    (hst1 : h1.status ≠ cfg.NETWORK_STATUS_CHECK)
    (hlen1 : P1.length = h1.length) (hfit1 : 7 + P1.length ≤ 255)
    (hdest2 : h2.destination = w.conn.address
      ∨ h2.destination = cfg.NETWORK_ADDRESS_BROADCAST)
    (hck2 : h2.checksum =
      h2.destination ^^^ h2.source ^^^ h2.status ^^^ h2.command ^^^ h2.id ^^^ h2.length)
    (hst2 : h2.status ≠ cfg.NETWORK_STATUS_CHECK)
    (hlen2 : P2.length = h2.length) (hfit2 : 7 + P2.length ≤ 255) (hP2 : P2 ≠ []) :
    (feed cfg busy fuel ((h1.bytes ++ P1) ++ (h2.bytes ++ P2)) w).map
        (fun r => (r.1, r.2.packet_index, r.2.packet_data, r.2.conn.slot)) =
      some (List.replicate (7 + P1.length) 0 ++ List.replicate (7 + P2.length) 0, 0,
        some P2, (true, h1, if P1 = [] then none else some P1)) := by
  have hf1 := feed_frame_stored cfg busy fuel w h1 P1 hidle hbuf hslot hdest1 hck1 hst1 hlen1
    hfit1
  have hf2 := feed_frame_dropped cfg busy fuel
    { w with
      conn := { w.conn with last_packet_header := h1,
                            last_packet_data := if P1 = [] then none else some P1,
                            is_packet_avaiable := true },
      packet_header := h1, packet_data := none, packet_index := 0 }
    h2 P2 rfl rfl hdest2 hck2 hst2 hlen2 hfit2
  rw [feed_append cfg busy fuel _ _ _ _ _ _ _ hf1 hf2]
  simp only [Option.map_some', hP2, if_false, World.blockFor, ← hlen2, storeAt_replicate]
  rfl

/-- Witness of C20: node 2 receives the `Request` `2 1 3 9 1 0 | 8` without payload and
then the `Request` `2 1 3 9 2 1 | 10` with the payload byte 42; afterwards the byte
counter is 0 and the reassembler holds the block `[42]`. -/
theorem C20_dropped_frame_keeps_payload_block_witness :
    (feed Config.sample idle 0
        ((Header.bytes ⟨2, 1, 3, 9, 1, 0, 8⟩ ++ []) ++ (Header.bytes ⟨2, 1, 3, 9, 2, 1, 10⟩ ++ [42]))
        (World.fresh 2)).map
        (fun r => (r.1, r.2.packet_index, r.2.packet_data, r.2.conn.slot)) =
      some (List.replicate 15 0, 0, some [42], (true, ⟨2, 1, 3, 9, 1, 0, 8⟩, none)) :=
  (C20_dropped_frame_keeps_payload_block Config.sample idle 0 (World.fresh 2)
    ⟨2, 1, 3, 9, 1, 0, 8⟩ ⟨2, 1, 3, 9, 2, 1, 10⟩ [] [42] rfl rfl rfl (Or.inl rfl)
    (by decide) (by decide) rfl (by decide) (Or.inl rfl) (by decide) (by decide) rfl
    (by decide) (by decide)).trans rfl

end Network
